import Mathlib

/-!
Courtyard clearance test provider

A shallow embedding of `qa/drc_proto/drc_test_provider_courtyard_clearance.cpp`
(class `test::DRC_TEST_PROVIDER_COURTYARD_CLEARANCE`): the definition check
`testFootprintCourtyardDefinitions`, the all-pairs overlap scan
`testOverlappingComponentCourtyards`, and `Run`.

The provider's own functions are translated statement by statement.  What they
call but the provider file does not contain (the polygon kernel, the courtyard
builder of a footprint, the error texts, the error-limit bookkeeping) is either a
field of `COLLABORATORS`, over which every theorem quantifies, or a small
definition marked as modelled from the specification.

A `MODULE*` is represented by the position of the footprint in
`m_board->Modules()`; the iterators `it1`, `it2` are such positions.
-/

namespace test

/-! ## Data model -/

/-- Integer point or vector (`VECTOR2I`); coordinates are integers in internal units. -/
structure VECTOR2I where
  x : Int
  y : Int
deriving DecidableEq, Repr

/-- The type `wxPoint`: an integer point; the cast `(wxPoint) v` keeps both coordinates. -/
abbrev wxPoint := VECTOR2I

/-- Axis-aligned rectangle (`BOX2I`): origin and size. -/
structure BOX2I where
  m_Pos : VECTOR2I
  m_Size : VECTOR2I
deriving DecidableEq, Repr

/-- A chain of vertices (`SHAPE_LINE_CHAIN`). -/
abbrev SHAPE_LINE_CHAIN := List VECTOR2I

/-- One polygon of a set (`SHAPE_POLY_SET::POLYGON`): its outline, then its holes. -/
abbrev POLYGON := List SHAPE_LINE_CHAIN

/-- Modelled from the spec: the polygon set class (`geometry/shape_poly_set.h` is not part of
the provider file).  "Polygon Set: one or more closed 2D contours, possibly with holes";
its bounding box is "cached per polygon set": `m_bbox` is the cache, which holds whatever
was last stored in it. -/
structure SHAPE_POLY_SET where
  m_polys : List POLYGON
  m_bbox : BOX2I
deriving DecidableEq, Repr

/-- A graphic primitive of a footprint (`DRAWSEGMENT`): its layer and its two end points. -/
structure DRAWSEGMENT where
  m_Layer : Nat
  m_Start : wxPoint
  m_End : wxPoint
deriving DecidableEq, Repr

/-- A footprint (`MODULE`): position, graphic primitives, and the two derived courtyard
polygons. -/
structure MODULE where
  m_Pos : wxPoint
  m_drawings : List DRAWSEGMENT
  m_poly_courtyard_front : SHAPE_POLY_SET
  m_poly_courtyard_back : SHAPE_POLY_SET
deriving DecidableEq, Repr

/-- The error codes this provider generates (header comment of the provider file). -/
inductive PCB_DRC_CODE where
  | DRCE_OVERLAPPING_FOOTPRINTS
  | DRCE_MISSING_COURTYARD
  | DRCE_MALFORMED_COURTYARD
deriving DecidableEq, Repr

/-- The two courtyard layers. -/
inductive SIDE where
  | front
  | back
deriving DecidableEq, Repr

/-- A violation (`DRC_ITEM`): error code, message, and the referenced footprints
(positions in `m_board->Modules()`). -/
structure DRC_ITEM where
  m_errorCode : PCB_DRC_CODE
  m_errorMessage : String
  m_items : List Nat
deriving DecidableEq, Repr

/-- A reported violation: the item and the position passed to `ReportWithMarker`. -/
structure MARKER where
  item : DRC_ITEM
  pos : wxPoint
deriving DecidableEq, Repr

/-- Calls to collaborators, recorded in call order (instrumentation). -/
inductive EVENT where
  | ReportStage (label : String) (current total : Nat)
  | BuildPolyCourtyard (footprint : Nat)
  | BuildBBoxCaches (footprint : Nat) (side : SIDE)
  | BBoxFromCaches (footprint : Nat) (side : SIDE)
  | BooleanIntersection (footprint other : Nat) (side : SIDE)
deriving DecidableEq, Repr

/-- What the provider calls and its file does not define.
* `BBox`, `Intersects`, `BooleanIntersection`: the geometry kernel (`BooleanIntersection` in
  `PM_FAST` mode, acting on contours).  The two laws say that a region common to an empty
  region and another one is empty.
* `BuildPolyCourtyard`: `MODULE::BuildPolyCourtyard`, as the success flag and the rebuilt
  front and back courtyard polygons.
* `GetErrorText`: the per-code default text of a `DRC_ITEM`. -/
structure COLLABORATORS where
  BBox : List POLYGON → BOX2I
  Intersects : BOX2I → BOX2I → Bool
  BooleanIntersection : List POLYGON → List POLYGON → List POLYGON
  BooleanIntersection_nil_left : ∀ b, BooleanIntersection [] b = []
  BooleanIntersection_nil_right : ∀ a, BooleanIntersection a [] = []
  BuildPolyCourtyard : MODULE → Bool × SHAPE_POLY_SET × SHAPE_POLY_SET
  GetErrorText : PCB_DRC_CODE → String

/-! ## Polygon set members used by the provider -/

/-- The default-constructed polygon set (`SHAPE_POLY_SET intersection;`). -/
def SHAPE_POLY_SET.new : SHAPE_POLY_SET := ⟨[], ⟨⟨0, 0⟩, ⟨0, 0⟩⟩⟩

/-- Modelled from the spec: `OutlineCount` (shape_poly_set is not in the provider file), the
"contour count" of the set. -/
def SHAPE_POLY_SET.OutlineCount (s : SHAPE_POLY_SET) : Nat := s.m_polys.length

/-- Modelled from the spec: `RemoveAllContours` (shape_poly_set is not in the provider file),
which leaves a set without contours. -/
def SHAPE_POLY_SET.RemoveAllContours (s : SHAPE_POLY_SET) : SHAPE_POLY_SET :=
  { s with m_polys := [] }

/-- Modelled from the spec: `Append( const SHAPE_POLY_SET& )` (shape_poly_set is not in the
provider file), which adds the contours of the other set. -/
def SHAPE_POLY_SET.Append (s other : SHAPE_POLY_SET) : SHAPE_POLY_SET :=
  { s with m_polys := s.m_polys ++ other.m_polys }

/-- Modelled from the spec: `BooleanIntersection( b, PM_FAST )` (shape_poly_set is not in the
provider file): the set becomes "the geometric intersection of two polygon sets", computed by
the kernel. -/
def SHAPE_POLY_SET.BooleanIntersection (E : COLLABORATORS) (s b : SHAPE_POLY_SET) :
    SHAPE_POLY_SET :=
  { s with m_polys := E.BooleanIntersection s.m_polys b.m_polys }

/-- Modelled from the spec: `CVertex( aIndex, aOutline, aHole )` (shape_poly_set is not in the
provider file): vertex `aIndex` of the outline (`aHole < 0`) or of hole `aHole` of polygon
`aOutline`.  An index out of range, which the source does not check, gives the origin. -/
def SHAPE_POLY_SET.CVertex (s : SHAPE_POLY_SET) (aIndex aOutline : Nat) (aHole : Int) :
    VECTOR2I :=
  let idx : Nat := if aHole < 0 then 0 else aHole.toNat + 1
  match s.m_polys[aOutline]? with
  | none => ⟨0, 0⟩
  | some poly =>
    match poly[idx]? with
    | none => ⟨0, 0⟩
    | some chain => chain[aIndex]?.getD ⟨0, 0⟩

/-- Modelled from the spec: `BuildBBoxCaches` (shape_poly_set is not in the provider file):
computes the bounding box of the current contours and stores it in the cache. -/
def SHAPE_POLY_SET.BuildBBoxCaches (E : COLLABORATORS) (s : SHAPE_POLY_SET) : SHAPE_POLY_SET :=
  { s with m_bbox := E.BBox s.m_polys }

/-- Modelled from the spec: `BBoxFromCaches` (shape_poly_set is not in the provider file):
the bounding box as it stands in the cache, without recomputing it. -/
def SHAPE_POLY_SET.BBoxFromCaches (s : SHAPE_POLY_SET) : BOX2I := s.m_bbox

/-! ## Footprint members used by the provider -/

/-- The call `footprint->BuildPolyCourtyard()`: the success flag, and the footprint with its
two courtyard polygons rebuilt. -/
def MODULE.BuildPolyCourtyard (E : COLLABORATORS) (footprint : MODULE) : Bool × MODULE :=
  ((E.BuildPolyCourtyard footprint).1,
   { footprint with
     m_poly_courtyard_front := (E.BuildPolyCourtyard footprint).2.1
     m_poly_courtyard_back := (E.BuildPolyCourtyard footprint).2.2 })

/-- The accessor `GetPolyCourtyardFront`. -/
def MODULE.GetPolyCourtyardFront (footprint : MODULE) : SHAPE_POLY_SET :=
  footprint.m_poly_courtyard_front

/-- The accessor `GetPolyCourtyardBack`. -/
def MODULE.GetPolyCourtyardBack (footprint : MODULE) : SHAPE_POLY_SET :=
  footprint.m_poly_courtyard_back

/-- The accessor `GetPosition`. -/
def MODULE.GetPosition (footprint : MODULE) : wxPoint := footprint.m_Pos

/-- The courtyard polygon of a footprint on one side. -/
def MODULE.courtyard (footprint : MODULE) : SIDE → SHAPE_POLY_SET
  | .front => footprint.GetPolyCourtyardFront
  | .back => footprint.GetPolyCourtyardBack

/-! ## Violations and the error-limit policy -/

/-- Modelled from the spec: `DRC_ITEM::Create` (drc_item is not in the provider file):
"factory keyed by an enumerated error kind; populates a default message from a per-kind
template"; no footprint is referenced yet. -/
def DRC_ITEM.Create (E : COLLABORATORS) (aErrorCode : PCB_DRC_CODE) : DRC_ITEM :=
  ⟨aErrorCode, E.GetErrorText aErrorCode, []⟩

/-- The text `drcItem->GetErrorText()`: the default text of the item's own code. -/
def DRC_ITEM.GetErrorText (E : COLLABORATORS) (drcItem : DRC_ITEM) : String :=
  E.GetErrorText drcItem.m_errorCode

/-- The setter `SetErrorMessage`. -/
def DRC_ITEM.SetErrorMessage (drcItem : DRC_ITEM) (msg : String) : DRC_ITEM :=
  { drcItem with m_errorMessage := msg }

/-- The setter `SetItems`, with one or two referenced footprints. -/
def DRC_ITEM.SetItems (drcItem : DRC_ITEM) (items : List Nat) : DRC_ITEM :=
  { drcItem with m_items := items }

/-- The gettext marker `_( s )` in the source locale, where a text stands for itself. -/
def wxGetTranslation (s : String) : String := s

/-- The call `msg.Printf( format )` without further arguments, for a format without
conversion specifications: the message is the format. -/
def Printf (format : String) : String := format

/-- Modelled from the spec: the error-limit state and the violation list that the provider
reaches through `isErrorLimitExceeded`, `ReportWithMarker` and `ReportStage` (drc_test_provider
and drc_engine are not in the provider file).  "Error Limit State: pass-scoped counter per
violation kind; once a kind's limit is reached, further violations of that kind are
suppressed"; `m_markers` is "the pass's violation list", `m_log` the calls made so far. -/
structure DRC_ENGINE where
  m_errorLimits : PCB_DRC_CODE → Nat
  m_errorCount : PCB_DRC_CODE → Nat
  m_markers : List MARKER
  m_log : List EVENT

/-- Modelled from the spec: `isErrorLimitExceeded` (drc_test_provider is not in the provider
file): "pure query against the pass-scoped counter": the limit is exceeded once the counter
has reached it. -/
def DRC_ENGINE.isErrorLimitExceeded (eng : DRC_ENGINE) (error_code : PCB_DRC_CODE) : Bool :=
  decide (eng.m_errorLimits error_code ≤ eng.m_errorCount error_code)

/-- Modelled from the spec: `ReportWithMarker` (drc_test_provider is not in the provider
file): "appends to the pass's violation list; increments the kind counter". -/
def DRC_ENGINE.ReportWithMarker (eng : DRC_ENGINE) (drcItem : DRC_ITEM) (pos : wxPoint) :
    DRC_ENGINE :=
  { eng with
    m_errorCount := fun k =>
      if k = drcItem.m_errorCode then eng.m_errorCount k + 1 else eng.m_errorCount k
    m_markers := eng.m_markers ++ [⟨drcItem, pos⟩] }

/-- Appends calls to the call log. -/
def DRC_ENGINE.record (eng : DRC_ENGINE) (calls : List EVENT) : DRC_ENGINE :=
  { eng with m_log := eng.m_log ++ calls }

/-- Modelled from the spec: `ReportStage` (drc_test_provider is not in the provider file):
"progress notification to an external observer, side-effecting only, no control-flow impact". -/
def DRC_ENGINE.ReportStage (eng : DRC_ENGINE) (label : String) (current total : Nat) :
    DRC_ENGINE :=
  eng.record [.ReportStage label current total]

/-! ## `testFootprintCourtyardDefinitions` -/

/-- The body of the loop of `testFootprintCourtyardDefinitions` for the footprint at
position `k`: the footprint after the visit and the engine state after it. -/
def visitFootprint (E : COLLABORATORS) (k : Nat) (footprint : MODULE) (eng : DRC_ENGINE) :
    MODULE × DRC_ENGINE :=
  let built := footprint.BuildPolyCourtyard E
  let footprint := built.2
  let eng := eng.record [.BuildPolyCourtyard k]
  if built.1 then
    if footprint.GetPolyCourtyardFront.OutlineCount = 0
        ∧ footprint.GetPolyCourtyardBack.OutlineCount = 0 then
      if eng.isErrorLimitExceeded .DRCE_MISSING_COURTYARD then
        (footprint, eng)
      else
        let drcItem := DRC_ITEM.Create E .DRCE_MISSING_COURTYARD
        -- `msg.Printf( drcItem->GetErrorText() )`: `msg` is not used afterwards
        let drcItem := drcItem.SetItems [k]
        (footprint, eng.ReportWithMarker drcItem footprint.GetPosition)
    else
      ({ footprint with
         m_poly_courtyard_front := footprint.GetPolyCourtyardFront.BuildBBoxCaches E
         m_poly_courtyard_back := footprint.GetPolyCourtyardBack.BuildBBoxCaches E },
       eng.record [.BuildBBoxCaches k .front, .BuildBBoxCaches k .back])
  else
    if !eng.isErrorLimitExceeded .DRCE_MALFORMED_COURTYARD then
      let drcItem := DRC_ITEM.Create E .DRCE_MALFORMED_COURTYARD
      let msg := Printf (drcItem.GetErrorText E ++ wxGetTranslation " (not a closed shape)")
      let drcItem := drcItem.SetErrorMessage msg
      let drcItem := drcItem.SetItems [k]
      (footprint, eng.ReportWithMarker drcItem footprint.GetPosition)
    else
      (footprint, eng)

/-- The loop `for( MODULE* footprint : m_board->Modules() )`, from position `k` over the
footprints not yet visited: the visited footprints and the final engine state. -/
def definitionsLoop (E : COLLABORATORS) : Nat → List MODULE → DRC_ENGINE →
    List MODULE × DRC_ENGINE
  | _, [], eng => ([], eng)
  | k, footprint :: rest, eng =>
    let visited := visitFootprint E k footprint eng
    let later := definitionsLoop E (k + 1) rest visited.2
    (visited.1 :: later.1, later.2)

/-- The provider: its board and the engine state it reports to. -/
structure PROVIDER where
  m_board : List MODULE
  m_drcEngine : DRC_ENGINE

/-- The function `testFootprintCourtyardDefinitions`. -/
def testFootprintCourtyardDefinitions (E : COLLABORATORS) (p : PROVIDER) : PROVIDER :=
  let eng := p.m_drcEngine.ReportStage "Testing component courtyard definitions" 0 2
  let done := definitionsLoop E 0 p.m_board eng
  ⟨done.1, done.2⟩

/-! ## `testOverlappingComponentCourtyards` -/

/-- The local variables of the inner loop body, and the calls made so far in that body. -/
structure PAIR_LOCALS where
  intersection : SHAPE_POLY_SET
  overlap : Bool
  pos : wxPoint
  calls : List EVENT
deriving DecidableEq, Repr

/-- One of the two `if` blocks of the inner loop body (front: lines 159-174, back: lines
176-189; they differ in the side only).  `a` is the courtyard of `footprint` (position `i`),
`b` that of `test` (position `j`). -/
def checkSide (E : COLLABORATORS) (side : SIDE) (i j : Nat) (a b : SHAPE_POLY_SET)
    (loc : PAIR_LOCALS) : PAIR_LOCALS :=
  if 0 < a.OutlineCount ∧ 0 < b.OutlineCount then
    let calls := loc.calls ++ [.BBoxFromCaches i side, .BBoxFromCaches j side]
    if E.Intersects a.BBoxFromCaches b.BBoxFromCaches then
      let intersection := loc.intersection.RemoveAllContours
      let intersection := intersection.Append a
      let intersection := intersection.BooleanIntersection E b
      let calls := calls ++ [.BooleanIntersection i j side]
      if 0 < intersection.OutlineCount then
        { intersection := intersection, overlap := true,
          pos := intersection.CVertex 0 0 (-1), calls := calls }
      else
        { loc with intersection := intersection, calls := calls }
    else
      { loc with calls := calls }
  else
    loc

/-- The inner loop body up to `if( overlap )`: the locals after both side blocks. -/
def testPair (E : COLLABORATORS) (i j : Nat) (footprint test : MODULE) : PAIR_LOCALS :=
  let loc : PAIR_LOCALS := ⟨SHAPE_POLY_SET.new, false, ⟨0, 0⟩, []⟩
  let loc := checkSide E .front i j footprint.GetPolyCourtyardFront test.GetPolyCourtyardFront loc
  checkSide E .back i j footprint.GetPolyCourtyardBack test.GetPolyCourtyardBack loc

/-- The inner loop `for( it2 = it1 + 1; ... )` from position `j`, for the footprint at
position `i`.  The flag is true when the function has executed `return`. -/
def innerLoop (E : COLLABORATORS) (i : Nat) (footprint : MODULE) :
    Nat → List MODULE → DRC_ENGINE → DRC_ENGINE × Bool
  | _, [], eng => (eng, false)
  | j, test :: rest, eng =>
    let loc := testPair E i j footprint test
    let eng := eng.record loc.calls
    if loc.overlap then
      let drcItem := DRC_ITEM.Create E .DRCE_OVERLAPPING_FOOTPRINTS
      let drcItem := drcItem.SetItems [i, j]
      let eng := eng.ReportWithMarker drcItem loc.pos
      if eng.isErrorLimitExceeded .DRCE_OVERLAPPING_FOOTPRINTS then
        (eng, true)
      else
        innerLoop E i footprint (j + 1) rest eng
    else
      innerLoop E i footprint (j + 1) rest eng

/-- The outer loop `for( it1 = begin; ... )` from position `i`. -/
def outerLoop (E : COLLABORATORS) : Nat → List MODULE → DRC_ENGINE → DRC_ENGINE
  | _, [], eng => eng
  | i, footprint :: rest, eng =>
    if footprint.GetPolyCourtyardFront.OutlineCount = 0
        ∧ footprint.GetPolyCourtyardBack.OutlineCount = 0 then
      outerLoop E (i + 1) rest eng
    else
      let inner := innerLoop E i footprint (i + 1) rest eng
      if inner.2 then inner.1 else outerLoop E (i + 1) rest inner.1

/-- The function `testOverlappingComponentCourtyards`. -/
def testOverlappingComponentCourtyards (E : COLLABORATORS) (p : PROVIDER) : PROVIDER :=
  let eng := p.m_drcEngine.ReportStage "Testing component courtyard overlap" 0 2
  ⟨p.m_board, outerLoop E 0 p.m_board eng⟩

/-! ## `Run` -/

/-- The function `Run`: the returned flag and the provider afterwards.  `m_board` is the
board of the engine. -/
def Run (E : COLLABORATORS) (p : PROVIDER) : Bool × PROVIDER :=
  let p := testFootprintCourtyardDefinitions E p
  let p := testOverlappingComponentCourtyards E p
  (true, p)

/-! ## A concrete instance of the collaborators

Courtyards drawn with straight segments, and a kernel that treats every polygon as the
rectangle spanned by its outline.  It is used to run the provider on concrete boards. -/

/-- Layer number of the back courtyard layer `B_CrtYd`. -/
def B_CrtYd : Nat := 46

/-- Layer number of the front courtyard layer `F_CrtYd`. -/
def F_CrtYd : Nat := 47

/-- The rectangle spanned by a chain of vertices, as (left, top, right, bottom). -/
def chainSpan : SHAPE_LINE_CHAIN → Option (Int × Int × Int × Int)
  | [] => none
  | v :: vs =>
    some (vs.foldl (fun r w => (min r.1 w.x, min r.2.1 w.y, max r.2.2.1 w.x, max r.2.2.2 w.y))
      (v.x, v.y, v.x, v.y))

/-- The rectangle spanned by the outline of a polygon. -/
def polygonSpan (poly : POLYGON) : Option (Int × Int × Int × Int) :=
  match poly with
  | [] => none
  | outline :: _ => chainSpan outline

/-- The bounding box of a list of polygons: the smallest box around all the outlines. -/
def sampleBBox (polys : List POLYGON) : BOX2I :=
  match polys.filterMap polygonSpan with
  | [] => ⟨⟨0, 0⟩, ⟨0, 0⟩⟩
  | r :: rs =>
    let u := rs.foldl
      (fun a b => (min a.1 b.1, min a.2.1 b.2.1, max a.2.2.1 b.2.2.1, max a.2.2.2 b.2.2.2)) r
    ⟨⟨u.1, u.2.1⟩, ⟨u.2.2.1 - u.1, u.2.2.2 - u.2.1⟩⟩

/-- Two boxes intersect when their common area has a size that is positive or null. -/
def sampleIntersects (a b : BOX2I) : Bool :=
  decide (max a.m_Pos.x b.m_Pos.x ≤ min (a.m_Pos.x + a.m_Size.x) (b.m_Pos.x + b.m_Size.x)
    ∧ max a.m_Pos.y b.m_Pos.y ≤ min (a.m_Pos.y + a.m_Size.y) (b.m_Pos.y + b.m_Size.y))

/-- The common rectangle of two polygons taken as rectangles, when it has a positive area. -/
def rectIntersection (pa pb : POLYGON) : Option POLYGON :=
  match polygonSpan pa, polygonSpan pb with
  | some ra, some rb =>
    let l := max ra.1 rb.1
    let t := max ra.2.1 rb.2.1
    let r := min ra.2.2.1 rb.2.2.1
    let b := min ra.2.2.2 rb.2.2.2
    if l < r ∧ t < b then some [[⟨l, t⟩, ⟨r, t⟩, ⟨r, b⟩, ⟨l, b⟩]] else none
  | _, _ => none

/-- The common rectangles of two lists of polygons. -/
def sampleBooleanIntersection (a b : List POLYGON) : List POLYGON :=
  match b with
  | [] => []
  | _ :: _ => (a.map fun pa => b.filterMap (rectIntersection pa)).flatten

/-- Segments on one layer that follow each other and come back to the first point form one
closed outline; no segment gives no outline; anything else is not a closed shape. -/
def sampleConvertOutlineToPolygon (segs : List DRAWSEGMENT) : Option (List POLYGON) :=
  match segs with
  | [] => some []
  | s :: _ =>
    let chained := (segs.zip (segs.drop 1)).all fun q => decide (q.1.m_End = q.2.m_Start)
    let closed := (segs.getLast?.map fun e => decide (e.m_End = s.m_Start)).getD false
    if chained && closed then some [[segs.map fun q => q.m_Start]] else none

/-- Builds the front courtyard, then, if that succeeded, the back courtyard; a footprint
without courtyard segments succeeds with two empty polygons. -/
def sampleBuildPolyCourtyard (footprint : MODULE) : Bool × SHAPE_POLY_SET × SHAPE_POLY_SET :=
  let list_front := footprint.m_drawings.filter fun d => d.m_Layer = F_CrtYd
  let list_back := footprint.m_drawings.filter fun d => d.m_Layer = B_CrtYd
  match sampleConvertOutlineToPolygon list_front with
  | none => (false, SHAPE_POLY_SET.new, SHAPE_POLY_SET.new)
  | some front =>
    match sampleConvertOutlineToPolygon list_back with
    | none => (false, { SHAPE_POLY_SET.new with m_polys := front }, SHAPE_POLY_SET.new)
    | some back =>
      (true, { SHAPE_POLY_SET.new with m_polys := front },
        { SHAPE_POLY_SET.new with m_polys := back })

/-- Default texts of the three error codes. -/
def sampleGetErrorText : PCB_DRC_CODE → String
  | .DRCE_OVERLAPPING_FOOTPRINTS => "Courtyards overlap"
  | .DRCE_MISSING_COURTYARD => "Footprint has no courtyard defined"
  | .DRCE_MALFORMED_COURTYARD => "Footprint has malformed courtyard"

/-- The concrete collaborators. -/
def sampleCollaborators : COLLABORATORS where
  BBox := sampleBBox
  Intersects := sampleIntersects
  BooleanIntersection := sampleBooleanIntersection
  BooleanIntersection_nil_left := fun b => by cases b <;> rfl
  BooleanIntersection_nil_right := fun _ => rfl
  BuildPolyCourtyard := sampleBuildPolyCourtyard
  GetErrorText := sampleGetErrorText

/-- The four segments of the rectangle with corners `(x0, y0)` and `(x1, y1)` on a layer. -/
def rectangleOn (layer : Nat) (x0 y0 x1 y1 : Int) : List DRAWSEGMENT :=
  [⟨layer, ⟨x0, y0⟩, ⟨x1, y0⟩⟩, ⟨layer, ⟨x1, y0⟩, ⟨x1, y1⟩⟩,
   ⟨layer, ⟨x1, y1⟩, ⟨x0, y1⟩⟩, ⟨layer, ⟨x0, y1⟩, ⟨x0, y0⟩⟩]

/-- Three segments of that rectangle: an open outline. -/
def openOutlineOn (layer : Nat) (x0 y0 x1 y1 : Int) : List DRAWSEGMENT :=
  [⟨layer, ⟨x0, y0⟩, ⟨x1, y0⟩⟩, ⟨layer, ⟨x1, y0⟩, ⟨x1, y1⟩⟩, ⟨layer, ⟨x1, y1⟩, ⟨x0, y1⟩⟩]

/-- A footprint as placed on a board before any check: no courtyard polygon built yet. -/
def footprintAt (pos : wxPoint) (drawings : List DRAWSEGMENT) : MODULE :=
  ⟨pos, drawings, SHAPE_POLY_SET.new, SHAPE_POLY_SET.new⟩

/-- An engine state at the start of a pass: counters at zero, nothing reported, with the
given limit for every error code. -/
def freshEngine (limit : Nat) : DRC_ENGINE := ⟨fun _ => limit, fun _ => 0, [], []⟩

/-! ## The scan as a list of pairs

The two nested loops of `testOverlappingComponentCourtyards` visit pairs of footprints.  The
definitions below name the pairs, their order, and the loop body run over a list of pairs;
the theorems relate them to `outerLoop` and `innerLoop`. -/

/-- A pair of footprints `(*it1, *it2)` with the positions of the two iterators. -/
structure SCAN_PAIR where
  i : Nat
  j : Nat
  footprint : MODULE
  test : MODULE
deriving DecidableEq, Repr

/-- The pairs of the footprint at position `i` with the footprints from position `j` on. -/
def pairsWith (i : Nat) (footprint : MODULE) : Nat → List MODULE → List SCAN_PAIR
  | _, [] => []
  | j, test :: rest => ⟨i, j, footprint, test⟩ :: pairsWith i footprint (j + 1) rest

/-- All pairs of positions `i < j` of a list of footprints whose first position is `i`, in
scan order: by `i`, then by `j`. -/
def allPairs : Nat → List MODULE → List SCAN_PAIR
  | _, [] => []
  | i, footprint :: rest => pairsWith i footprint (i + 1) rest ++ allPairs (i + 1) rest

/-- The locals of the inner loop body for a pair. -/
def SCAN_PAIR.locals (E : COLLABORATORS) (q : SCAN_PAIR) : PAIR_LOCALS :=
  testPair E q.i q.j q.footprint q.test

/-- The value of `overlap` at `if( overlap )` for a pair. -/
def SCAN_PAIR.overlaps (E : COLLABORATORS) (q : SCAN_PAIR) : Bool := (q.locals E).overlap

/-- The violation reported for a pair whose `overlap` is true. -/
def SCAN_PAIR.marker (E : COLLABORATORS) (q : SCAN_PAIR) : MARKER :=
  ⟨(DRC_ITEM.Create E .DRCE_OVERLAPPING_FOOTPRINTS).SetItems [q.i, q.j], (q.locals E).pos⟩

/-- The inner loop body run over a list of pairs, with the `return` of line 198. -/
def runPairs (E : COLLABORATORS) : List SCAN_PAIR → DRC_ENGINE → DRC_ENGINE × Bool
  | [], eng => (eng, false)
  | q :: qs, eng =>
    let eng := eng.record (q.locals E).calls
    if q.overlaps E then
      let eng := eng.ReportWithMarker (q.marker E).item (q.marker E).pos
      if eng.isErrorLimitExceeded .DRCE_OVERLAPPING_FOOTPRINTS then
        (eng, true)
      else
        runPairs E qs eng
    else
      runPairs E qs eng

/-- The prefix of a list that ends with its `n`-th element satisfying `hit` (the whole list
when it has fewer). -/
def takeHits {α : Type} (hit : α → Bool) : Nat → List α → List α
  | 0, _ => []
  | _ + 1, [] => []
  | n + 1, a :: as => a :: (if hit a then takeHits hit n as else takeHits hit (n + 1) as)

/-- The number of reports of `DRCE_OVERLAPPING_FOOTPRINTS` after which the scan returns:
the check of line 197 comes after the report, so it is at least one. -/
def scanBudget (eng : DRC_ENGINE) : Nat :=
  max 1 (eng.m_errorLimits .DRCE_OVERLAPPING_FOOTPRINTS
    - eng.m_errorCount .DRCE_OVERLAPPING_FOOTPRINTS)

/-- The violations reported between two engine states. -/
def newMarkers (before after : DRC_ENGINE) : List MARKER :=
  after.m_markers.drop before.m_markers.length

/-- The calls made between two engine states. -/
def newCalls (before after : DRC_ENGINE) : List EVENT :=
  after.m_log.drop before.m_log.length

/-- Order of the scan on pairs of positions: by `i`, then by `j`. -/
def scanBefore (a b : Nat × Nat) : Prop := a.1 < b.1 ∨ (a.1 = b.1 ∧ a.2 < b.2)

/-- The two positions of a pair. -/
def SCAN_PAIR.key (q : SCAN_PAIR) : Nat × Nat := (q.i, q.j)

/-- The footprint has no outline on either courtyard layer (the test of line 147). -/
def MODULE.noCourtyard (footprint : MODULE) : Prop :=
  footprint.GetPolyCourtyardFront.OutlineCount = 0
    ∧ footprint.GetPolyCourtyardBack.OutlineCount = 0

/-- The courtyards of two footprints on one side have a non-empty boolean intersection. -/
def courtyardsIntersect (E : COLLABORATORS) (side : SIDE) (a b : MODULE) : Prop :=
  0 < (E.BooleanIntersection (a.courtyard side).m_polys (b.courtyard side).m_polys).length

instance (E : COLLABORATORS) (side : SIDE) (a b : MODULE) :
    Decidable (courtyardsIntersect E side a b) :=
  inferInstanceAs (Decidable (0 < _))

/-- The condition under which a side block sets `overlap`: both polygons have outlines, their
cached bounding boxes intersect, and their boolean intersection has an outline. -/
def sideHit (E : COLLABORATORS) (a b : SHAPE_POLY_SET) : Bool :=
  decide (0 < a.OutlineCount ∧ 0 < b.OutlineCount)
    && E.Intersects a.BBoxFromCaches b.BBoxFromCaches
    && decide (0 < (E.BooleanIntersection a.m_polys b.m_polys).length)

/-- A footprint with the rectangular front courtyard `(x0, y0)`-`(x1, y1)` and no back
courtyard, as the definition check leaves it with the concrete collaborators (`x0 ≤ x1`,
`y0 ≤ y1`). -/
def rectangleFootprint (x0 y0 x1 y1 : Int) : MODULE :=
  ⟨⟨x0, y0⟩, rectangleOn F_CrtYd x0 y0 x1 y1,
   ⟨[[[⟨x0, y0⟩, ⟨x1, y0⟩, ⟨x1, y1⟩, ⟨x0, y1⟩]]], ⟨⟨x0, y0⟩, ⟨x1 - x0, y1 - y0⟩⟩⟩,
   SHAPE_POLY_SET.new⟩

/-- Two footprints with the rectangular front courtyards `(0,0)-(10,10)` and
`(5,5)-(15,15)`, before any check. -/
def twoRectangles : List MODULE :=
  [footprintAt ⟨0, 0⟩ (rectangleOn F_CrtYd 0 0 10 10),
   footprintAt ⟨5, 5⟩ (rectangleOn F_CrtYd 5 5 15 15)]

/-- The provider on `twoRectangles` after the definition check, with limit 10 for every code. -/
def twoRectanglesChecked : PROVIDER :=
  testFootprintCourtyardDefinitions sampleCollaborators ⟨twoRectangles, freshEngine 10⟩

/-- The engine state when the loop of `testFootprintCourtyardDefinitions` reaches the
footprint at position `k`: the state after the stage report and the visits of the footprints
before `k`. -/
def engineAtVisit (E : COLLABORATORS) (p : PROVIDER) (k : Nat) : DRC_ENGINE :=
  (definitionsLoop E 0 (p.m_board.take k)
    (p.m_drcEngine.ReportStage "Testing component courtyard definitions" 0 2)).2

/-- The violation the claims describe for a footprint `C` at position `k` with a malformed
courtyard: the default text of the code followed by " (not a closed shape)", `C` alone as
item, at the position of `C`. -/
def malformedMarker (E : COLLABORATORS) (k : Nat) (C : MODULE) : MARKER :=
  ⟨⟨.DRCE_MALFORMED_COURTYARD,
    E.GetErrorText .DRCE_MALFORMED_COURTYARD ++ " (not a closed shape)", [k]⟩, C.m_Pos⟩

/-- The violation the claims describe for a footprint `C` at position `k` without courtyard:
the unmodified default text of the code, `C` alone as item, at the position of `C`. -/
def missingMarker (E : COLLABORATORS) (k : Nat) (C : MODULE) : MARKER :=
  ⟨⟨.DRCE_MISSING_COURTYARD, E.GetErrorText .DRCE_MISSING_COURTYARD, [k]⟩, C.m_Pos⟩

/-- A footprint with an open three-segment outline on the front courtyard layer. -/
def openOutlineBoard : List MODULE := [footprintAt ⟨3, 4⟩ (openOutlineOn F_CrtYd 0 0 10 10)]

/-- A footprint without any courtyard graphics. -/
def noCourtyardBoard : List MODULE := [footprintAt ⟨7, 8⟩ []]

/-- Three footprints whose rectangular front courtyards overlap one another, before any
check. -/
def threeRectangles : List MODULE :=
  [footprintAt ⟨0, 0⟩ (rectangleOn F_CrtYd 0 0 10 10),
   footprintAt ⟨5, 5⟩ (rectangleOn F_CrtYd 5 5 15 15),
   footprintAt ⟨8, 8⟩ (rectangleOn F_CrtYd 8 8 18 18)]

/-- The provider on `threeRectangles` after the definition check, with the given limit for
every code. -/
def threeRectanglesChecked (limit : Nat) : PROVIDER :=
  testFootprintCourtyardDefinitions sampleCollaborators ⟨threeRectangles, freshEngine limit⟩

/-- The treatment of a footprint `D` at position `m` by the definition check when no limit
is exceeded at its visit, by the outcome of its own `BuildPolyCourtyard`: the violations
about it (malformed, missing, or none) and the footprint afterwards (with the bounding-box
caches built in the last case). -/
def expectedVisit (E : COLLABORATORS) (m : Nat) (D : MODULE) : List MARKER × MODULE :=
  let built := (D.BuildPolyCourtyard E).2
  if (E.BuildPolyCourtyard D).1 = true then
    if built.GetPolyCourtyardFront.OutlineCount = 0
        ∧ built.GetPolyCourtyardBack.OutlineCount = 0 then
      ([missingMarker E m D], built)
    else
      ([], { built with
             m_poly_courtyard_front := built.GetPolyCourtyardFront.BuildBBoxCaches E
             m_poly_courtyard_back := built.GetPolyCourtyardBack.BuildBBoxCaches E })
  else
    ([malformedMarker E m D], built)

/-- A footprint with an open outline, one without courtyard graphics, and one with a
rectangular back courtyard. -/
def mixedBoard : List MODULE :=
  [footprintAt ⟨3, 4⟩ (openOutlineOn F_CrtYd 0 0 10 10), footprintAt ⟨7, 8⟩ [],
   footprintAt ⟨20, 20⟩ (rectangleOn B_CrtYd 20 20 30 30)]

/-- A footprint with a closed front courtyard and an open back courtyard outline, and a
footprint whose front courtyard covers the origin. -/
def partlyBuiltBoard : List MODULE :=
  [footprintAt ⟨0, 0⟩ (rectangleOn F_CrtYd 0 0 10 10 ++ openOutlineOn B_CrtYd 0 0 10 10),
   footprintAt ⟨-5, -5⟩ (rectangleOn F_CrtYd (-5) (-5) 5 5)]

/-- The other courtyard layer. -/
def SIDE.other : SIDE → SIDE
  | .front => .back
  | .back => .front

/-- The first vertex of the first outline of a list of polygons (the origin when there is
none). -/
def firstVertex (polys : List POLYGON) : VECTOR2I :=
  match polys with
  | ((v :: _) :: _) :: _ => v
  | _ => ⟨0, 0⟩

/-- A footprint with the same rectangular courtyard `(x0, y0)`-`(x1, y1)` on the front and on
the back layer, before any check. -/
def twoSidedRectangle (x0 y0 x1 y1 : Int) : MODULE :=
  footprintAt ⟨x0, y0⟩ (rectangleOn F_CrtYd x0 y0 x1 y1 ++ rectangleOn B_CrtYd x0 y0 x1 y1)

/-- Two footprints whose courtyards, on both layers, are far apart. -/
def farApart : List MODULE := [twoSidedRectangle 0 0 10 10, twoSidedRectangle 50 50 60 60]

/-- The provider on `farApart` after the definition check, with limit 10 for every code. -/
def farApartChecked : PROVIDER :=
  testFootprintCourtyardDefinitions sampleCollaborators ⟨farApart, freshEngine 10⟩

/-- A footprint with the front courtyard `(0,0)-(10,10)` and the back courtyard
`(100,100)-(110,110)`, before any check. -/
def bothSidesFirst : MODULE :=
  footprintAt ⟨0, 0⟩ (rectangleOn F_CrtYd 0 0 10 10 ++ rectangleOn B_CrtYd 100 100 110 110)

/-- A footprint with the front courtyard `(5,5)-(15,15)` and the back courtyard
`(105,105)-(115,115)`, before any check. -/
def bothSidesSecond : MODULE :=
  footprintAt ⟨5, 5⟩ (rectangleOn F_CrtYd 5 5 15 15 ++ rectangleOn B_CrtYd 105 105 115 115)

/-- Two footprints that overlap on both layers. -/
def bothSidesBoard : List MODULE := [bothSidesFirst, bothSidesSecond]

/-- The provider on `bothSidesBoard` after the definition check, with limit 10 for every
code. -/
def bothSidesChecked : PROVIDER :=
  testFootprintCourtyardDefinitions sampleCollaborators ⟨bothSidesBoard, freshEngine 10⟩

/-- Two engine states agree on the limit and on the counter of every code selected by
`S`. -/
def agreeOn (S : PCB_DRC_CODE → Bool) (e e' : DRC_ENGINE) : Prop :=
  ∀ k, S k = true →
    e.m_errorLimits k = e'.m_errorLimits k ∧ e.m_errorCount k = e'.m_errorCount k

/-- Two footprints with the same position and the same graphic primitives for which
`BuildPolyCourtyard` gives the same result. -/
def sameBuild (E : COLLABORATORS) (X Y : MODULE) : Prop :=
  X.m_Pos = Y.m_Pos ∧ X.m_drawings = Y.m_drawings
    ∧ E.BuildPolyCourtyard X = E.BuildPolyCourtyard Y

/-- What `Run` does not derive of a footprint: its position and its graphic primitives. -/
def MODULE.inputs (footprint : MODULE) : wxPoint × List DRAWSEGMENT :=
  (footprint.m_Pos, footprint.m_drawings)

/-- An engine state at the start of a pass in which the limit of
`DRCE_MALFORMED_COURTYARD` is 0 (exceeded from the start) and the other limits are 10. -/
def malformedExceededEngine : DRC_ENGINE :=
  ⟨fun c => if c = .DRCE_MALFORMED_COURTYARD then 0 else 10, fun _ => 0, [], []⟩

/-- A footprint with an open outline, one without courtyard graphics, and two footprints
whose front courtyards overlap. -/
def everyKindBoard : List MODULE :=
  [footprintAt ⟨3, 4⟩ (openOutlineOn F_CrtYd 0 0 10 10), footprintAt ⟨7, 8⟩ [],
   footprintAt ⟨20, 20⟩ (rectangleOn F_CrtYd 20 20 30 30),
   footprintAt ⟨25, 25⟩ (rectangleOn F_CrtYd 25 25 35 35)]

/-- Modelled from the spec: the constraint types of the rule engine
(`DRC_CONSTRAINT_TYPE_T` is declared in drc_rule.h, which is not part of the provider file):
the "named rule constraint" of this provider, and the other enumerators by their number. -/
inductive DRC_CONSTRAINT_TYPE_T where
  | DRC_CONSTRAINT_TYPE_COURTYARD_CLEARANCE
  | otherConstraint (n : Nat)
deriving DecidableEq, Repr

/-- The function `GetMatchingConstraintIds`, a const member that reads nothing of the
provider. -/
def GetMatchingConstraintIds (_p : PROVIDER) : Finset DRC_CONSTRAINT_TYPE_T :=
  {DRC_CONSTRAINT_TYPE_T.DRC_CONSTRAINT_TYPE_COURTYARD_CLEARANCE}

/-- Two footprints at the same position, neither with any courtyard graphics. -/
def twinBoard : List MODULE := [footprintAt ⟨7, 8⟩ [], footprintAt ⟨7, 8⟩ []]

/-- Reads of a cached bounding box and boolean intersections: the calls by which the scan
compares two footprints. -/
def EVENT.isComparison : EVENT → Bool
  | .BBoxFromCaches _ _ => true
  | .BooleanIntersection _ _ _ => true
  | _ => false

/-- Calls that build a courtyard polygon or its bounding-box cache. -/
def EVENT.isBuild : EVENT → Bool
  | .BuildPolyCourtyard _ => true
  | .BuildBBoxCaches _ _ => true
  | _ => false

/-- A footprint with a front courtyard only and a footprint with a back courtyard only, one
above the other. -/
def oppositeSidesBoard : List MODULE :=
  [footprintAt ⟨0, 0⟩ (rectangleOn F_CrtYd 0 0 10 10),
   footprintAt ⟨5, 5⟩ (rectangleOn B_CrtYd 5 5 15 15)]

/-- The provider on `oppositeSidesBoard` after the definition check, with limit 10 for every
code. -/
def oppositeSidesChecked : PROVIDER :=
  testFootprintCourtyardDefinitions sampleCollaborators ⟨oppositeSidesBoard, freshEngine 10⟩

/-- The outer loop of the scan without the test of lines 147-148: every footprint is paired
with every later one. -/
def outerLoopPlain (E : COLLABORATORS) : Nat → List MODULE → DRC_ENGINE → DRC_ENGINE
  | _, [], eng => eng
  | i, footprint :: rest, eng =>
    let inner := innerLoop E i footprint (i + 1) rest eng
    if inner.2 then inner.1 else outerLoopPlain E (i + 1) rest inner.1

/-- The plain scan over all pairs `i < j`: `testOverlappingComponentCourtyards` without the
shortcut of the outer loop. -/
def testOverlappingPlain (E : COLLABORATORS) (p : PROVIDER) : PROVIDER :=
  let eng := p.m_drcEngine.ReportStage "Testing component courtyard overlap" 0 2
  ⟨p.m_board, outerLoopPlain E 0 p.m_board eng⟩

/-- Calls that compute a boolean intersection. -/
def EVENT.isBooleanIntersection : EVENT → Bool
  | .BooleanIntersection _ _ _ => true
  | _ => false

end test

/-!
Board setup, print dialog and net inspection of `pcbnew`

Shallow embeddings of `PANEL_SETUP_FEATURE_CONSTRAINTS::TransferDataFromWindow`
(`pcbnew/dialogs/panel_setup_feature_constraints.cpp`),
`DIALOG_PRINT_PCBNEW::isLayerEnabled` and `setLayerSetFromList`
(`pcbnew/dialogs/dialog_print_pcbnew.cpp`) and `PCB_INSPECTION_TOOL::highlightNet`
(`pcbnew/tools/pcb_inspection_tool.cpp`).  Widgets are represented by the values they
hold; what the functions call outside these files is a field of a collaborators
structure or a small definition marked as modelled.
-/

namespace pcbnew

/-! ## Constraints panel of the board setup dialog -/

/-- Units in which a range validation is expressed (`EDA_UNITS`). -/
inductive EDA_UNITS
  | INCHES
  | MILS
deriving DecidableEq, Repr

/-- A text control bound to a length (`UNIT_BINDER`), as the value it holds in internal
units: what `GetValue()` returns. -/
structure UNIT_BINDER where
  m_value : Int
deriving DecidableEq, Repr

/-- The accessor `UNIT_BINDER::GetValue`. -/
def UNIT_BINDER.GetValue (b : UNIT_BINDER) : Int := b.m_value

/-- The fields of `BOARD_DESIGN_SETTINGS` that the constraints panel reads and writes.
`m_CopperEdgeClearance` and `m_HoleToHoleMin` are the fields that `TransferDataToWindow`
reads back. -/
structure BOARD_DESIGN_SETTINGS where
  m_BlindBuriedViaAllowed : Bool
  m_MicroViasAllowed : Bool
  m_MaxError : Int
  m_ZoneFillVersion : Int
  m_ZoneKeepExternalFillets : Bool
  m_MinClearance : Int
  m_TrackMinWidth : Int
  m_ViasMinAnnulus : Int
  m_ViasMinSize : Int
  m_CopperEdgeClearance : Int
  m_MinThroughDrill : Int
  m_HoleToHoleMin : Int
  m_MicroViasMinSize : Int
  m_MicroViasMinDrill : Int
  m_SilkClearance : Int
deriving DecidableEq, Repr

/-- Modelled from the spec: `SetCopperEdgeClearance` (board_design_settings is not among the
sources): stores the distance in `m_CopperEdgeClearance`, the field the panel shows for it. -/
def BOARD_DESIGN_SETTINGS.SetCopperEdgeClearance (s : BOARD_DESIGN_SETTINGS) (aDistance : Int) :
    BOARD_DESIGN_SETTINGS :=
  { s with m_CopperEdgeClearance := aDistance }

/-- Modelled from the spec: `SetMinHoleSeparation` (board_design_settings is not among the
sources): stores the distance in `m_HoleToHoleMin`, the field the panel shows for it. -/
def BOARD_DESIGN_SETTINGS.SetMinHoleSeparation (s : BOARD_DESIGN_SETTINGS) (aDistance : Int) :
    BOARD_DESIGN_SETTINGS :=
  { s with m_HoleToHoleMin := aDistance }

/-- The panel: its unit binders, its check boxes and radio button, and the board design
settings `m_BrdSettings` points to. -/
structure PANEL_SETUP_FEATURE_CONSTRAINTS where
  m_minClearance : UNIT_BINDER
  m_trackMinWidth : UNIT_BINDER
  m_viaMinAnnulus : UNIT_BINDER
  m_viaMinSize : UNIT_BINDER
  m_throughHoleMin : UNIT_BINDER
  m_uviaMinSize : UNIT_BINDER
  m_uviaMinDrill : UNIT_BINDER
  m_holeToHoleMin : UNIT_BINDER
  m_edgeClearance : UNIT_BINDER
  m_silkClearance : UNIT_BINDER
  m_maxError : UNIT_BINDER
  m_OptAllowBlindBuriedVias : Bool
  m_OptAllowMicroVias : Bool
  m_rbOutlinePolygonFastest : Bool
  m_allowExternalFilletsOpt : Bool
  m_BrdSettings : BOARD_DESIGN_SETTINGS
deriving DecidableEq, Repr

/-- What `TransferDataFromWindow` uses and the panel file does not contain.

* `Validate`: `UNIT_BINDER::Validate( aMin, aMax, aUnits )`, the range test of one control.
* `minErrorSize`, `maxErrorSize`: the values of `IU_PER_MM * MINIMUM_ERROR_SIZE_MM` and
  `IU_PER_MM * MAXIMUM_ERROR_SIZE_MM` as the `int` arguments `Clamp<int>` receives. -/
structure PANEL_COLLABORATORS where
  Validate : UNIT_BINDER → Int → Int → EDA_UNITS → Bool
  minErrorSize : Int
  maxErrorSize : Int

/-- Smallest value of a 32-bit `int`. -/
def INT_MIN : Int := -2147483648

/-- Largest value of a 32-bit `int`. -/
def INT_MAX : Int := 2147483647

/-- Conversion of a wider integer to a 32-bit `int`, as the explicit instantiation
`Clamp<int>` does to the value `GetValue()` returns: the value modulo `2^32`, taken in
`INT_MIN .. INT_MAX`. -/
def toInt (v : Int) : Int := (v + 2147483648) % 4294967296 - 2147483648

/-- Modelled from the spec: `Clamp( lower, value, upper )` (the helper is not among the
sources): `lower` for a value below `lower`, `upper` for a value above `upper`, and the
value itself when it lies between the two. -/
def Clamp (lower value upper : Int) : Int :=
  if value < lower then lower
  else if upper < value then upper
  else value

/-- The function `PANEL_SETUP_FEATURE_CONSTRAINTS::TransferDataFromWindow`: the returned flag
and the panel afterwards.  The seven validations come first, each returning `false` at once;
the assignments to the board design settings follow in the order of the source. -/
def PANEL_SETUP_FEATURE_CONSTRAINTS.TransferDataFromWindow (E : PANEL_COLLABORATORS)
    (p : PANEL_SETUP_FEATURE_CONSTRAINTS) : Bool × PANEL_SETUP_FEATURE_CONSTRAINTS :=
  if !E.Validate p.m_minClearance 0 10 .INCHES then (false, p)
  else if !E.Validate p.m_trackMinWidth 0 10 .INCHES then (false, p)
  else if !E.Validate p.m_viaMinAnnulus 0 10 .INCHES then (false, p)
  else if !E.Validate p.m_viaMinSize 0 10 .INCHES then (false, p)
  else if !E.Validate p.m_edgeClearance 0 10 .INCHES then (false, p)
  else if !E.Validate p.m_throughHoleMin 2 1000 .MILS then (false, p)
  else if !E.Validate p.m_holeToHoleMin 0 10 .INCHES then (false, p)
  else
    let s := p.m_BrdSettings
    let s := { s with m_BlindBuriedViaAllowed := p.m_OptAllowBlindBuriedVias }
    let s := { s with m_MicroViasAllowed := p.m_OptAllowMicroVias }
    let maxError := Clamp E.minErrorSize (toInt p.m_maxError.GetValue) E.maxErrorSize
    let s := { s with m_MaxError := maxError }
    let s := { s with m_ZoneFillVersion := if p.m_rbOutlinePolygonFastest then 6 else 5 }
    let s := { s with m_ZoneKeepExternalFillets := p.m_allowExternalFilletsOpt }
    let s := { s with m_MinClearance := p.m_minClearance.GetValue }
    let s := { s with m_TrackMinWidth := p.m_trackMinWidth.GetValue }
    let s := { s with m_ViasMinAnnulus := p.m_viaMinAnnulus.GetValue }
    let s := { s with m_ViasMinSize := p.m_viaMinSize.GetValue }
    let s := s.SetCopperEdgeClearance p.m_edgeClearance.GetValue
    let s := { s with m_MinThroughDrill := p.m_throughHoleMin.GetValue }
    let s := s.SetMinHoleSeparation p.m_holeToHoleMin.GetValue
    let s := { s with m_MicroViasMinSize := p.m_uviaMinSize.GetValue }
    let s := { s with m_MicroViasMinDrill := p.m_uviaMinDrill.GetValue }
    let s := { s with m_SilkClearance := p.m_silkClearance.GetValue }
    (true, { p with m_BrdSettings := s })

/-! ### A sample panel -/

/-- Internal units per unit of a validation range: nanometres per inch and per mil. -/
def sampleUnitScale : EDA_UNITS → Int
  | .INCHES => 25400000
  | .MILS => 25400

/-- A range test for the samples: the value lies between the two bounds, scaled to
internal units. -/
def sampleValidate (b : UNIT_BINDER) (aMin aMax : Int) (aUnits : EDA_UNITS) : Bool :=
  decide (aMin * sampleUnitScale aUnits ≤ b.GetValue)
    && decide (b.GetValue ≤ aMax * sampleUnitScale aUnits)

/-- Sample collaborators: the range test above, and an error size between 1000 and 100000
internal units. -/
def samplePanelCollaborators : PANEL_COLLABORATORS :=
  { Validate := sampleValidate, minErrorSize := 1000, maxErrorSize := 100000 }

/-- Board design settings for the samples. -/
def sampleSettings : BOARD_DESIGN_SETTINGS :=
  { m_BlindBuriedViaAllowed := false, m_MicroViasAllowed := false, m_MaxError := 5000,
    m_ZoneFillVersion := 6, m_ZoneKeepExternalFillets := false, m_MinClearance := 0,
    m_TrackMinWidth := 200000, m_ViasMinAnnulus := 50000, m_ViasMinSize := 400000,
    m_CopperEdgeClearance := 10000, m_MinThroughDrill := 300000, m_HoleToHoleMin := 250000,
    m_MicroViasMinSize := 200000, m_MicroViasMinDrill := 100000, m_SilkClearance := 0 }

/-- A panel whose controls were edited: every length is in range, the error size entered is
`maxError`, the through-hole minimum entered is `throughHole`. -/
def samplePanel (maxError throughHole : Int) : PANEL_SETUP_FEATURE_CONSTRAINTS :=
  { m_minClearance := ⟨150000⟩, m_trackMinWidth := ⟨150000⟩, m_viaMinAnnulus := ⟨60000⟩,
    m_viaMinSize := ⟨450000⟩, m_throughHoleMin := ⟨throughHole⟩, m_uviaMinSize := ⟨210000⟩,
    m_uviaMinDrill := ⟨110000⟩, m_holeToHoleMin := ⟨260000⟩, m_edgeClearance := ⟨20000⟩,
    m_silkClearance := ⟨1000⟩, m_maxError := ⟨maxError⟩,
    m_OptAllowBlindBuriedVias := true, m_OptAllowMicroVias := true,
    m_rbOutlinePolygonFastest := false, m_allowExternalFilletsOpt := true,
    m_BrdSettings := sampleSettings }

/-! ## Layer sets -/

/-- Modelled from the spec: `LSET` (the layer-set class is not among the sources): a set of
board layers, a bit per layer id, held as the list of the layer ids whose bit is set. -/
structure LSET where
  m_bits : List Nat
deriving DecidableEq, Repr

/-- Modelled from the spec: the default constructor `LSET()` (not among the sources): the
set with no layer. -/
def LSET.new : LSET := ⟨[]⟩

/-- Modelled from the spec: `set( layer )` (not among the sources): sets the bit of a
layer. -/
def LSET.set (s : LSET) (layer : Nat) : LSET := ⟨layer :: s.m_bits⟩

/-- Modelled from the spec: `test( layer )` (not among the sources): whether the bit of a
layer is set. -/
def LSET.test (s : LSET) (layer : Nat) : Bool := decide (layer ∈ s.m_bits)

/-- Modelled from the spec: `operator&` (not among the sources): the layers of both
sets. -/
def LSET.and (a b : LSET) : LSET := ⟨a.m_bits.filter b.test⟩

/-- Modelled from the spec: `none()` (not among the sources): whether no bit is set. -/
def LSET.none (s : LSET) : Bool := s.m_bits.isEmpty

/-! ## Print dialog -/

/-- A check list box (`wxCheckListBox`), as the checked flag of each of its items. -/
structure wxCheckListBox where
  m_checked : List Bool
deriving DecidableEq, Repr

/-- The call `IsChecked( index )`: the flag of the item, `false` where there is no such
item. -/
def wxCheckListBox.IsChecked (b : wxCheckListBox) (index : Int) : Bool :=
  if 0 ≤ index then b.m_checked.getD index.toNat false else false

/-- The non-null values a `wxCheckListBox*` of `m_layers` takes: the two list boxes of the
dialog. -/
inductive LISTBOX
  | m_listCopperLayers
  | m_listTechLayers
deriving DecidableEq, Repr

/-- The fields of `PCBNEW_PRINTOUT_SETTINGS` that `setLayerSetFromList` writes. -/
structure PCBNEW_PRINTOUT_SETTINGS where
  m_layerSet : LSET
  m_pageCount : Int
  m_noEdgeLayer : Bool
deriving DecidableEq, Repr

/-- The dialog: `m_layers` (an array with one pair per layer id; a pair is a list box, or
null, and an item index), the two list boxes, the check box `m_checkboxNoEdge`, the
selection of the radio box `m_boxPagination`, and the settings `settings()` points to. -/
structure DIALOG_PRINT_PCBNEW where
  m_layers : List (Option LISTBOX × Int)
  m_listTechLayers : wxCheckListBox
  m_listCopperLayers : wxCheckListBox
  m_checkboxNoEdge : Bool
  m_boxPagination : Int
  m_settings : PCBNEW_PRINTOUT_SETTINGS
deriving DecidableEq, Repr

/-- The number of elements of `m_layers` (`arrayDim( m_layers )`, the constant
`PCB_LAYER_ID_COUNT`). -/
def DIALOG_PRINT_PCBNEW.arrayDim (d : DIALOG_PRINT_PCBNEW) : Nat := d.m_layers.length

/-- The list box a non-null pointer of `m_layers` points to. -/
def DIALOG_PRINT_PCBNEW.listBox (d : DIALOG_PRINT_PCBNEW) : LISTBOX → wxCheckListBox
  | .m_listCopperLayers => d.m_listCopperLayers
  | .m_listTechLayers => d.m_listTechLayers

/-- The function `DIALOG_PRINT_PCBNEW::isLayerEnabled`: `false` for a layer beyond the array
(`wxCHECK`), the checked flag of the item of the layer when the layer has a list box, and
`false` otherwise. -/
def DIALOG_PRINT_PCBNEW.isLayerEnabled (d : DIALOG_PRINT_PCBNEW) (aLayer : Nat) : Bool :=
  if aLayer < d.arrayDim then
    match d.m_layers[aLayer]? with
    | none => false
    | some layerInfo =>
      match layerInfo.1 with
      | some first => (d.listBox first).IsChecked layerInfo.2
      | none => false
  else false

/-- The body of the loop of `setLayerSetFromList` for one layer. -/
def DIALOG_PRINT_PCBNEW.setLayerStep (d : DIALOG_PRINT_PCBNEW)
    (s : PCBNEW_PRINTOUT_SETTINGS) (layer : Nat) : PCBNEW_PRINTOUT_SETTINGS :=
  if d.isLayerEnabled layer then
    let s := { s with m_pageCount := s.m_pageCount + 1 }
    { s with m_layerSet := s.m_layerSet.set layer }
  else s

/-- The function `DIALOG_PRINT_PCBNEW::setLayerSetFromList`: the returned page count and
the dialog afterwards. -/
def DIALOG_PRINT_PCBNEW.setLayerSetFromList (d : DIALOG_PRINT_PCBNEW) :
    Int × DIALOG_PRINT_PCBNEW :=
  let s := { d.m_settings with m_layerSet := LSET.new }
  let s := { s with m_pageCount := 0 }
  let s := (List.range d.arrayDim).foldl d.setLayerStep s
  let s := { s with m_noEdgeLayer := d.m_checkboxNoEdge }
  let s := if d.m_boxPagination ≠ 0 ∧ s.m_pageCount > 0 then { s with m_pageCount := 1 } else s
  (s.m_pageCount, { d with m_settings := s })

/-- A sample dialog over five layer ids: layers 0 and 1 in the copper list, layers 3 and 4
in the technical list, layer 2 without a list box; layers 0, 3 and 4 are checked. -/
def sampleDialog (pagination : Int) : DIALOG_PRINT_PCBNEW :=
  { m_layers := [(some .m_listCopperLayers, 0), (some .m_listCopperLayers, 1), (none, 0),
                 (some .m_listTechLayers, 0), (some .m_listTechLayers, 1)],
    m_listTechLayers := ⟨[true, true]⟩,
    m_listCopperLayers := ⟨[true, false]⟩,
    m_checkboxNoEdge := true,
    m_boxPagination := pagination,
    m_settings := ⟨⟨[7]⟩, 9, false⟩ }

/-! ## Net inspection tool -/

/-- The run-time types of board items (`KICAD_T`) that occur here. -/
inductive KICAD_T
  | PCB_PAD_T
  | PCB_TRACE_T
  | PCB_VIA_T
  | PCB_ZONE_AREA_T
  | PCB_TEXT_T
deriving DecidableEq, Repr

/-- A board item that belongs to a net (`BOARD_CONNECTED_ITEM`: a pad, a track, a via or a
zone), as what `Type()`, `GetLayerSet()` and `GetNetCode()` return for it. -/
structure BOARD_CONNECTED_ITEM where
  m_Type : KICAD_T
  m_layerSet : LSET
  m_netCode : Int
deriving DecidableEq, Repr

/-- The accessor `Type`. -/
def BOARD_CONNECTED_ITEM.Type (item : BOARD_CONNECTED_ITEM) : KICAD_T := item.m_Type

/-- The accessor `GetLayerSet`. -/
def BOARD_CONNECTED_ITEM.GetLayerSet (item : BOARD_CONNECTED_ITEM) : LSET := item.m_layerSet

/-- The accessor `GetNetCode`. -/
def BOARD_CONNECTED_ITEM.GetNetCode (item : BOARD_CONNECTED_ITEM) : Int := item.m_netCode

/-- An item of the selection (`EDA_ITEM*`): a connected item, or an item of another kind. -/
inductive EDA_ITEM
  | connected (ci : BOARD_CONNECTED_ITEM)
  | other (type : KICAD_T)
deriving DecidableEq, Repr

/-- The cast `dyn_cast<BOARD_CONNECTED_ITEM*>( item )`: the connected item, or null. -/
def dyn_cast : EDA_ITEM → Option BOARD_CONNECTED_ITEM
  | .connected ci => some ci
  | .other _ => none

/-- A net of the board (`NETINFO_ITEM`). -/
structure NETINFO_ITEM where
  m_NetCode : Int
  m_Netname : String
deriving DecidableEq, Repr

/-- The accessor `GetNetname`. -/
def NETINFO_ITEM.GetNetname (n : NETINFO_ITEM) : String := n.m_Netname

/-- The cursor position (`VECTOR2D`); it is only handed on to the collector. -/
structure VECTOR2D where
  x : Int
  y : Int
deriving DecidableEq, Repr

/-- The highlight state of the render settings (`KIGFX::RENDER_SETTINGS`): the flag
`IsHighlightEnabled()` returns and the set `GetHighlightNetCodes()` returns, a
`std::set<int>` held as the list of its elements. -/
structure RENDER_SETTINGS where
  m_highlightEnabled : Bool
  m_highlightNetcodes : List Int
deriving DecidableEq, Repr

/-- The accessor `IsHighlightEnabled`. -/
def RENDER_SETTINGS.IsHighlightEnabled (s : RENDER_SETTINGS) : Bool := s.m_highlightEnabled

/-- The accessor `GetHighlightNetCodes`. -/
def RENDER_SETTINGS.GetHighlightNetCodes (s : RENDER_SETTINGS) : List Int :=
  s.m_highlightNetcodes

/-- The call `netcodes.count( net )` as a condition: whether the set holds the net code. -/
def netcodesCount (netcodes : List Int) (net : Int) : Bool := decide (net ∈ netcodes)

/-- The value `*netcodes.begin()` of a non-empty set: its smallest element. -/
def netcodesBegin (netcodes : List Int) : Int := netcodes.foldl min (netcodes.headD 0)

/-- The board as the tool sees it: the net that is highlighted and whether highlighting is
on, its nets, and its connected items with the position at which each is hit. -/
structure BOARD where
  m_highLightNetCode : Int
  m_highLightOn : Bool
  m_NetInfo : List NETINFO_ITEM
  m_items : List (VECTOR2D × BOARD_CONNECTED_ITEM)
deriving DecidableEq, Repr

/-- The two scan lists `highlightNet` collects with. -/
inductive SCAN_TYPES
  | PadsOrTracks
  | Zones
deriving DecidableEq, Repr

/-- A call the tool makes on the frame or the view. -/
inductive MESSAGE
  | SendMessageToEESCHEMA (item : Option BOARD_CONNECTED_ITEM)
  | UpdateAllLayersColor
  | SetMsgPanelItems (netinfo : NETINFO_ITEM)
  | SetMsgPanelBoard
  | SendCrossProbeNetName (name : String)
deriving DecidableEq, Repr

/-- What `highlightNet` calls and the tool file does not contain.

* `AllCuMask`: `LSET::AllCuMask()`, the copper layers.
* `Collect`: `GENERAL_COLLECTOR::Collect( board, scanTypes, position, guide )`, as the list
  of collected items; the scan lists hold connected item types only.
* `SetHighlight`: `RENDER_SETTINGS::SetHighlight( enabled, net )`.
* `SetHighLightNet`, `HighLightON`, `ResetNetHighLight`, `FindNet`: the members of `BOARD`
  of these names. -/
structure INSPECTION_COLLABORATORS where
  AllCuMask : LSET
  Collect : BOARD → SCAN_TYPES → VECTOR2D → List BOARD_CONNECTED_ITEM
  SetHighlight : RENDER_SETTINGS → Bool → Int → RENDER_SETTINGS
  SetHighLightNet : BOARD → Int → BOARD
  HighLightON : BOARD → BOARD
  ResetNetHighLight : BOARD → BOARD
  FindNet : BOARD → Int → Option NETINFO_ITEM

/-- The tool with what it reaches: `m_lastNetcode`, the render settings of the view, the
board, the current selection, and the calls made so far on the frame and the view, oldest
first. -/
structure PCB_INSPECTION_TOOL where
  m_lastNetcode : Int
  m_settings : RENDER_SETTINGS
  m_board : BOARD
  m_selection : List EDA_ITEM
  m_frame : List MESSAGE
deriving DecidableEq, Repr

/-- How a run of `highlightNet` can go wrong: `collector[index]` evaluated while the
collector holds `count` items, `index` not below `count`; or the step bound of the
embedding of the collector loop used up. -/
inductive FAULT
  | outOfRange (index count : Nat)
  | outOfFuel
deriving DecidableEq, Repr

/-- The loop `for( auto item : selection )` of `highlightNet`, from the value of `net`
before the remaining items to its value after them; `none` is the `return false` of the
loop. -/
def selectionLoop : List EDA_ITEM → Int → Option Int
  | [], net => some net
  | item :: rest, net =>
    match dyn_cast item with
    | some ci =>
      let item_net := ci.GetNetCode
      if net < 0 then selectionLoop rest item_net
      else if net ≠ item_net then none
      else selectionLoop rest net
    | none => selectionLoop rest net

/-- The loop `for( int i = 0; i < collector.GetCount(); i++ )` of `highlightNet`, from
index `i` on, with a bound on the number of iterations.  Each `collector[i]` is looked up
in the collector as it is at that moment; `collector.Remove( i )` erases the item at `i`.
The result is the collector and the frame calls after the loop, or the first fault. -/
def collectorLoop (E : INSPECTION_COLLABORATORS) :
    Nat → Nat → List BOARD_CONNECTED_ITEM → List MESSAGE →
      Except FAULT (List BOARD_CONNECTED_ITEM × List MESSAGE)
  | 0, i, collector, frame =>
    if i < collector.length then .error .outOfFuel else .ok (collector, frame)
  | fuel + 1, i, collector, frame =>
    if i < collector.length then
      match collector[i]? with
      | none => .error (.outOfRange i collector.length)
      | some item =>
        let collector :=
          if (item.GetLayerSet.and E.AllCuMask).none then collector.eraseIdx i else collector
        match collector[i]? with
        | none => .error (.outOfRange i collector.length)
        | some item =>
          if item.Type = .PCB_PAD_T then
            .ok (collector, frame ++ [.SendMessageToEESCHEMA (some item)])
          else collectorLoop E fuel (i + 1) collector frame
    else .ok (collector, frame)

/-- The block `if( net < 0 ) { ... }` of `highlightNet`, the cursor path: the values of
`net` and `enableHighlight` and the frame calls after it, or the first fault. -/
def cursorPath (E : INSPECTION_COLLABORATORS) (t : PCB_INSPECTION_TOOL) (aPosition : VECTOR2D)
    (net : Int) (enableHighlight : Bool) : Except FAULT (Int × Bool × List MESSAGE) :=
  if net < 0 then
    let collector := E.Collect t.m_board .PadsOrTracks aPosition
    let collector :=
      if collector.length = 0 then E.Collect t.m_board .Zones aPosition else collector
    let frame := t.m_frame ++ [.SendMessageToEESCHEMA none]
    match collectorLoop E collector.length 0 collector frame with
    | .error fault => .error fault
    | .ok (collector, frame) =>
      let enableHighlight := decide (collector.length > 0)
      if enableHighlight then
        match collector[0]? with
        | none => .error (.outOfRange 0 collector.length)
        | some item => .ok (item.GetNetCode, enableHighlight, frame)
      else .ok (net, enableHighlight, frame)
  else .ok (net, enableHighlight, t.m_frame)

/-- The rest of `highlightNet`, from `auto& netcodes = ...` to the end: the toggle, the
update of the render settings and of `m_lastNetcode`, and the update of the board and the
message panel. -/
def applyHighlight (E : INSPECTION_COLLABORATORS) (t : PCB_INSPECTION_TOOL) (net : Int)
    (enableHighlight : Bool) : PCB_INSPECTION_TOOL :=
  let netcodes := t.m_settings.GetHighlightNetCodes
  let enableHighlight :=
    if net > 0 ∧ netcodesCount netcodes net = true then !t.m_settings.IsHighlightEnabled
    else enableHighlight
  let t :=
    if enableHighlight ≠ t.m_settings.IsHighlightEnabled ∨ netcodesCount netcodes net = false
    then
      let t := if netcodes.isEmpty then t else { t with m_lastNetcode := netcodesBegin netcodes }
      let t := { t with m_settings := E.SetHighlight t.m_settings enableHighlight net }
      { t with m_frame := t.m_frame ++ [MESSAGE.UpdateAllLayersColor] }
    else t
  if enableHighlight = true ∧ net ≥ 0 then
    let t := { t with m_board := E.SetHighLightNet t.m_board net }
    let t := { t with m_board := E.HighLightON t.m_board }
    match E.FindNet t.m_board net with
    | some netinfo =>
      let t := { t with m_frame := t.m_frame ++ [MESSAGE.SetMsgPanelItems netinfo] }
      { t with m_frame := t.m_frame ++ [MESSAGE.SendCrossProbeNetName netinfo.GetNetname] }
    | none => t
  else
    let t := { t with m_board := E.ResetNetHighLight t.m_board }
    let t := { t with m_frame := t.m_frame ++ [MESSAGE.SetMsgPanelBoard] }
    { t with m_frame := t.m_frame ++ [MESSAGE.SendCrossProbeNetName ""] }

/-- The function `PCB_INSPECTION_TOOL::highlightNet`: the returned flag and the tool
afterwards, or the first fault. -/
def PCB_INSPECTION_TOOL.highlightNet (E : INSPECTION_COLLABORATORS) (t : PCB_INSPECTION_TOOL)
    (aPosition : VECTOR2D) (aUseSelection : Bool) : Except FAULT (Bool × PCB_INSPECTION_TOOL) :=
  let net : Int := -1
  let enableHighlight := false
  match (if aUseSelection then selectionLoop t.m_selection net else some net) with
  | none => .ok (false, t)
  | some net =>
    let enableHighlight :=
      if aUseSelection then
        decide (net ≥ 0) && !netcodesCount t.m_settings.GetHighlightNetCodes net
      else enableHighlight
    match cursorPath E t aPosition net enableHighlight with
    | .error fault => .error fault
    | .ok (net, enableHighlight, frame) =>
      .ok (true, applyHighlight E { t with m_frame := frame } net enableHighlight)

/-! ### A sample board for the inspection tool -/

/-- The copper layers of the samples: layer ids 0 to 31. -/
def sampleAllCuMask : LSET := ⟨List.range 32⟩

/-- Whether an item type belongs to a scan list. -/
def sampleScans : SCAN_TYPES → KICAD_T → Bool
  | .PadsOrTracks, .PCB_PAD_T => true
  | .PadsOrTracks, .PCB_TRACE_T => true
  | .PadsOrTracks, .PCB_VIA_T => true
  | .Zones, .PCB_ZONE_AREA_T => true
  | _, _ => false

/-- A collector for the samples: the items of the scan list that sit at the position. -/
def sampleCollect (board : BOARD) (scan : SCAN_TYPES) (pos : VECTOR2D) :
    List BOARD_CONNECTED_ITEM :=
  (board.m_items.filter (fun e => decide (e.1 = pos) && sampleScans scan e.2.Type)).map
    (fun e => e.2)

/-- Sample collaborators: highlighting one net replaces the set of highlighted nets. -/
def sampleInspection : INSPECTION_COLLABORATORS :=
  { AllCuMask := sampleAllCuMask
    Collect := sampleCollect
    SetHighlight := fun _ enabled net => ⟨enabled, if enabled then [net] else []⟩
    SetHighLightNet := fun b net => { b with m_highLightNetCode := net }
    HighLightON := fun b => { b with m_highLightOn := true }
    ResetNetHighLight := fun b => { b with m_highLightNetCode := -1, m_highLightOn := false }
    FindNet := fun b net => b.m_NetInfo.find? (fun n => decide (n.m_NetCode = net)) }

/-- A pad on the front copper layer (id 0), on net 3. -/
def copperPad : BOARD_CONNECTED_ITEM := ⟨.PCB_PAD_T, ⟨[0]⟩, 3⟩

/-- A track on the front copper layer, on net 3. -/
def copperTrack : BOARD_CONNECTED_ITEM := ⟨.PCB_TRACE_T, ⟨[0]⟩, 3⟩

/-- A track on the front copper layer, on net 5. -/
def otherTrack : BOARD_CONNECTED_ITEM := ⟨.PCB_TRACE_T, ⟨[0]⟩, 5⟩

/-- An aperture pad: a pad on the front paste and mask layers only (ids 35 and 39), with
no copper layer, on net 0. -/
def aperturePad : BOARD_CONNECTED_ITEM := ⟨.PCB_PAD_T, ⟨[35, 39]⟩, 0⟩

/-- A board with the items given, nets 3 and 5, and nothing highlighted. -/
def sampleBoard (items : List (VECTOR2D × BOARD_CONNECTED_ITEM)) : BOARD :=
  { m_highLightNetCode := -1, m_highLightOn := false,
    m_NetInfo := [⟨3, "GND"⟩, ⟨5, "VCC"⟩], m_items := items }

/-- A tool on a sample board, with a selection, net 5 highlighted and no call made yet. -/
def sampleTool (items : List (VECTOR2D × BOARD_CONNECTED_ITEM)) (selection : List EDA_ITEM) :
    PCB_INSPECTION_TOOL :=
  { m_lastNetcode := -1, m_settings := ⟨true, [5]⟩, m_board := sampleBoard items,
    m_selection := selection, m_frame := [] }

end pcbnew

/-! ## Theorems -/

namespace test

/-! ### The loops as a run over the list of pairs -/

theorem record_nil (eng : DRC_ENGINE) : eng.record [] = eng := by
  cases eng
  simp [DRC_ENGINE.record]

theorem innerLoop_eq_runPairs (E : COLLABORATORS) (i : Nat) (footprint : MODULE) :
    ∀ (rest : List MODULE) (j : Nat) (eng : DRC_ENGINE),
      innerLoop E i footprint j rest eng = runPairs E (pairsWith i footprint j rest) eng := by
  intro rest
  induction rest with
  | nil => intro j eng; rfl
  | cons t rest ih =>
    intro j eng
    simp only [innerLoop, pairsWith, runPairs, SCAN_PAIR.locals, SCAN_PAIR.overlaps,
      SCAN_PAIR.marker, ih]

theorem runPairs_append (E : COLLABORATORS) :
    ∀ (xs ys : List SCAN_PAIR) (eng : DRC_ENGINE),
      runPairs E (xs ++ ys) eng =
        if (runPairs E xs eng).2 then runPairs E xs eng
        else runPairs E ys (runPairs E xs eng).1 := by
  intro xs
  induction xs with
  | nil => intro ys eng; simp [runPairs]
  | cons q qs ih =>
    intro ys eng
    simp only [List.cons_append, runPairs]
    split
    · split
      · simp
      · exact ih _ _
    · exact ih _ _

theorem checkSide_of_left_empty (E : COLLABORATORS) (side : SIDE) (i j : Nat)
    (a b : SHAPE_POLY_SET) (loc : PAIR_LOCALS) (h : a.OutlineCount = 0) :
    checkSide E side i j a b loc = loc := by
  simp [checkSide, h]

theorem checkSide_of_right_empty (E : COLLABORATORS) (side : SIDE) (i j : Nat)
    (a b : SHAPE_POLY_SET) (loc : PAIR_LOCALS) (h : b.OutlineCount = 0) :
    checkSide E side i j a b loc = loc := by
  simp [checkSide, h]

theorem testPair_of_noCourtyard_left (E : COLLABORATORS) (i j : Nat) (footprint test : MODULE)
    (h : footprint.noCourtyard) :
    testPair E i j footprint test = ⟨SHAPE_POLY_SET.new, false, ⟨0, 0⟩, []⟩ := by
  simp [testPair, checkSide_of_left_empty, h.1, h.2]

theorem testPair_of_noCourtyard_right (E : COLLABORATORS) (i j : Nat) (footprint test : MODULE)
    (h : test.noCourtyard) :
    testPair E i j footprint test = ⟨SHAPE_POLY_SET.new, false, ⟨0, 0⟩, []⟩ := by
  simp [testPair, checkSide_of_right_empty, h.1, h.2]

theorem runPairs_pairsWith_of_noCourtyard (E : COLLABORATORS) (i : Nat) (footprint : MODULE)
    (h : footprint.noCourtyard) :
    ∀ (rest : List MODULE) (j : Nat) (eng : DRC_ENGINE),
      runPairs E (pairsWith i footprint j rest) eng = (eng, false) := by
  intro rest
  induction rest with
  | nil => intro j eng; rfl
  | cons t rest ih =>
    intro j eng
    simp [pairsWith, runPairs, SCAN_PAIR.locals, SCAN_PAIR.overlaps,
      testPair_of_noCourtyard_left E i j footprint t h, record_nil, ih]

theorem outerLoop_eq_runPairs (E : COLLABORATORS) :
    ∀ (l : List MODULE) (i : Nat) (eng : DRC_ENGINE),
      outerLoop E i l eng = (runPairs E (allPairs i l) eng).1 := by
  intro l
  induction l with
  | nil => intro i eng; rfl
  | cons fp rest ih =>
    intro i eng
    simp only [outerLoop, allPairs, runPairs_append]
    by_cases h : fp.GetPolyCourtyardFront.OutlineCount = 0
        ∧ fp.GetPolyCourtyardBack.OutlineCount = 0
    · rw [if_pos h, runPairs_pairsWith_of_noCourtyard E i fp h]
      simpa using ih (i + 1) eng
    · rw [if_neg h, innerLoop_eq_runPairs]
      split
      · rfl
      · exact ih _ _

/-! ### Closed form of a run over a list of pairs -/

theorem scanBudget_record (eng : DRC_ENGINE) (calls : List EVENT) :
    scanBudget (eng.record calls) = scanBudget eng := rfl

theorem scanBudget_pos (eng : DRC_ENGINE) : ∃ b, scanBudget eng = b + 1 := by
  refine ⟨scanBudget eng - 1, ?_⟩
  have : 1 ≤ scanBudget eng := le_max_left _ _
  omega

theorem scanBudget_of_exceeded (eng : DRC_ENGINE) (item : DRC_ITEM) (pos : wxPoint)
    (hc : item.m_errorCode = .DRCE_OVERLAPPING_FOOTPRINTS)
    (h : (eng.ReportWithMarker item pos).isErrorLimitExceeded .DRCE_OVERLAPPING_FOOTPRINTS
      = true) :
    scanBudget eng = 1 := by
  simp [DRC_ENGINE.isErrorLimitExceeded, DRC_ENGINE.ReportWithMarker, hc] at h
  simp only [scanBudget]
  omega

theorem scanBudget_of_not_exceeded (eng : DRC_ENGINE) (item : DRC_ITEM) (pos : wxPoint)
    (hc : item.m_errorCode = .DRCE_OVERLAPPING_FOOTPRINTS)
    (h : (eng.ReportWithMarker item pos).isErrorLimitExceeded .DRCE_OVERLAPPING_FOOTPRINTS
      = false) :
    scanBudget eng = scanBudget (eng.ReportWithMarker item pos) + 1 := by
  simp [DRC_ENGINE.isErrorLimitExceeded, DRC_ENGINE.ReportWithMarker, hc] at h
  simp only [scanBudget, DRC_ENGINE.ReportWithMarker, hc, if_true]
  omega

/-- The pairs evaluated by a run over `qs` from the engine state `eng`. -/
theorem runPairs_closed (E : COLLABORATORS) :
    ∀ (qs : List SCAN_PAIR) (eng : DRC_ENGINE),
      (runPairs E qs eng).1.m_markers = eng.m_markers
          ++ ((takeHits (SCAN_PAIR.overlaps E) (scanBudget eng) qs).filter
                (SCAN_PAIR.overlaps E)).map (SCAN_PAIR.marker E)
      ∧ (runPairs E qs eng).1.m_log = eng.m_log
          ++ (takeHits (SCAN_PAIR.overlaps E) (scanBudget eng) qs).flatMap
                (fun q => (q.locals E).calls)
      ∧ (runPairs E qs eng).1.m_errorLimits = eng.m_errorLimits
      ∧ (∀ k, (runPairs E qs eng).1.m_errorCount k =
          if k = .DRCE_OVERLAPPING_FOOTPRINTS then
            eng.m_errorCount k
              + ((takeHits (SCAN_PAIR.overlaps E) (scanBudget eng) qs).filter
                  (SCAN_PAIR.overlaps E)).length
          else eng.m_errorCount k) := by
  intro qs
  induction qs with
  | nil =>
    intro eng
    obtain ⟨b, hb⟩ := scanBudget_pos eng
    simp [runPairs, takeHits, hb]
  | cons q qs ih =>
    intro eng
    obtain ⟨b, hb⟩ := scanBudget_pos eng
    by_cases hq : q.overlaps E = true
    · by_cases hx : ((eng.record (q.locals E).calls).ReportWithMarker (q.marker E).item
          (q.marker E).pos).isErrorLimitExceeded .DRCE_OVERLAPPING_FOOTPRINTS = true
      · have h1 := scanBudget_of_exceeded (eng.record (q.locals E).calls) (q.marker E).item
          (q.marker E).pos rfl hx
        rw [scanBudget_record] at h1
        simp only [runPairs, hq, hx, if_true, h1, takeHits, List.filter_cons, List.map_cons,
          List.filter_nil, List.map_nil, List.flatMap_cons, List.flatMap_nil,
          List.append_nil, List.length_cons, List.length_nil]
        refine ⟨?_, ?_, ?_, ?_⟩
        · simp [DRC_ENGINE.ReportWithMarker, DRC_ENGINE.record, SCAN_PAIR.marker]
        · simp [DRC_ENGINE.ReportWithMarker, DRC_ENGINE.record]
        · simp [DRC_ENGINE.ReportWithMarker, DRC_ENGINE.record]
        · intro k
          simp [DRC_ENGINE.ReportWithMarker, DRC_ENGINE.record, SCAN_PAIR.marker,
            DRC_ITEM.SetItems, DRC_ITEM.Create]
      · have hx' := Bool.eq_false_iff.mpr hx
        have h1 := scanBudget_of_not_exceeded (eng.record (q.locals E).calls) (q.marker E).item
          (q.marker E).pos rfl hx'
        rw [scanBudget_record] at h1
        obtain ⟨m1, m2, m3, m4⟩ := ih ((eng.record (q.locals E).calls).ReportWithMarker
          (q.marker E).item (q.marker E).pos)
        simp only [runPairs, hq, hx', if_true, h1, takeHits, List.filter_cons, List.map_cons,
          List.flatMap_cons, List.length_cons, Bool.false_eq_true, if_false]
        refine ⟨?_, ?_, ?_, ?_⟩
        · rw [m1]
          simp [DRC_ENGINE.ReportWithMarker, DRC_ENGINE.record, SCAN_PAIR.marker]
        · rw [m2]
          simp [DRC_ENGINE.ReportWithMarker, DRC_ENGINE.record]
        · rw [m3]
          simp [DRC_ENGINE.ReportWithMarker, DRC_ENGINE.record]
        · intro k
          rw [m4 k]
          by_cases hk : k = .DRCE_OVERLAPPING_FOOTPRINTS
          · simp [hk, DRC_ENGINE.ReportWithMarker, DRC_ENGINE.record, SCAN_PAIR.marker,
              DRC_ITEM.SetItems, DRC_ITEM.Create]
            omega
          · simp [hk, DRC_ENGINE.ReportWithMarker, DRC_ENGINE.record, SCAN_PAIR.marker,
              DRC_ITEM.SetItems, DRC_ITEM.Create]
    · have hq' := Bool.eq_false_iff.mpr hq
      obtain ⟨m1, m2, m3, m4⟩ := ih (eng.record (q.locals E).calls)
      rw [scanBudget_record] at m1 m2 m4
      simp only [runPairs, hq', hb, takeHits, List.filter_cons, List.flatMap_cons,
        Bool.false_eq_true, if_false]
      rw [hb] at m1 m2 m4
      refine ⟨?_, ?_, ?_, ?_⟩
      · simpa [DRC_ENGINE.record] using m1
      · simpa [DRC_ENGINE.record, List.append_assoc] using m2
      · simpa [DRC_ENGINE.record] using m3
      · intro k
        simpa [DRC_ENGINE.record] using m4 k

/-! ### The list of all pairs -/

theorem mem_pairsWith (i : Nat) (footprint : MODULE) (q : SCAN_PAIR) :
    ∀ (rest : List MODULE) (j : Nat),
      q ∈ pairsWith i footprint j rest ↔
        q.i = i ∧ q.footprint = footprint ∧ j ≤ q.j ∧ rest[q.j - j]? = some q.test := by
  obtain ⟨qi, qj, qf, qt⟩ := q
  intro rest
  induction rest with
  | nil => intro j; simp [pairsWith]
  | cons t rest ih =>
    intro j
    simp only [pairsWith, List.mem_cons, ih, SCAN_PAIR.mk.injEq]
    constructor
    · rintro (⟨h1, h2, h3, h4⟩ | ⟨h1, h2, h3, h4⟩)
      · subst h2
        simp [h1, h3, h4]
      · refine ⟨h1, h2, by omega, ?_⟩
        have : qj - j = (qj - (j + 1)) + 1 := by omega
        rw [this]
        simpa using h4
    · rintro ⟨h1, h2, h3, h4⟩
      by_cases hj : qj = j
      · subst hj
        simp at h4
        exact Or.inl ⟨h1, rfl, h2, h4.symm⟩
      · refine Or.inr ⟨h1, h2, by omega, ?_⟩
        have : qj - j = (qj - (j + 1)) + 1 := by omega
        rw [this] at h4
        simpa using h4

theorem mem_allPairs (q : SCAN_PAIR) :
    ∀ (l : List MODULE) (k : Nat),
      q ∈ allPairs k l ↔
        k ≤ q.i ∧ q.i < q.j ∧ l[q.i - k]? = some q.footprint ∧ l[q.j - k]? = some q.test := by
  intro l
  induction l with
  | nil => intro k; simp [allPairs]
  | cons fp rest ih =>
    intro k
    simp only [allPairs, List.mem_append, mem_pairsWith, ih]
    constructor
    · rintro (⟨h1, h2, h3, h4⟩ | ⟨h1, h2, h3, h4⟩)
      · refine ⟨by omega, by omega, ?_, ?_⟩
        · simp [h1, h2]
        · have : q.j - k = (q.j - (k + 1)) + 1 := by omega
          rw [this]
          simpa using h4
      · refine ⟨by omega, h2, ?_, ?_⟩
        · have : q.i - k = (q.i - (k + 1)) + 1 := by omega
          rw [this]
          simpa using h3
        · have : q.j - k = (q.j - (k + 1)) + 1 := by omega
          rw [this]
          simpa using h4
    · rintro ⟨h1, h2, h3, h4⟩
      have hj : q.j - k = (q.j - (k + 1)) + 1 := by omega
      rw [hj] at h4
      by_cases hi : q.i = k
      · left
        rw [hi] at h3
        simp at h3
        exact ⟨hi, h3.symm, by omega, by simpa using h4⟩
      · right
        have hi' : q.i - k = (q.i - (k + 1)) + 1 := by omega
        rw [hi'] at h3
        exact ⟨by omega, h2, by simpa using h3, by simpa using h4⟩

theorem pairwise_pairsWith (i : Nat) (footprint : MODULE) :
    ∀ (rest : List MODULE) (j : Nat),
      (pairsWith i footprint j rest).Pairwise (fun a b => scanBefore a.key b.key) := by
  intro rest
  induction rest with
  | nil => intro j; simp [pairsWith]
  | cons t rest ih =>
    intro j
    simp only [pairsWith, List.pairwise_cons]
    refine ⟨?_, ih _⟩
    intro b hb
    rw [mem_pairsWith] at hb
    right
    simp only [SCAN_PAIR.key]
    exact ⟨hb.1.symm, by omega⟩

theorem pairwise_allPairs :
    ∀ (l : List MODULE) (k : Nat),
      (allPairs k l).Pairwise (fun a b => scanBefore a.key b.key) := by
  intro l
  induction l with
  | nil => intro k; simp [allPairs]
  | cons fp rest ih =>
    intro k
    simp only [allPairs, List.pairwise_append]
    refine ⟨pairwise_pairsWith _ _ _ _, ih _, ?_⟩
    intro a ha b hb
    rw [mem_pairsWith] at ha
    rw [mem_allPairs] at hb
    left
    simp only [SCAN_PAIR.key]
    omega

theorem scanBefore_irrefl (a : Nat × Nat) : ¬ scanBefore a a := by
  simp [scanBefore]

theorem nodup_keys_allPairs (l : List MODULE) (k : Nat) :
    ((allPairs k l).map SCAN_PAIR.key).Nodup := by
  rw [List.Nodup, List.pairwise_map]
  refine (pairwise_allPairs l k).imp ?_
  intro a b hab heq
  rw [heq] at hab
  exact scanBefore_irrefl _ hab

/-! ### Prefixes that end with a hit -/

theorem takeHits_filter {α : Type} (hit : α → Bool) :
    ∀ (l : List α) (n : Nat), (takeHits hit n l).filter hit = (l.filter hit).take n := by
  intro l
  induction l with
  | nil => intro n; cases n <;> simp [takeHits]
  | cons a as ih =>
    intro n
    cases n with
    | zero => simp [takeHits]
    | succ n =>
      by_cases h : hit a = true
      · simp [takeHits, h, ih]
      · simp [takeHits, h, ih]

theorem takeHits_initial {α : Type} (hit : α → Bool) :
    ∀ (l : List α) (n : Nat), takeHits hit n l <+: l := by
  intro l
  induction l with
  | nil => intro n; cases n <;> simp [takeHits]
  | cons a as ih =>
    intro n
    cases n with
    | zero => simp [takeHits]
    | succ n =>
      simp only [takeHits]
      split
      · exact (List.prefix_cons_inj a).mpr (ih n)
      · exact (List.prefix_cons_inj a).mpr (ih (n + 1))

theorem takeHits_eq_self {α : Type} (hit : α → Bool) :
    ∀ (l : List α) (n : Nat), (l.filter hit).length < n → takeHits hit n l = l := by
  intro l
  induction l with
  | nil => intro n hn; cases n <;> simp [takeHits]
  | cons a as ih =>
    intro n hn
    cases n with
    | zero => omega
    | succ n =>
      by_cases h : hit a = true
      · simp only [List.filter_cons, h, if_true, List.length_cons] at hn
        simp [takeHits, h, ih n (by omega)]
      · simp only [List.filter_cons, h, Bool.false_eq_true, if_false] at hn
        simp [takeHits, h, ih (n + 1) hn]

/-! ### The pair test -/

theorem checkSide_overlap (E : COLLABORATORS) (side : SIDE) (i j : Nat)
    (a b : SHAPE_POLY_SET) (loc : PAIR_LOCALS) :
    (checkSide E side i j a b loc).overlap = (loc.overlap || sideHit E a b) := by
  unfold checkSide sideHit
  by_cases h1 : 0 < a.OutlineCount ∧ 0 < b.OutlineCount
  · have h1' : 0 < a.m_polys.length ∧ 0 < b.m_polys.length := h1
    by_cases h2 : E.Intersects a.BBoxFromCaches b.BBoxFromCaches = true
    · by_cases h3 : 0 < (E.BooleanIntersection a.m_polys b.m_polys).length
      · simp [h1', h2, h3, SHAPE_POLY_SET.BooleanIntersection, SHAPE_POLY_SET.Append,
          SHAPE_POLY_SET.RemoveAllContours, SHAPE_POLY_SET.OutlineCount]
      · simp [h1', h2, h3, SHAPE_POLY_SET.BooleanIntersection, SHAPE_POLY_SET.Append,
          SHAPE_POLY_SET.RemoveAllContours, SHAPE_POLY_SET.OutlineCount]
    · simp [h1, h2]
  · simp [h1]

theorem testPair_overlap (E : COLLABORATORS) (i j : Nat) (footprint test : MODULE) :
    (testPair E i j footprint test).overlap =
      (sideHit E footprint.GetPolyCourtyardFront test.GetPolyCourtyardFront
        || sideHit E footprint.GetPolyCourtyardBack test.GetPolyCourtyardBack) := by
  simp [testPair, checkSide_overlap]

theorem sideHit_iff_of_bbox (E : COLLABORATORS) (a b : SHAPE_POLY_SET)
    (hbbox : 0 < (E.BooleanIntersection a.m_polys b.m_polys).length →
      E.Intersects a.BBoxFromCaches b.BBoxFromCaches = true) :
    sideHit E a b = true ↔ 0 < (E.BooleanIntersection a.m_polys b.m_polys).length := by
  constructor
  · intro h
    simp [sideHit] at h
    exact h.2
  · intro h
    have ha : 0 < a.OutlineCount := by
      rcases Nat.eq_zero_or_pos a.OutlineCount with h0 | h0
      · rw [SHAPE_POLY_SET.OutlineCount, List.length_eq_zero] at h0
        rw [h0, E.BooleanIntersection_nil_left] at h
        simp at h
      · exact h0
    have hb : 0 < b.OutlineCount := by
      rcases Nat.eq_zero_or_pos b.OutlineCount with h0 | h0
      · rw [SHAPE_POLY_SET.OutlineCount, List.length_eq_zero] at h0
        rw [h0, E.BooleanIntersection_nil_right] at h
        simp at h
      · exact h0
    simp [sideHit, ha, hb, hbbox h, h]

/-! ### What `testOverlappingComponentCourtyards` leaves behind -/

/-- The engine state after the scan, in terms of the evaluated pairs. -/
theorem testOverlapping_closed (E : COLLABORATORS) (p : PROVIDER) :
    (testOverlappingComponentCourtyards E p).m_board = p.m_board
    ∧ newMarkers p.m_drcEngine (testOverlappingComponentCourtyards E p).m_drcEngine =
        (((allPairs 0 p.m_board).filter (SCAN_PAIR.overlaps E)).take
          (scanBudget p.m_drcEngine)).map (SCAN_PAIR.marker E)
    ∧ newCalls p.m_drcEngine (testOverlappingComponentCourtyards E p).m_drcEngine =
        EVENT.ReportStage "Testing component courtyard overlap" 0 2 ::
          (takeHits (SCAN_PAIR.overlaps E) (scanBudget p.m_drcEngine)
            (allPairs 0 p.m_board)).flatMap (fun q => (q.locals E).calls)
    ∧ (testOverlappingComponentCourtyards E p).m_drcEngine.m_errorLimits
        = p.m_drcEngine.m_errorLimits
    ∧ (∀ k, (testOverlappingComponentCourtyards E p).m_drcEngine.m_errorCount k =
        if k = .DRCE_OVERLAPPING_FOOTPRINTS then
          p.m_drcEngine.m_errorCount k
            + (((allPairs 0 p.m_board).filter (SCAN_PAIR.overlaps E)).take
                (scanBudget p.m_drcEngine)).length
        else p.m_drcEngine.m_errorCount k) := by
  obtain ⟨m1, m2, m3, m4⟩ := runPairs_closed E (allPairs 0 p.m_board)
    (p.m_drcEngine.ReportStage "Testing component courtyard overlap" 0 2)
  have hb : scanBudget (p.m_drcEngine.ReportStage "Testing component courtyard overlap" 0 2)
      = scanBudget p.m_drcEngine := rfl
  rw [hb] at m1 m2 m4
  rw [takeHits_filter] at m1 m4
  simp only [testOverlappingComponentCourtyards, outerLoop_eq_runPairs, newMarkers, newCalls]
  refine ⟨trivial, ?_, ?_, m3, ?_⟩
  · rw [m1]
    simp [DRC_ENGINE.ReportStage, DRC_ENGINE.record]
  · rw [m2]
    simp [DRC_ENGINE.ReportStage, DRC_ENGINE.record, List.append_assoc]
  · intro k
    rw [m4 k]
    simp [DRC_ENGINE.ReportStage, DRC_ENGINE.record]

/-! ### Counting the violations of one pair -/

theorem countP_marker_eq_countP_key (E : COLLABORATORS) (i j : Nat) (hs : List SCAN_PAIR) :
    (hs.map (SCAN_PAIR.marker E)).countP
        (fun m => decide (m.item.m_errorCode = .DRCE_OVERLAPPING_FOOTPRINTS
          ∧ m.item.m_items = [i, j]))
      = hs.countP (fun q => decide (q.key = (i, j))) := by
  rw [List.countP_map]
  apply List.countP_congr
  intro q _
  simp [SCAN_PAIR.marker, DRC_ITEM.SetItems, DRC_ITEM.Create, SCAN_PAIR.key]

theorem countP_key_of_nodup (a : Nat × Nat) :
    ∀ (hs : List SCAN_PAIR), (hs.map SCAN_PAIR.key).Nodup →
      hs.countP (fun q => decide (q.key = a)) = if a ∈ hs.map SCAN_PAIR.key then 1 else 0 := by
  intro hs
  induction hs with
  | nil => intro _; simp
  | cons q hs ih =>
    intro hn
    rw [List.map_cons, List.nodup_cons] at hn
    rw [List.countP_cons, ih hn.2]
    by_cases hq : q.key = a
    · have : a ∉ hs.map SCAN_PAIR.key := hq ▸ hn.1
      simp [hq, this]
    · have hq' : ¬ a = q.key := fun h => hq h.symm
      simp [hq, hq']

theorem mem_keys_hits_iff (E : COLLABORATORS) (l : List MODULE) (i j : Nat) (A B : MODULE)
    (hij : i < j) (hA : l[i]? = some A) (hB : l[j]? = some B) :
    (i, j) ∈ (((allPairs 0 l).filter (SCAN_PAIR.overlaps E)).map SCAN_PAIR.key)
      ↔ SCAN_PAIR.overlaps E ⟨i, j, A, B⟩ = true := by
  simp only [List.mem_map, List.mem_filter, mem_allPairs]
  constructor
  · rintro ⟨q, ⟨⟨_, _, h3, h4⟩, hq⟩, hk⟩
    obtain ⟨qi, qj, qf, qt⟩ := q
    simp only [SCAN_PAIR.key, Prod.mk.injEq] at hk
    obtain ⟨rfl, rfl⟩ := hk
    simp only [Nat.sub_zero] at h3 h4
    rw [hA] at h3
    rw [hB] at h4
    cases h3
    cases h4
    exact hq
  · intro h
    exact ⟨⟨i, j, A, B⟩, ⟨⟨Nat.zero_le _, hij, by simpa using hA, by simpa using hB⟩, h⟩, rfl⟩

theorem nodup_keys_hits (E : COLLABORATORS) (l : List MODULE) :
    (((allPairs 0 l).filter (SCAN_PAIR.overlaps E)).map SCAN_PAIR.key).Nodup :=
  (nodup_keys_allPairs l 0).sublist ((List.filter_sublist _).map _)

theorem count_key_hits (E : COLLABORATORS) (l : List MODULE) (i j : Nat) (A B : MODULE)
    (hij : i < j) (hA : l[i]? = some A) (hB : l[j]? = some B) :
    ((allPairs 0 l).filter (SCAN_PAIR.overlaps E)).countP (fun q => decide (q.key = (i, j)))
      = if SCAN_PAIR.overlaps E ⟨i, j, A, B⟩ = true then 1 else 0 := by
  rw [countP_key_of_nodup _ _ (nodup_keys_hits E l)]
  simp only [mem_keys_hits_iff E l i j A B hij hA hB]

/-- When the limit is not exceeded after the scan, no violation was held back. -/
theorem take_budget_eq_self_of_not_exceeded (E : COLLABORATORS) (p : PROVIDER)
    (hlimit : (testOverlappingComponentCourtyards E p).m_drcEngine.isErrorLimitExceeded
      .DRCE_OVERLAPPING_FOOTPRINTS = false) :
    ((allPairs 0 p.m_board).filter (SCAN_PAIR.overlaps E)).take (scanBudget p.m_drcEngine)
      = (allPairs 0 p.m_board).filter (SCAN_PAIR.overlaps E) := by
  obtain ⟨_, _, _, m3, m4⟩ := testOverlapping_closed E p
  simp only [DRC_ENGINE.isErrorLimitExceeded, decide_eq_false_iff_not, not_le] at hlimit
  rw [m3, m4] at hlimit
  simp only [if_true, List.length_take, scanBudget] at hlimit
  apply List.take_of_length_le
  simp only [scanBudget]
  omega

/-! ### One violation per overlapping pair -/

/-- C1: for footprints `A`, `B` at board positions `i < j`, when the
`DRCE_OVERLAPPING_FOOTPRINTS` limit is not exceeded during the scan (it is not exceeded when
the scan ends, and the counter only grows) and a non-empty intersection of the pair's
courtyards comes with intersecting cached bounding boxes, the scan reports exactly one
`DRCE_OVERLAPPING_FOOTPRINTS` violation for the pair if its front or its back courtyards have
a non-empty boolean intersection, and none otherwise; a pair that overlaps on both sides gets
one violation. -/
theorem C1_one_violation_per_overlapping_pair (E : COLLABORATORS) (p : PROVIDER)
    (i j : Nat) (A B : MODULE) (hij : i < j)
    (hA : p.m_board[i]? = some A) (hB : p.m_board[j]? = some B)
    (hlimit : (testOverlappingComponentCourtyards E p).m_drcEngine.isErrorLimitExceeded
      .DRCE_OVERLAPPING_FOOTPRINTS = false)
    (hbbox : ∀ side, courtyardsIntersect E side A B →
      E.Intersects (A.courtyard side).BBoxFromCaches (B.courtyard side).BBoxFromCaches = true) :
    (newMarkers p.m_drcEngine (testOverlappingComponentCourtyards E p).m_drcEngine).countP
        (fun m => decide (m.item.m_errorCode = .DRCE_OVERLAPPING_FOOTPRINTS
          ∧ m.item.m_items = [i, j]))
      = if courtyardsIntersect E .front A B ∨ courtyardsIntersect E .back A B then 1 else 0 := by
  obtain ⟨_, m1, _⟩ := testOverlapping_closed E p
  rw [m1, take_budget_eq_self_of_not_exceeded E p hlimit, countP_marker_eq_countP_key,
    count_key_hits E p.m_board i j A B hij hA hB]
  have hf := sideHit_iff_of_bbox E A.GetPolyCourtyardFront B.GetPolyCourtyardFront
    (hbbox .front)
  have hb := sideHit_iff_of_bbox E A.GetPolyCourtyardBack B.GetPolyCourtyardBack
    (hbbox .back)
  have hov : SCAN_PAIR.overlaps E ⟨i, j, A, B⟩ = true ↔
      (courtyardsIntersect E .front A B ∨ courtyardsIntersect E .back A B) := by
    simp only [SCAN_PAIR.overlaps, SCAN_PAIR.locals, testPair_overlap, Bool.or_eq_true, hf, hb]
    rfl
  simp only [hov]

/-- C1 at the board of two rectangles `(0,0)-(10,10)` and `(5,5)-(15,15)`: exactly one
violation for the pair. -/
theorem C1_witness_two_rectangles :
    (newMarkers twoRectanglesChecked.m_drcEngine
        (testOverlappingComponentCourtyards sampleCollaborators
          twoRectanglesChecked).m_drcEngine).countP
        (fun m => decide (m.item.m_errorCode = .DRCE_OVERLAPPING_FOOTPRINTS
          ∧ m.item.m_items = [0, 1])) = 1
    ∧ (newMarkers twoRectanglesChecked.m_drcEngine
        (testOverlappingComponentCourtyards sampleCollaborators
          twoRectanglesChecked).m_drcEngine).map (fun m => m.pos) = [⟨5, 5⟩] := by
  refine ⟨?_, by decide⟩
  rw [C1_one_violation_per_overlapping_pair sampleCollaborators twoRectanglesChecked 0 1
    (rectangleFootprint 0 0 10 10) (rectangleFootprint 5 5 15 15) (by decide) (by decide)
    (by decide) (by decide) (by intro side _; cases side <;> decide)]
  decide

/-! ### The definition check, footprint by footprint -/

theorem definitionsLoop_append (E : COLLABORATORS) :
    ∀ (l1 l2 : List MODULE) (k : Nat) (eng : DRC_ENGINE),
      definitionsLoop E k (l1 ++ l2) eng =
        ((definitionsLoop E k l1 eng).1
            ++ (definitionsLoop E (k + l1.length) l2 (definitionsLoop E k l1 eng).2).1,
          (definitionsLoop E (k + l1.length) l2 (definitionsLoop E k l1 eng).2).2) := by
  intro l1
  induction l1 with
  | nil => intro l2 k eng; simp [definitionsLoop]
  | cons fp rest ih =>
    intro l2 k eng
    have hlen : k + 1 + rest.length = k + (rest.length + 1) := by omega
    have h := ih l2 (k + 1) (visitFootprint E k fp eng).2
    rw [hlen] at h
    show definitionsLoop E k (fp :: (rest ++ l2)) eng = _
    simp only [definitionsLoop, List.length_cons, h, List.cons_append]

/-- A visit reports nothing or one violation, which references the visited footprint alone. -/
theorem visitFootprint_markers (E : COLLABORATORS) (k : Nat) (fp : MODULE) (eng : DRC_ENGINE) :
    ∃ ms, (visitFootprint E k fp eng).2.m_markers = eng.m_markers ++ ms
      ∧ ms.length ≤ 1
      ∧ ∀ m ∈ ms, m.item.m_items = [k]
        ∧ (m.item.m_errorCode = .DRCE_MISSING_COURTYARD
            ∨ m.item.m_errorCode = .DRCE_MALFORMED_COURTYARD) := by
  unfold visitFootprint
  simp only
  split
  · split
    · split
      · exact ⟨[], by simp [DRC_ENGINE.record], by simp, by simp⟩
      · exact ⟨[_], by simp [DRC_ENGINE.record, DRC_ENGINE.ReportWithMarker]; rfl, by simp,
          by simp [DRC_ITEM.SetItems, DRC_ITEM.Create]⟩
    · exact ⟨[], by simp [DRC_ENGINE.record], by simp, by simp⟩
  · split
    · exact ⟨[_], by simp [DRC_ENGINE.record, DRC_ENGINE.ReportWithMarker]; rfl, by simp,
        by simp [DRC_ITEM.SetItems, DRC_ITEM.Create, DRC_ITEM.SetErrorMessage]⟩
    · exact ⟨[], by simp [DRC_ENGINE.record], by simp, by simp⟩

/-- The violations reported by the loop reference one footprint each, at a position the loop
visits, and come in the order of the positions. -/
theorem definitionsLoop_markers (E : COLLABORATORS) :
    ∀ (l : List MODULE) (k : Nat) (eng : DRC_ENGINE),
      ∃ ms, (definitionsLoop E k l eng).2.m_markers = eng.m_markers ++ ms
        ∧ ms.length ≤ l.length
        ∧ ∀ m ∈ ms, ∃ x, m.item.m_items = [x] ∧ k ≤ x ∧ x < k + l.length
          ∧ (m.item.m_errorCode = .DRCE_MISSING_COURTYARD
              ∨ m.item.m_errorCode = .DRCE_MALFORMED_COURTYARD) := by
  intro l
  induction l with
  | nil => intro k eng; exact ⟨[], by simp [definitionsLoop], by simp, by simp⟩
  | cons fp rest ih =>
    intro k eng
    obtain ⟨ms1, h1, hl1, hm1⟩ := visitFootprint_markers E k fp eng
    obtain ⟨ms2, h2, hl2, hm2⟩ := ih (k + 1) (visitFootprint E k fp eng).2
    refine ⟨ms1 ++ ms2, ?_, ?_, ?_⟩
    · simp only [definitionsLoop]
      rw [h2, h1, List.append_assoc]
    · simp only [List.length_append, List.length_cons]
      omega
    · intro m hm
      rcases List.mem_append.mp hm with hm | hm
      · exact ⟨k, (hm1 m hm).1, le_refl _, by simp, (hm1 m hm).2⟩
      · obtain ⟨x, hx1, hx2, hx3, hx4⟩ := hm2 m hm
        exact ⟨x, hx1, by omega, by simp only [List.length_cons]; omega, hx4⟩

/-- The violations of a pass of the definition check, split around the visit of position `k`:
those of earlier footprints, those of the visit, those of later footprints. -/
theorem definitions_markers_split (E : COLLABORATORS) (p : PROVIDER) (k : Nat) (C : MODULE)
    (hC : p.m_board[k]? = some C) :
    ∃ pre post,
      newMarkers p.m_drcEngine (testFootprintCourtyardDefinitions E p).m_drcEngine
        = pre ++ newMarkers (engineAtVisit E p k)
            (visitFootprint E k C (engineAtVisit E p k)).2 ++ post
      ∧ (∀ m ∈ pre, ∃ x, m.item.m_items = [x] ∧ x < k)
      ∧ (∀ m ∈ post, ∃ x, m.item.m_items = [x] ∧ k < x) := by
  have hk : k < p.m_board.length := (List.getElem?_eq_some.mp hC).1
  have hsplit : p.m_board = p.m_board.take k ++ C :: p.m_board.drop (k + 1) := by
    have h1 := (List.take_append_drop k p.m_board).symm
    have h2 : p.m_board.drop k = C :: p.m_board.drop (k + 1) := by
      rw [List.drop_eq_getElem_cons hk]
      congr 1
      exact (List.getElem?_eq_some.mp hC).2
    rw [h2] at h1
    exact h1
  have hlen : (p.m_board.take k).length = k := by
    rw [List.length_take]
    omega
  obtain ⟨ms0, h0, _, hm0⟩ := definitionsLoop_markers E (p.m_board.take k) 0
    (p.m_drcEngine.ReportStage "Testing component courtyard definitions" 0 2)
  obtain ⟨ms1, h1, _, _⟩ := visitFootprint_markers E k C (engineAtVisit E p k)
  obtain ⟨ms2, h2, _, hm2⟩ := definitionsLoop_markers E (p.m_board.drop (k + 1)) (k + 1)
    (visitFootprint E k C (engineAtVisit E p k)).2
  refine ⟨ms0, ms2, ?_, ?_, ?_⟩
  · have hfinal : (testFootprintCourtyardDefinitions E p).m_drcEngine.m_markers
        = p.m_drcEngine.m_markers ++ (ms0 ++ ms1 ++ ms2) := by
      simp only [testFootprintCourtyardDefinitions]
      conv_lhs => rw [hsplit]
      rw [definitionsLoop_append]
      simp only [definitionsLoop, hlen, Nat.zero_add]
      change (definitionsLoop E (k + 1) (List.drop (k + 1) p.m_board)
        (visitFootprint E k C (engineAtVisit E p k)).2).2.m_markers = _
      rw [h2, h1]
      simp only [engineAtVisit]
      rw [h0]
      simp [DRC_ENGINE.ReportStage, DRC_ENGINE.record, List.append_assoc]
    simp only [newMarkers]
    rw [hfinal, List.drop_left, h1, List.drop_left]
  · intro m hm
    obtain ⟨x, hx1, _, hx3, _⟩ := hm0 m hm
    exact ⟨x, hx1, by omega⟩
  · intro m hm
    obtain ⟨x, hx1, hx2, _, _⟩ := hm2 m hm
    exact ⟨x, hx1, by omega⟩

/-- Among the violations of a pass of the definition check, those that reference the
footprint at position `k` are the ones reported during its visit. -/
theorem definitions_markers_of (E : COLLABORATORS) (p : PROVIDER) (k : Nat) (C : MODULE)
    (hC : p.m_board[k]? = some C) :
    (newMarkers p.m_drcEngine (testFootprintCourtyardDefinitions E p).m_drcEngine).filter
        (fun m => decide (k ∈ m.item.m_items))
      = newMarkers (engineAtVisit E p k) (visitFootprint E k C (engineAtVisit E p k)).2 := by
  obtain ⟨pre, post, hs, hpre, hpost⟩ := definitions_markers_split E p k C hC
  obtain ⟨ms1, h1, _, hm1⟩ := visitFootprint_markers E k C (engineAtVisit E p k)
  have hv : newMarkers (engineAtVisit E p k) (visitFootprint E k C (engineAtVisit E p k)).2
      = ms1 := by
    simp only [newMarkers]
    rw [h1, List.drop_left]
  rw [hs, hv, List.filter_append, List.filter_append]
  have e1 : pre.filter (fun m => decide (k ∈ m.item.m_items)) = [] := by
    rw [List.filter_eq_nil_iff]
    intro m hm
    obtain ⟨x, hx1, hx2⟩ := hpre m hm
    simp [hx1]
    omega
  have e2 : post.filter (fun m => decide (k ∈ m.item.m_items)) = [] := by
    rw [List.filter_eq_nil_iff]
    intro m hm
    obtain ⟨x, hx1, hx2⟩ := hpost m hm
    simp [hx1]
    omega
  have e3 : ms1.filter (fun m => decide (k ∈ m.item.m_items)) = ms1 := by
    rw [List.filter_eq_self]
    intro m hm
    simp [(hm1 m hm).1]
  rw [e1, e2, e3]
  simp

/-- The violations of one visit, by the outcome of `BuildPolyCourtyard` and the limits. -/
theorem visitFootprint_newMarkers (E : COLLABORATORS) (k : Nat) (C : MODULE)
    (eng : DRC_ENGINE) :
    newMarkers eng (visitFootprint E k C eng).2 =
      if (E.BuildPolyCourtyard C).1 = true then
        if (E.BuildPolyCourtyard C).2.1.OutlineCount = 0
            ∧ (E.BuildPolyCourtyard C).2.2.OutlineCount = 0 then
          if eng.isErrorLimitExceeded .DRCE_MISSING_COURTYARD = true then []
          else [missingMarker E k C]
        else []
      else
        if eng.isErrorLimitExceeded .DRCE_MALFORMED_COURTYARD = true then []
        else [malformedMarker E k C] := by
  have hx : ∀ code, (eng.record [EVENT.BuildPolyCourtyard k]).isErrorLimitExceeded code
      = eng.isErrorLimitExceeded code := fun _ => rfl
  unfold visitFootprint newMarkers
  simp only [hx, MODULE.BuildPolyCourtyard, MODULE.GetPolyCourtyardFront,
    MODULE.GetPolyCourtyardBack, MODULE.GetPosition]
  by_cases h1 : (E.BuildPolyCourtyard C).1 = true
  · by_cases h2 : (E.BuildPolyCourtyard C).2.1.OutlineCount = 0
        ∧ (E.BuildPolyCourtyard C).2.2.OutlineCount = 0
    · by_cases h3 : eng.isErrorLimitExceeded .DRCE_MISSING_COURTYARD = true
      · simp [h1, h2, h3, DRC_ENGINE.record]
      · simp [h1, h2, h3, DRC_ENGINE.record, DRC_ENGINE.ReportWithMarker, missingMarker,
          DRC_ITEM.SetItems, DRC_ITEM.Create]
    · simp [h1, h2, DRC_ENGINE.record]
  · by_cases h3 : eng.isErrorLimitExceeded .DRCE_MALFORMED_COURTYARD = true
    · simp [h1, h3, DRC_ENGINE.record]
    · simp [h1, h3, DRC_ENGINE.record, DRC_ENGINE.ReportWithMarker, malformedMarker,
        DRC_ITEM.SetItems, DRC_ITEM.Create, DRC_ITEM.SetErrorMessage, DRC_ITEM.GetErrorText,
        Printf, wxGetTranslation]

/-! ### Malformed and missing courtyards -/

/-- C3: for a footprint `C` at board position `k` whose `BuildPolyCourtyard` fails, a pass of
`testFootprintCourtyardDefinitions` reports, among the violations that reference `C`, exactly
one if the `DRCE_MALFORMED_COURTYARD` limit is not exceeded when `C` is visited: its code is
`DRCE_MALFORMED_COURTYARD`, it references `C` alone, it is at the position of `C`, and its
message is the default text of the code followed by " (not a closed shape)"; if the limit is
exceeded at that moment, it reports none for `C`. -/
theorem C3_malformed_courtyard_reported_once (E : COLLABORATORS) (p : PROVIDER) (k : Nat)
    (C : MODULE) (hC : p.m_board[k]? = some C)
    (hfail : (E.BuildPolyCourtyard C).1 = false) :
    (newMarkers p.m_drcEngine (testFootprintCourtyardDefinitions E p).m_drcEngine).filter
        (fun m => decide (k ∈ m.item.m_items))
      = if (engineAtVisit E p k).isErrorLimitExceeded .DRCE_MALFORMED_COURTYARD = true then []
        else [⟨⟨.DRCE_MALFORMED_COURTYARD,
                E.GetErrorText .DRCE_MALFORMED_COURTYARD ++ " (not a closed shape)", [k]⟩,
              C.m_Pos⟩] := by
  rw [definitions_markers_of E p k C hC, visitFootprint_newMarkers]
  simp [hfail, malformedMarker]

/-- C3 on a board whose only footprint has an open three-segment courtyard outline: one
violation with limit 10, none with limit 0. -/
theorem C3_witness_open_outline :
    (newMarkers (freshEngine 10)
        (testFootprintCourtyardDefinitions sampleCollaborators
          ⟨openOutlineBoard, freshEngine 10⟩).m_drcEngine).filter
        (fun m => decide (0 ∈ m.item.m_items))
      = [⟨⟨.DRCE_MALFORMED_COURTYARD, "Footprint has malformed courtyard (not a closed shape)",
          [0]⟩, ⟨3, 4⟩⟩]
    ∧ (newMarkers (freshEngine 0)
        (testFootprintCourtyardDefinitions sampleCollaborators
          ⟨openOutlineBoard, freshEngine 0⟩).m_drcEngine).filter
        (fun m => decide (0 ∈ m.item.m_items)) = [] := by
  constructor
  · rw [C3_malformed_courtyard_reported_once sampleCollaborators
      ⟨openOutlineBoard, freshEngine 10⟩ 0 (footprintAt ⟨3, 4⟩ (openOutlineOn F_CrtYd 0 0 10 10))
      (by decide) (by decide)]
    decide
  · rw [C3_malformed_courtyard_reported_once sampleCollaborators
      ⟨openOutlineBoard, freshEngine 0⟩ 0 (footprintAt ⟨3, 4⟩ (openOutlineOn F_CrtYd 0 0 10 10))
      (by decide) (by decide)]
    decide

/-- C4: for a footprint `C` at board position `k` whose `BuildPolyCourtyard` succeeds: if
both courtyards have zero outlines, a pass of `testFootprintCourtyardDefinitions` reports,
among the violations that reference `C`, exactly one if the `DRCE_MISSING_COURTYARD` limit is
not exceeded when `C` is visited (code `DRCE_MISSING_COURTYARD`, `C` alone as item, at the
position of `C`, with the unmodified default text) and none if it is exceeded; if one of the
two courtyards has an outline, no violation is reported for `C`. -/
theorem C4_missing_courtyard_reported_once (E : COLLABORATORS) (p : PROVIDER) (k : Nat)
    (C : MODULE) (hC : p.m_board[k]? = some C)
    (hok : (E.BuildPolyCourtyard C).1 = true) :
    (newMarkers p.m_drcEngine (testFootprintCourtyardDefinitions E p).m_drcEngine).filter
        (fun m => decide (k ∈ m.item.m_items))
      = if (E.BuildPolyCourtyard C).2.1.OutlineCount = 0
            ∧ (E.BuildPolyCourtyard C).2.2.OutlineCount = 0 then
          if (engineAtVisit E p k).isErrorLimitExceeded .DRCE_MISSING_COURTYARD = true then []
          else [⟨⟨.DRCE_MISSING_COURTYARD, E.GetErrorText .DRCE_MISSING_COURTYARD, [k]⟩,
                C.m_Pos⟩]
        else [] := by
  rw [definitions_markers_of E p k C hC, visitFootprint_newMarkers]
  simp [hok, missingMarker]

/-- C4 on a board whose only footprint has no courtyard graphics (one violation), and on the
first of two footprints with a front courtyard only (none). -/
theorem C4_witness_no_courtyard :
    (newMarkers (freshEngine 10)
        (testFootprintCourtyardDefinitions sampleCollaborators
          ⟨noCourtyardBoard, freshEngine 10⟩).m_drcEngine).filter
        (fun m => decide (0 ∈ m.item.m_items))
      = [⟨⟨.DRCE_MISSING_COURTYARD, "Footprint has no courtyard defined", [0]⟩, ⟨7, 8⟩⟩]
    ∧ (newMarkers (freshEngine 10)
        (testFootprintCourtyardDefinitions sampleCollaborators
          ⟨twoRectangles, freshEngine 10⟩).m_drcEngine).filter
        (fun m => decide (0 ∈ m.item.m_items)) = [] := by
  constructor
  · rw [C4_missing_courtyard_reported_once sampleCollaborators
      ⟨noCourtyardBoard, freshEngine 10⟩ 0 (footprintAt ⟨7, 8⟩ []) (by decide) (by decide)]
    decide
  · rw [C4_missing_courtyard_reported_once sampleCollaborators
      ⟨twoRectangles, freshEngine 10⟩ 0 (footprintAt ⟨0, 0⟩ (rectangleOn F_CrtYd 0 0 10 10))
      (by decide) (by decide)]
    decide

/-! ### Which pairs are reported, and when the scan stops -/

theorem mem_allPairs_bounds (l : List MODULE) (q : SCAN_PAIR) (hq : q ∈ allPairs 0 l) :
    q.i < q.j ∧ q.j < l.length := by
  rw [mem_allPairs] at hq
  obtain ⟨_, h2, _, h4⟩ := hq
  exact ⟨h2, by simpa using (List.getElem?_eq_some.mp h4).1⟩

/-- C5: every violation reported by `testOverlappingComponentCourtyards` has the code
`DRCE_OVERLAPPING_FOOTPRINTS` and references exactly two footprints, at board positions
`i < j` in this order (so never a footprint with itself), and no pair of positions is
reported twice in a pass. -/
theorem C5_reported_pairs_ordered_and_distinct (E : COLLABORATORS) (p : PROVIDER) :
    (∀ m ∈ newMarkers p.m_drcEngine (testOverlappingComponentCourtyards E p).m_drcEngine,
      m.item.m_errorCode = .DRCE_OVERLAPPING_FOOTPRINTS
        ∧ ∃ i j, m.item.m_items = [i, j] ∧ i < j ∧ j < p.m_board.length)
    ∧ ((newMarkers p.m_drcEngine (testOverlappingComponentCourtyards E p).m_drcEngine).map
        (fun m => m.item.m_items)).Nodup := by
  obtain ⟨_, m1, _⟩ := testOverlapping_closed E p
  rw [m1]
  constructor
  · intro m hm
    obtain ⟨q, hq, rfl⟩ := List.mem_map.mp hm
    have hq' : q ∈ allPairs 0 p.m_board :=
      (List.mem_filter.mp (List.mem_of_mem_take hq)).1
    obtain ⟨h1, h2⟩ := mem_allPairs_bounds p.m_board q hq'
    exact ⟨rfl, q.i, q.j, rfl, h1, h2⟩
  · have hn : ((((allPairs 0 p.m_board).filter (SCAN_PAIR.overlaps E)).take
        (scanBudget p.m_drcEngine)).map SCAN_PAIR.key).Nodup :=
      (nodup_keys_hits E p.m_board).sublist ((List.take_sublist _ _).map _)
    have hinj : Function.Injective (fun a : Nat × Nat => [a.1, a.2]) := by
      intro a b h
      simp only [List.cons.injEq, and_true] at h
      exact Prod.ext h.1 h.2
    have := hn.map hinj
    simpa [List.map_map, Function.comp_def, SCAN_PAIR.marker, SCAN_PAIR.key, DRC_ITEM.SetItems]
      using this

theorem takeHits_le_last {α : Type} (R : α → α → Prop) (hit : α → Bool) :
    ∀ (l : List α) (n : Nat) (x : α), l.Pairwise R →
      ((takeHits hit (n + 1) l).filter hit)[n]? = some x →
      ∀ q ∈ takeHits hit (n + 1) l, q = x ∨ R q x := by
  intro l
  induction l with
  | nil => intro n x _ h; simp [takeHits] at h
  | cons a as ih =>
    intro n x hp h q hq
    rw [List.pairwise_cons] at hp
    by_cases ha : hit a = true
    · simp only [takeHits, ha, if_true, List.filter_cons] at h hq
      cases n with
      | zero =>
        simp only [List.getElem?_cons_zero, Option.some.injEq] at h
        simp only [takeHits, List.mem_singleton] at hq
        exact Or.inl (hq.trans h)
      | succ n =>
        simp only [List.getElem?_cons_succ] at h
        rcases List.mem_cons.mp hq with hq | hq
        · right
          rw [hq]
          have hx : x ∈ (takeHits hit (n + 1) as).filter hit := List.getElem?_mem h
          exact hp.1 x ((takeHits_initial hit as (n + 1)).subset (List.mem_filter.mp hx).1)
        · exact ih n x hp.2 h q hq
    · simp only [takeHits, ha, Bool.false_eq_true, if_false, List.filter_cons] at h hq
      rcases List.mem_cons.mp hq with hq | hq
      · right
        rw [hq]
        have hx : x ∈ (takeHits hit (n + 1) as).filter hit := List.getElem?_mem h
        exact hp.1 x ((takeHits_initial hit as (n + 1)).subset (List.mem_filter.mp hx).1)
      · exact ih n x hp.2 h q hq

/-- The calls of the body for a pair are reads of the two cached bounding boxes and boolean
intersections of the pair, on sides where both footprints have outlines. -/
theorem mem_checkSide_calls (E : COLLABORATORS) (side : SIDE) (i j : Nat)
    (a b : SHAPE_POLY_SET) (loc : PAIR_LOCALS) (e : EVENT)
    (he : e ∈ (checkSide E side i j a b loc).calls) :
    e ∈ loc.calls ∨ ((0 < a.OutlineCount ∧ 0 < b.OutlineCount)
      ∧ (e = .BBoxFromCaches i side ∨ e = .BBoxFromCaches j side
          ∨ (e = .BooleanIntersection i j side
              ∧ E.Intersects a.BBoxFromCaches b.BBoxFromCaches = true))) := by
  unfold checkSide at he
  by_cases h1 : 0 < a.OutlineCount ∧ 0 < b.OutlineCount
  · rw [if_pos h1] at he
    by_cases h2 : E.Intersects a.BBoxFromCaches b.BBoxFromCaches = true
    · rw [if_pos h2] at he
      have he' : e ∈ loc.calls ++ [EVENT.BBoxFromCaches i side, EVENT.BBoxFromCaches j side]
          ++ [EVENT.BooleanIntersection i j side] := by
        simp only at he
        split at he <;> exact he
      simp only [List.mem_append, List.mem_cons, List.mem_singleton, List.not_mem_nil,
        or_false] at he'
      rcases he' with (h | h | h) | h
      · exact Or.inl h
      · exact Or.inr ⟨h1, Or.inl h⟩
      · exact Or.inr ⟨h1, Or.inr (Or.inl h)⟩
      · exact Or.inr ⟨h1, Or.inr (Or.inr ⟨h, h2⟩)⟩
    · rw [if_neg h2] at he
      simp only [List.mem_append, List.mem_cons, List.mem_singleton, List.not_mem_nil,
        or_false] at he
      rcases he with h | h | h
      · exact Or.inl h
      · exact Or.inr ⟨h1, Or.inl h⟩
      · exact Or.inr ⟨h1, Or.inr (Or.inl h)⟩
  · rw [if_neg h1] at he
    exact Or.inl he

theorem mem_testPair_calls (E : COLLABORATORS) (i j : Nat) (A B : MODULE) (e : EVENT)
    (he : e ∈ (testPair E i j A B).calls) :
    ∃ side, (0 < (A.courtyard side).OutlineCount ∧ 0 < (B.courtyard side).OutlineCount)
      ∧ (e = .BBoxFromCaches i side ∨ e = .BBoxFromCaches j side
          ∨ (e = .BooleanIntersection i j side
              ∧ E.Intersects (A.courtyard side).BBoxFromCaches
                  (B.courtyard side).BBoxFromCaches = true)) := by
  unfold testPair at he
  rcases mem_checkSide_calls E .back i j _ _ _ e he with h | h
  · rcases mem_checkSide_calls E .front i j _ _ _ e h with h | h
    · simp at h
    · exact ⟨.front, h⟩
  · exact ⟨.back, h⟩

/-- C6: if `isErrorLimitExceeded( DRCE_OVERLAPPING_FOOTPRINTS )` is true right after the
violation for the pair `(i, j)` has been reported (it is the `n + 1`-th report of the scan,
so the counter then stands at its initial value plus `n + 1`), the scan stops there: that
violation is the last one reported, the calls of the scan are those of the loop bodies of
pairs that are not after `(i, j)` in scan order, and no boolean intersection is computed for
a later pair, whether with the same `i` or a larger one. -/
theorem C6_scan_stops_when_limit_exceeded (E : COLLABORATORS) (p : PROVIDER)
    (n i j : Nat) (m : MARKER)
    (hm : (newMarkers p.m_drcEngine
      (testOverlappingComponentCourtyards E p).m_drcEngine)[n]? = some m)
    (hitems : m.item.m_items = [i, j])
    (hex : p.m_drcEngine.m_errorLimits .DRCE_OVERLAPPING_FOOTPRINTS
      ≤ p.m_drcEngine.m_errorCount .DRCE_OVERLAPPING_FOOTPRINTS + (n + 1)) :
    (newMarkers p.m_drcEngine (testOverlappingComponentCourtyards E p).m_drcEngine).length
        = n + 1
    ∧ (∃ evaluated : List SCAN_PAIR,
        newCalls p.m_drcEngine (testOverlappingComponentCourtyards E p).m_drcEngine
          = EVENT.ReportStage "Testing component courtyard overlap" 0 2
              :: evaluated.flatMap (fun q => (q.locals E).calls)
        ∧ ∀ q ∈ evaluated, q.key = (i, j) ∨ scanBefore q.key (i, j))
    ∧ (∀ a b side, EVENT.BooleanIntersection a b side
          ∈ newCalls p.m_drcEngine (testOverlappingComponentCourtyards E p).m_drcEngine →
        (a, b) = (i, j) ∨ scanBefore (a, b) (i, j)) := by
  obtain ⟨_, m1, m2, _, _⟩ := testOverlapping_closed E p
  rw [m1] at hm ⊢
  rw [m2]
  have hb : scanBudget p.m_drcEngine ≤ n + 1 := by
    simp only [scanBudget]
    omega
  obtain ⟨x, hx, hxm⟩ : ∃ x, (((allPairs 0 p.m_board).filter (SCAN_PAIR.overlaps E)).take
      (scanBudget p.m_drcEngine))[n]? = some x ∧ SCAN_PAIR.marker E x = m := by
    rw [List.getElem?_map] at hm
    cases h : (((allPairs 0 p.m_board).filter (SCAN_PAIR.overlaps E)).take
      (scanBudget p.m_drcEngine))[n]? with
    | none => rw [h] at hm; simp at hm
    | some x => rw [h] at hm; exact ⟨x, rfl, by simpa using hm⟩
  have hn : n < (((allPairs 0 p.m_board).filter (SCAN_PAIR.overlaps E)).take
      (scanBudget p.m_drcEngine)).length := (List.getElem?_eq_some.mp hx).1
  have hlen := List.length_take_le (scanBudget p.m_drcEngine)
    ((allPairs 0 p.m_board).filter (SCAN_PAIR.overlaps E))
  have hbeq : scanBudget p.m_drcEngine = n + 1 := by omega
  have hkey : x.key = (i, j) := by
    rw [← hxm] at hitems
    simp only [SCAN_PAIR.marker, DRC_ITEM.SetItems, List.cons.injEq, and_true] at hitems
    exact Prod.ext hitems.1 hitems.2
  have hall : ∀ q ∈ takeHits (SCAN_PAIR.overlaps E) (scanBudget p.m_drcEngine)
      (allPairs 0 p.m_board), q.key = (i, j) ∨ scanBefore q.key (i, j) := by
    intro q hq
    rw [hbeq] at hq hx
    rw [← takeHits_filter] at hx
    rcases takeHits_le_last (fun a b => scanBefore a.key b.key) (SCAN_PAIR.overlaps E)
      (allPairs 0 p.m_board) n x (pairwise_allPairs _ _) hx q hq with h | h
    · exact Or.inl (h ▸ hkey)
    · exact Or.inr (hkey ▸ h)
  refine ⟨?_, ⟨_, rfl, hall⟩, ?_⟩
  · rw [List.length_map]
    omega
  · intro a b side he
    rcases List.mem_cons.mp he with h | h
    · cases h
    obtain ⟨q, hq, he⟩ := List.mem_flatMap.mp h
    obtain ⟨s, _, h | h | h⟩ := mem_testPair_calls E q.i q.j q.footprint q.test _ he
    · cases h
    · cases h
    · have h' := h.1
      simp only [EVENT.BooleanIntersection.injEq] at h'
      have : (a, b) = q.key := by
        simp only [SCAN_PAIR.key, h'.1, h'.2.1]
      rw [this]
      exact hall q hq

/-- C6 on three mutually overlapping rectangles with limit 1: the violation for the pair
`(0, 1)` is the only one and the only boolean intersection computed is that of `(0, 1)`. -/
theorem C6_witness_three_rectangles :
    (newMarkers (threeRectanglesChecked 1).m_drcEngine
        (testOverlappingComponentCourtyards sampleCollaborators
          (threeRectanglesChecked 1)).m_drcEngine).length = 1
    ∧ newCalls (threeRectanglesChecked 1).m_drcEngine
        (testOverlappingComponentCourtyards sampleCollaborators
          (threeRectanglesChecked 1)).m_drcEngine
      = [.ReportStage "Testing component courtyard overlap" 0 2, .BBoxFromCaches 0 .front,
          .BBoxFromCaches 1 .front, .BooleanIntersection 0 1 .front] :=
  ⟨(C6_scan_stops_when_limit_exceeded sampleCollaborators (threeRectanglesChecked 1) 0 0 1
      ⟨⟨.DRCE_OVERLAPPING_FOOTPRINTS, "Courtyards overlap", [0, 1]⟩, ⟨5, 5⟩⟩
      (by decide) rfl (by decide)).1, by decide⟩

/-- C7: with the counter of `DRCE_OVERLAPPING_FOOTPRINTS` at zero when the scan starts and a
limit `L ≥ 1`, on a board with `P` overlapping pairs (pairs of positions `i < j` for which
the loop body sets `overlap`), the scan reports exactly `min L P` violations, those of the
first `min L P` overlapping pairs in scan order. -/
theorem C7_reports_first_min_limit_pairs (E : COLLABORATORS) (p : PROVIDER) (L : Nat)
    (hL : 1 ≤ L)
    (hlimit : p.m_drcEngine.m_errorLimits .DRCE_OVERLAPPING_FOOTPRINTS = L)
    (hcount : p.m_drcEngine.m_errorCount .DRCE_OVERLAPPING_FOOTPRINTS = 0) :
    newMarkers p.m_drcEngine (testOverlappingComponentCourtyards E p).m_drcEngine
        = (((allPairs 0 p.m_board).filter (SCAN_PAIR.overlaps E)).take
            (min L ((allPairs 0 p.m_board).filter (SCAN_PAIR.overlaps E)).length)).map
            (SCAN_PAIR.marker E)
    ∧ (newMarkers p.m_drcEngine (testOverlappingComponentCourtyards E p).m_drcEngine).length
        = min L ((allPairs 0 p.m_board).filter (SCAN_PAIR.overlaps E)).length := by
  obtain ⟨_, m1, _⟩ := testOverlapping_closed E p
  have hb : scanBudget p.m_drcEngine = L := by
    simp only [scanBudget, hlimit, hcount]
    omega
  rw [m1, hb]
  have ht : ((allPairs 0 p.m_board).filter (SCAN_PAIR.overlaps E)).take
      (min L ((allPairs 0 p.m_board).filter (SCAN_PAIR.overlaps E)).length)
      = ((allPairs 0 p.m_board).filter (SCAN_PAIR.overlaps E)).take L := by
    rcases Nat.le_total L ((allPairs 0 p.m_board).filter (SCAN_PAIR.overlaps E)).length
      with h | h
    · rw [Nat.min_eq_left h]
    · rw [Nat.min_eq_right h, List.take_of_length_le h, List.take_of_length_le (le_refl _)]
  rw [ht]
  exact ⟨rfl, by rw [List.length_map, List.length_take]⟩

/-- C7 with limit 1 on three mutually overlapping rectangles (three overlapping pairs):
exactly one violation, that of the pair `(0, 1)`, and neither the pair `(0, 2)` nor the pair
`(1, 2)` is evaluated. -/
theorem C7_witness_three_rectangles :
    ((allPairs 0 (threeRectanglesChecked 1).m_board).filter
        (SCAN_PAIR.overlaps sampleCollaborators)).length = 3
    ∧ newMarkers (threeRectanglesChecked 1).m_drcEngine
        (testOverlappingComponentCourtyards sampleCollaborators
          (threeRectanglesChecked 1)).m_drcEngine
      = [⟨⟨.DRCE_OVERLAPPING_FOOTPRINTS, "Courtyards overlap", [0, 1]⟩, ⟨5, 5⟩⟩]
    ∧ (∀ e ∈ newCalls (threeRectanglesChecked 1).m_drcEngine
        (testOverlappingComponentCourtyards sampleCollaborators
          (threeRectanglesChecked 1)).m_drcEngine,
        (e ≠ .BooleanIntersection 1 2 .front ∧ e ≠ .BooleanIntersection 1 2 .back)
          ∧ (e ≠ .BooleanIntersection 0 2 .front ∧ e ≠ .BooleanIntersection 0 2 .back)
          ∧ (e ≠ .BBoxFromCaches 2 .front ∧ e ≠ .BBoxFromCaches 2 .back)) := by
  refine ⟨by decide, ?_, by decide⟩
  rw [(C7_reports_first_min_limit_pairs sampleCollaborators (threeRectanglesChecked 1) 1
    (by decide) rfl rfl).1]
  decide

/-! ### The limit check of the overlap scan -/

/-- C2: on the board of two overlapping rectangles with limit 0 for every code, the
`DRCE_OVERLAPPING_FOOTPRINTS` limit is exceeded before `Run`, and still when the scan
starts, yet `Run` reports a `DRCE_OVERLAPPING_FOOTPRINTS` violation for the pair: the scan
checks the limit after the report (line 197), not before the violation is created. -/
theorem C2_overlap_reported_while_limit_exceeded :
    (freshEngine 0).isErrorLimitExceeded .DRCE_OVERLAPPING_FOOTPRINTS = true
    ∧ (testFootprintCourtyardDefinitions sampleCollaborators
        ⟨twoRectangles, freshEngine 0⟩).m_drcEngine.isErrorLimitExceeded
          .DRCE_OVERLAPPING_FOOTPRINTS = true
    ∧ newMarkers (freshEngine 0)
        (Run sampleCollaborators ⟨twoRectangles, freshEngine 0⟩).2.m_drcEngine
      = [⟨⟨.DRCE_OVERLAPPING_FOOTPRINTS, "Courtyards overlap", [0, 1]⟩, ⟨5, 5⟩⟩] := by
  decide

/-- The definition check reports no violation of a code whose limit is exceeded at the
visit. -/
theorem visitFootprint_respects_limits (E : COLLABORATORS) (k : Nat) (C : MODULE)
    (eng : DRC_ENGINE) (m : MARKER) (hm : m ∈ newMarkers eng (visitFootprint E k C eng).2) :
    eng.isErrorLimitExceeded m.item.m_errorCode = false := by
  rw [visitFootprint_newMarkers] at hm
  split at hm
  · split at hm
    · split at hm
      · simp at hm
      · rename_i h
        simp only [List.mem_singleton] at hm
        rw [hm]
        simpa [missingMarker] using h
    · simp at hm
  · split at hm
    · simp at hm
    · rename_i h
      simp only [List.mem_singleton] at hm
      rw [hm]
      simpa [malformedMarker] using h

/-! ### `Run` -/

/-- C9: `Run` returns true for every board and every error-limit state, whatever the
footprints and whether or not the overlap scan stops early. -/
theorem C9_Run_returns_true (E : COLLABORATORS) (p : PROVIDER) : (Run E p).1 = true := rfl

/-! ### The board and the calls of the definition check -/

theorem board_split (l : List MODULE) (k : Nat) (C : MODULE) (hC : l[k]? = some C) :
    l = l.take k ++ C :: l.drop (k + 1) ∧ (l.take k).length = k := by
  have hk : k < l.length := (List.getElem?_eq_some.mp hC).1
  constructor
  · have h1 := (List.take_append_drop k l).symm
    have h2 : l.drop k = C :: l.drop (k + 1) := by
      rw [List.drop_eq_getElem_cons hk]
      congr 1
      exact (List.getElem?_eq_some.mp hC).2
    rw [h2] at h1
    exact h1
  · rw [List.length_take]
    omega

theorem definitionsLoop_length (E : COLLABORATORS) :
    ∀ (l : List MODULE) (k : Nat) (eng : DRC_ENGINE),
      (definitionsLoop E k l eng).1.length = l.length := by
  intro l
  induction l with
  | nil => intro k eng; rfl
  | cons fp rest ih =>
    intro k eng
    simp only [definitionsLoop, List.length_cons, ih]

/-- The footprint a visit leaves behind does not depend on the engine state. -/
theorem visitFootprint_fst (E : COLLABORATORS) (k : Nat) (C : MODULE) (eng : DRC_ENGINE) :
    (visitFootprint E k C eng).1 = (expectedVisit E k C).2 := by
  unfold visitFootprint expectedVisit
  simp only
  by_cases h1 : (E.BuildPolyCourtyard C).1 = true
  · have h1' : (C.BuildPolyCourtyard E).1 = true := h1
    by_cases h2 : (C.BuildPolyCourtyard E).2.GetPolyCourtyardFront.OutlineCount = 0
        ∧ (C.BuildPolyCourtyard E).2.GetPolyCourtyardBack.OutlineCount = 0
    · by_cases h3 : (eng.record [EVENT.BuildPolyCourtyard k]).isErrorLimitExceeded
          .DRCE_MISSING_COURTYARD = true
      · simp [h1, h1', h2, h3]
      · simp [h1, h1', h2, h3]
    · simp [h1, h1', h2]
  · have h1' : ¬ (C.BuildPolyCourtyard E).1 = true := h1
    by_cases h3 : (eng.record [EVENT.BuildPolyCourtyard k]).isErrorLimitExceeded
        .DRCE_MALFORMED_COURTYARD = true
    · simp [h1, h1', h3]
    · simp [h1, h1', h3]

/-- The footprint at position `k` after the definition check. -/
theorem definitions_board_at (E : COLLABORATORS) (p : PROVIDER) (k : Nat) (C : MODULE)
    (hC : p.m_board[k]? = some C) :
    (testFootprintCourtyardDefinitions E p).m_board[k]? = some (expectedVisit E k C).2 := by
  obtain ⟨hsplit, hlen⟩ := board_split p.m_board k C hC
  simp only [testFootprintCourtyardDefinitions]
  conv_lhs => rw [hsplit]
  rw [definitionsLoop_append]
  simp only [definitionsLoop, hlen, Nat.zero_add]
  have hl := definitionsLoop_length E (p.m_board.take k) 0
    (p.m_drcEngine.ReportStage "Testing component courtyard definitions" 0 2)
  rw [hlen] at hl
  rw [List.getElem?_append_right (by omega), hl, Nat.sub_self, List.getElem?_cons_zero,
    visitFootprint_fst]

theorem visitFootprint_log (E : COLLABORATORS) (k : Nat) (C : MODULE) (eng : DRC_ENGINE) :
    ∃ evs, (visitFootprint E k C eng).2.m_log
      = eng.m_log ++ EVENT.BuildPolyCourtyard k :: evs := by
  unfold visitFootprint
  simp only
  split
  · split
    · split
      · exact ⟨[], by simp [DRC_ENGINE.record]⟩
      · exact ⟨[], by simp [DRC_ENGINE.record, DRC_ENGINE.ReportWithMarker]⟩
    · exact ⟨[EVENT.BuildBBoxCaches k .front, EVENT.BuildBBoxCaches k .back],
        by simp [DRC_ENGINE.record]⟩
  · split
    · exact ⟨[], by simp [DRC_ENGINE.record, DRC_ENGINE.ReportWithMarker]⟩
    · exact ⟨[], by simp [DRC_ENGINE.record]⟩

theorem definitionsLoop_log (E : COLLABORATORS) :
    ∀ (l : List MODULE) (k : Nat) (eng : DRC_ENGINE),
      ∃ evs, (definitionsLoop E k l eng).2.m_log = eng.m_log ++ evs := by
  intro l
  induction l with
  | nil => intro k eng; exact ⟨[], by simp [definitionsLoop]⟩
  | cons fp rest ih =>
    intro k eng
    obtain ⟨e1, h1⟩ := visitFootprint_log E k fp eng
    obtain ⟨e2, h2⟩ := ih (k + 1) (visitFootprint E k fp eng).2
    exact ⟨EVENT.BuildPolyCourtyard k :: e1 ++ e2, by
      simp only [definitionsLoop]
      rw [h2, h1]
      simp⟩

theorem definitionsLoop_visits (E : COLLABORATORS) :
    ∀ (l : List MODULE) (k0 : Nat) (eng : DRC_ENGINE) (j : Nat) (D : MODULE),
      l[j]? = some D →
      ∃ a c, (definitionsLoop E k0 l eng).2.m_log
        = eng.m_log ++ (a ++ EVENT.BuildPolyCourtyard (k0 + j) :: c) := by
  intro l
  induction l with
  | nil => intro k0 eng j D h; simp at h
  | cons fp rest ih =>
    intro k0 eng j D h
    obtain ⟨e1, h1⟩ := visitFootprint_log E k0 fp eng
    cases j with
    | zero =>
      obtain ⟨e2, h2⟩ := definitionsLoop_log E rest (k0 + 1) (visitFootprint E k0 fp eng).2
      refine ⟨[], e1 ++ e2, ?_⟩
      simp only [definitionsLoop]
      rw [h2, h1]
      simp
    | succ j =>
      have h' : rest[j]? = some D := by simpa using h
      obtain ⟨a, c, h2⟩ := ih (k0 + 1) (visitFootprint E k0 fp eng).2 j D h'
      refine ⟨EVENT.BuildPolyCourtyard k0 :: e1 ++ a, c, ?_⟩
      simp only [definitionsLoop]
      rw [h2, h1]
      have : k0 + 1 + j = k0 + (j + 1) := by omega
      rw [this]
      simp

/-- The footprint at position `k` is visited before the one at a later position `m`. -/
theorem definitions_visits_in_order (E : COLLABORATORS) (p : PROVIDER) (k m : Nat)
    (C D : MODULE) (hC : p.m_board[k]? = some C) (hkm : k < m)
    (hD : p.m_board[m]? = some D) :
    ∃ a b c, newCalls p.m_drcEngine (testFootprintCourtyardDefinitions E p).m_drcEngine
      = a ++ EVENT.BuildPolyCourtyard k :: b ++ EVENT.BuildPolyCourtyard m :: c := by
  obtain ⟨hsplit, hlen⟩ := board_split p.m_board k C hC
  obtain ⟨e0, h0⟩ := definitionsLoop_log E (p.m_board.take k) 0
    (p.m_drcEngine.ReportStage "Testing component courtyard definitions" 0 2)
  obtain ⟨e1, h1⟩ := visitFootprint_log E k C (engineAtVisit E p k)
  have hD' : (p.m_board.drop (k + 1))[m - (k + 1)]? = some D := by
    rw [List.getElem?_drop]
    have : k + 1 + (m - (k + 1)) = m := by omega
    rw [this]
    exact hD
  obtain ⟨a, c, h2⟩ := definitionsLoop_visits E (p.m_board.drop (k + 1)) (k + 1)
    (visitFootprint E k C (engineAtVisit E p k)).2 (m - (k + 1)) D hD'
  have hm : k + 1 + (m - (k + 1)) = m := by omega
  rw [hm] at h2
  refine ⟨EVENT.ReportStage "Testing component courtyard definitions" 0 2 :: e0, e1 ++ a, c,
    ?_⟩
  have hfinal : (testFootprintCourtyardDefinitions E p).m_drcEngine.m_log
      = p.m_drcEngine.m_log ++ ((EVENT.ReportStage "Testing component courtyard definitions"
          0 2 :: e0) ++ EVENT.BuildPolyCourtyard k :: (e1 ++ a)
          ++ EVENT.BuildPolyCourtyard m :: c) := by
    simp only [testFootprintCourtyardDefinitions]
    conv_lhs => rw [hsplit]
    rw [definitionsLoop_append]
    simp only [definitionsLoop, hlen, Nat.zero_add]
    change (definitionsLoop E (k + 1) (List.drop (k + 1) p.m_board)
      (visitFootprint E k C (engineAtVisit E p k)).2).2.m_log = _
    rw [h2, h1]
    simp only [engineAtVisit]
    rw [h0]
    simp [DRC_ENGINE.ReportStage, DRC_ENGINE.record, List.append_assoc]
  simp only [newCalls]
  rw [hfinal, List.drop_left]

/-- Every footprint of the board is visited by the definition check. -/
theorem definitions_visits (E : COLLABORATORS) (p : PROVIDER) (k : Nat) (C : MODULE)
    (hC : p.m_board[k]? = some C) :
    EVENT.BuildPolyCourtyard k
      ∈ newCalls p.m_drcEngine (testFootprintCourtyardDefinitions E p).m_drcEngine := by
  obtain ⟨hsplit, hlen⟩ := board_split p.m_board k C hC
  obtain ⟨e0, h0⟩ := definitionsLoop_log E (p.m_board.take k) 0
    (p.m_drcEngine.ReportStage "Testing component courtyard definitions" 0 2)
  obtain ⟨e1, h1⟩ := visitFootprint_log E k C (engineAtVisit E p k)
  obtain ⟨e2, h2⟩ := definitionsLoop_log E (p.m_board.drop (k + 1)) (k + 1)
    (visitFootprint E k C (engineAtVisit E p k)).2
  have hfinal : (testFootprintCourtyardDefinitions E p).m_drcEngine.m_log
      = p.m_drcEngine.m_log ++ (EVENT.ReportStage "Testing component courtyard definitions" 0 2
          :: e0 ++ EVENT.BuildPolyCourtyard k :: e1 ++ e2) := by
    simp only [testFootprintCourtyardDefinitions]
    conv_lhs => rw [hsplit]
    rw [definitionsLoop_append]
    simp only [definitionsLoop, hlen, Nat.zero_add]
    change (definitionsLoop E (k + 1) (List.drop (k + 1) p.m_board)
      (visitFootprint E k C (engineAtVisit E p k)).2).2.m_log = _
    rw [h2, h1]
    simp only [engineAtVisit]
    rw [h0]
    simp [DRC_ENGINE.ReportStage, DRC_ENGINE.record, List.append_assoc]
  simp only [newCalls]
  rw [hfinal, List.drop_left]
  simp

/-- The log after the scan is the log before it followed by the calls of the scan. -/
theorem testOverlapping_log (E : COLLABORATORS) (p : PROVIDER) :
    (testOverlappingComponentCourtyards E p).m_drcEngine.m_log
      = p.m_drcEngine.m_log
        ++ newCalls p.m_drcEngine (testOverlappingComponentCourtyards E p).m_drcEngine := by
  obtain ⟨_, q2, _, _⟩ := runPairs_closed E (allPairs 0 p.m_board)
    (p.m_drcEngine.ReportStage "Testing component courtyard overlap" 0 2)
  simp only [newCalls, testOverlappingComponentCourtyards, outerLoop_eq_runPairs]
  rw [q2]
  simp [DRC_ENGINE.ReportStage, DRC_ENGINE.record, List.append_assoc]

/-- The violations after the scan are those before it followed by those of the scan. -/
theorem testOverlapping_markers (E : COLLABORATORS) (p : PROVIDER) :
    (testOverlappingComponentCourtyards E p).m_drcEngine.m_markers
      = p.m_drcEngine.m_markers
        ++ newMarkers p.m_drcEngine (testOverlappingComponentCourtyards E p).m_drcEngine := by
  obtain ⟨q1, _, _, _⟩ := runPairs_closed E (allPairs 0 p.m_board)
    (p.m_drcEngine.ReportStage "Testing component courtyard overlap" 0 2)
  simp only [newMarkers, testOverlappingComponentCourtyards, outerLoop_eq_runPairs]
  rw [q1]
  simp [DRC_ENGINE.ReportStage, DRC_ENGINE.record]

/-- The calls of `Run` are those of the definition check, then the stage report of the
overlap check and the calls of the scan. -/
theorem Run_calls (E : COLLABORATORS) (p : PROVIDER) :
    ∃ rest, newCalls p.m_drcEngine (Run E p).2.m_drcEngine
      = newCalls p.m_drcEngine (testFootprintCourtyardDefinitions E p).m_drcEngine
        ++ EVENT.ReportStage "Testing component courtyard overlap" 0 2 :: rest := by
  obtain ⟨e0, h0⟩ := definitionsLoop_log E p.m_board 0
    (p.m_drcEngine.ReportStage "Testing component courtyard definitions" 0 2)
  have hd : (testFootprintCourtyardDefinitions E p).m_drcEngine.m_log
      = p.m_drcEngine.m_log
        ++ (EVENT.ReportStage "Testing component courtyard definitions" 0 2 :: e0) := by
    simp only [testFootprintCourtyardDefinitions]
    rw [h0]
    simp [DRC_ENGINE.ReportStage, DRC_ENGINE.record]
  obtain ⟨_, _, m2, _, _⟩ := testOverlapping_closed E (testFootprintCourtyardDefinitions E p)
  have hlog := testOverlapping_log E (testFootprintCourtyardDefinitions E p)
  have hr : (Run E p).2 = testOverlappingComponentCourtyards E
      (testFootprintCourtyardDefinitions E p) := rfl
  refine ⟨(takeHits (SCAN_PAIR.overlaps E)
    (scanBudget (testFootprintCourtyardDefinitions E p).m_drcEngine)
    (allPairs 0 (testFootprintCourtyardDefinitions E p).m_board)).flatMap
      (fun q => (q.locals E).calls), ?_⟩
  rw [hr]
  rw [m2] at hlog
  simp only [newCalls]
  rw [hlog, hd, List.append_assoc, List.drop_left, List.drop_left]

/-! ### A failed build does not stop the pass -/

/-- C8: when `BuildPolyCourtyard` fails for the footprint `C` at position `k`,
`testFootprintCourtyardDefinitions` reports it (unless the limit is exceeded) and goes on:
every footprint `D` at a later position `m` is visited after `C` and, provided the limits of
`DRCE_MISSING_COURTYARD` and `DRCE_MALFORMED_COURTYARD` are not exceeded at its visit, gets
the treatment that its own build outcome calls for (`expectedVisit`: one
malformed-courtyard violation, one missing-courtyard violation, or the bounding-box caches
built), which does not depend on the outcome for `C`; and `Run` goes on to the overlap check
after the definition check. -/
theorem C8_failed_build_does_not_stop_the_pass (E : COLLABORATORS) (p : PROVIDER)
    (k m : Nat) (C D : MODULE)
    (hC : p.m_board[k]? = some C) (hfail : (E.BuildPolyCourtyard C).1 = false)
    (hkm : k < m) (hD : p.m_board[m]? = some D)
    (hmissing : (engineAtVisit E p m).isErrorLimitExceeded .DRCE_MISSING_COURTYARD = false)
    (hmalformed :
      (engineAtVisit E p m).isErrorLimitExceeded .DRCE_MALFORMED_COURTYARD = false) :
    (newMarkers p.m_drcEngine (testFootprintCourtyardDefinitions E p).m_drcEngine).filter
        (fun v => decide (k ∈ v.item.m_items))
      = (if (engineAtVisit E p k).isErrorLimitExceeded .DRCE_MALFORMED_COURTYARD = true
          then [] else [malformedMarker E k C])
    ∧ (∃ a b c, newCalls p.m_drcEngine (testFootprintCourtyardDefinitions E p).m_drcEngine
        = a ++ EVENT.BuildPolyCourtyard k :: b ++ EVENT.BuildPolyCourtyard m :: c)
    ∧ (newMarkers p.m_drcEngine (testFootprintCourtyardDefinitions E p).m_drcEngine).filter
        (fun v => decide (m ∈ v.item.m_items)) = (expectedVisit E m D).1
    ∧ (testFootprintCourtyardDefinitions E p).m_board[m]? = some (expectedVisit E m D).2
    ∧ (∃ rest, newCalls p.m_drcEngine (Run E p).2.m_drcEngine
        = newCalls p.m_drcEngine (testFootprintCourtyardDefinitions E p).m_drcEngine
          ++ EVENT.ReportStage "Testing component courtyard overlap" 0 2 :: rest) := by
  refine ⟨?_, definitions_visits_in_order E p k m C D hC hkm hD, ?_,
    definitions_board_at E p m D hD, Run_calls E p⟩
  · rw [definitions_markers_of E p k C hC, visitFootprint_newMarkers]
    simp [hfail]
  rw [definitions_markers_of E p m D hD, visitFootprint_newMarkers, hmissing, hmalformed]
  unfold expectedVisit
  simp only [Bool.false_eq_true, if_false, MODULE.BuildPolyCourtyard,
    MODULE.GetPolyCourtyardFront, MODULE.GetPolyCourtyardBack]
  by_cases h1 : (E.BuildPolyCourtyard D).1 = true
  · by_cases h2 : (E.BuildPolyCourtyard D).2.1.OutlineCount = 0
        ∧ (E.BuildPolyCourtyard D).2.2.OutlineCount = 0
    · simp [h1, h2]
    · simp [h1, h2]
  · simp [h1]

/-- C8 on a board whose first footprint has an open outline: the third footprint, with a
rectangular back courtyard, gets no violation and has its caches built, and the second one,
without courtyard graphics, gets its missing-courtyard violation. -/
theorem C8_witness_mixed_board :
    ((newMarkers (freshEngine 10)
          (testFootprintCourtyardDefinitions sampleCollaborators
            ⟨mixedBoard, freshEngine 10⟩).m_drcEngine).filter
          (fun v => decide (2 ∈ v.item.m_items)) = []
      ∧ ((testFootprintCourtyardDefinitions sampleCollaborators
            ⟨mixedBoard, freshEngine 10⟩).m_board[2]?).map
          (fun D => D.m_poly_courtyard_back.m_bbox) = some ⟨⟨20, 20⟩, ⟨10, 10⟩⟩)
    ∧ (newMarkers (freshEngine 10)
        (testFootprintCourtyardDefinitions sampleCollaborators
          ⟨mixedBoard, freshEngine 10⟩).m_drcEngine).filter
        (fun v => decide (1 ∈ v.item.m_items))
      = [⟨⟨.DRCE_MISSING_COURTYARD, "Footprint has no courtyard defined", [1]⟩, ⟨7, 8⟩⟩] := by
  have h2 := C8_failed_build_does_not_stop_the_pass sampleCollaborators
    ⟨mixedBoard, freshEngine 10⟩ 0 2 (footprintAt ⟨3, 4⟩ (openOutlineOn F_CrtYd 0 0 10 10))
    (footprintAt ⟨20, 20⟩ (rectangleOn B_CrtYd 20 20 30 30))
    (by decide) (by decide) (by decide) (by decide) (by decide) (by decide)
  have h1 := C8_failed_build_does_not_stop_the_pass sampleCollaborators
    ⟨mixedBoard, freshEngine 10⟩ 0 1 (footprintAt ⟨3, 4⟩ (openOutlineOn F_CrtYd 0 0 10 10))
    (footprintAt ⟨7, 8⟩ []) (by decide) (by decide) (by decide) (by decide) (by decide)
    (by decide)
  refine ⟨⟨?_, ?_⟩, ?_⟩
  · rw [h2.2.2.1]
    decide
  · rw [h2.2.2.2.1]
    decide
  · rw [h1.2.2.1]
    decide

/-! ### Footprints without courtyard outlines in the scan -/

/-- A footprint without outlines on either courtyard layer takes part in no call of the
scan and in none of its violations. -/
theorem scan_ignores_noCourtyard (E : COLLABORATORS) (p : PROVIDER) (k : Nat) (C : MODULE)
    (hC : p.m_board[k]? = some C) (hn : C.noCourtyard) :
    (∀ e ∈ newCalls p.m_drcEngine (testOverlappingComponentCourtyards E p).m_drcEngine,
      ∀ other side, e ≠ .BooleanIntersection k other side
        ∧ e ≠ .BooleanIntersection other k side ∧ e ≠ .BBoxFromCaches k side)
    ∧ (∀ m ∈ newMarkers p.m_drcEngine (testOverlappingComponentCourtyards E p).m_drcEngine,
      k ∉ m.item.m_items) := by
  obtain ⟨_, m1, m2, _, _⟩ := testOverlapping_closed E p
  have hside : ∀ side, ¬ 0 < (C.courtyard side).OutlineCount := by
    intro side
    cases side
    · show ¬ 0 < C.GetPolyCourtyardFront.OutlineCount
      rw [hn.1]
      exact lt_irrefl 0
    · show ¬ 0 < C.GetPolyCourtyardBack.OutlineCount
      rw [hn.2]
      exact lt_irrefl 0
  have hfp : ∀ q ∈ allPairs 0 p.m_board, q.i = k → q.footprint = C := by
    intro q hq hk
    rw [mem_allPairs] at hq
    have h3 := hq.2.2.1
    rw [Nat.sub_zero, hk, hC] at h3
    exact (Option.some.inj h3).symm
  have htest : ∀ q ∈ allPairs 0 p.m_board, q.j = k → q.test = C := by
    intro q hq hk
    rw [mem_allPairs] at hq
    have h4 := hq.2.2.2
    rw [Nat.sub_zero, hk, hC] at h4
    exact (Option.some.inj h4).symm
  constructor
  · intro e he other side
    rw [m2] at he
    rcases List.mem_cons.mp he with h | h
    · subst h
      exact ⟨by simp, by simp, by simp⟩
    obtain ⟨q, hq, he⟩ := List.mem_flatMap.mp h
    have hq' : q ∈ allPairs 0 p.m_board := (takeHits_initial _ _ _).subset hq
    obtain ⟨s, ⟨ha, hb⟩, hcases⟩ := mem_testPair_calls E q.i q.j q.footprint q.test e he
    have hi : q.i ≠ k := fun h => hside s (hfp q hq' h ▸ ha)
    have hj : q.j ≠ k := fun h => hside s (htest q hq' h ▸ hb)
    rcases hcases with h | h | ⟨h, _⟩
    · subst h
      exact ⟨by simp, by simp, by simp [hi]⟩
    · subst h
      exact ⟨by simp, by simp, by simp [hj]⟩
    · subst h
      refine ⟨?_, ?_, by simp⟩
      · simp only [ne_eq, EVENT.BooleanIntersection.injEq, not_and]
        intro h
        exact absurd h hi
      · simp only [ne_eq, EVENT.BooleanIntersection.injEq, not_and]
        intro _ h
        exact absurd h hj
  · intro m hm hk
    rw [m1] at hm
    obtain ⟨q, hq, rfl⟩ := List.mem_map.mp hm
    obtain ⟨hq', hov⟩ := List.mem_filter.mp (List.mem_of_mem_take hq)
    simp only [SCAN_PAIR.marker, DRC_ITEM.SetItems, List.mem_cons, List.mem_singleton,
      List.not_mem_nil, or_false] at hk
    rcases hk with hk | hk
    · have := hfp q hq' hk.symm
      simp [SCAN_PAIR.overlaps, SCAN_PAIR.locals, this,
        testPair_of_noCourtyard_left E q.i q.j C q.test hn] at hov
    · have := htest q hq' hk.symm
      simp [SCAN_PAIR.overlaps, SCAN_PAIR.locals, this,
        testPair_of_noCourtyard_right E q.i q.j q.footprint C hn] at hov

/-- C10, counterexample: on `partlyBuiltBoard` the first footprint fails to build (closed
front outline, open back outline) and gets its malformed-courtyard violation, yet the
overlap check reads the cached bounding box of its front courtyard, computes the boolean
intersection of that courtyard with the second footprint's, and reports an
overlapping-footprints violation that references it. -/
theorem C10_counterexample_partly_built :
    (sampleCollaborators.BuildPolyCourtyard
        (footprintAt ⟨0, 0⟩
          (rectangleOn F_CrtYd 0 0 10 10 ++ openOutlineOn B_CrtYd 0 0 10 10))).1 = false
    ∧ newMarkers (freshEngine 10)
        (Run sampleCollaborators ⟨partlyBuiltBoard, freshEngine 10⟩).2.m_drcEngine
      = [⟨⟨.DRCE_MALFORMED_COURTYARD, "Footprint has malformed courtyard (not a closed shape)",
            [0]⟩, ⟨0, 0⟩⟩,
         ⟨⟨.DRCE_OVERLAPPING_FOOTPRINTS, "Courtyards overlap", [0, 1]⟩, ⟨0, 0⟩⟩]
    ∧ newCalls
        (testFootprintCourtyardDefinitions sampleCollaborators
          ⟨partlyBuiltBoard, freshEngine 10⟩).m_drcEngine
        (Run sampleCollaborators ⟨partlyBuiltBoard, freshEngine 10⟩).2.m_drcEngine
      = [.ReportStage "Testing component courtyard overlap" 0 2, .BBoxFromCaches 0 .front,
          .BBoxFromCaches 1 .front, .BooleanIntersection 0 1 .front] := by
  decide

/-- C10, amended: for a footprint `C` at position `k` whose `BuildPolyCourtyard` failed and
left both its front and its back courtyard polygon without outlines, the overlap check of
`Run` attempts no overlap check against `C`: it reads no cached bounding box of `C`, computes
no boolean intersection with a courtyard of `C` as an operand, and no
`DRCE_OVERLAPPING_FOOTPRINTS` violation of `Run` references `C`. -/
theorem C10_no_overlap_check_against_empty_failed_build (E : COLLABORATORS) (p : PROVIDER)
    (k : Nat) (C : MODULE) (hC : p.m_board[k]? = some C)
    (hfail : (E.BuildPolyCourtyard C).1 = false)
    (hfront : (E.BuildPolyCourtyard C).2.1.OutlineCount = 0)
    (hback : (E.BuildPolyCourtyard C).2.2.OutlineCount = 0) :
    (∀ e ∈ newCalls (testFootprintCourtyardDefinitions E p).m_drcEngine
        (Run E p).2.m_drcEngine,
      ∀ other side, e ≠ .BooleanIntersection k other side
        ∧ e ≠ .BooleanIntersection other k side ∧ e ≠ .BBoxFromCaches k side)
    ∧ (∀ m ∈ newMarkers p.m_drcEngine (Run E p).2.m_drcEngine,
      m.item.m_errorCode = .DRCE_OVERLAPPING_FOOTPRINTS → k ∉ m.item.m_items) := by
  have hr : (Run E p).2 = testOverlappingComponentCourtyards E
      (testFootprintCourtyardDefinitions E p) := rfl
  have hboard := definitions_board_at E p k C hC
  have hn : (expectedVisit E k C).2.noCourtyard := by
    have hf : ¬ (E.BuildPolyCourtyard C).1 = true := by simp [hfail]
    simp only [expectedVisit, hf, if_false, MODULE.noCourtyard, MODULE.BuildPolyCourtyard,
      MODULE.GetPolyCourtyardFront, MODULE.GetPolyCourtyardBack]
    exact ⟨hfront, hback⟩
  obtain ⟨hcalls, hmarkers⟩ := scan_ignores_noCourtyard E
    (testFootprintCourtyardDefinitions E p) k _ hboard hn
  rw [hr]
  refine ⟨hcalls, ?_⟩
  intro m hm hcode
  obtain ⟨ms, h0, _, hms⟩ := definitionsLoop_markers E p.m_board 0
    (p.m_drcEngine.ReportStage "Testing component courtyard definitions" 0 2)
  have hd : (testFootprintCourtyardDefinitions E p).m_drcEngine.m_markers
      = p.m_drcEngine.m_markers ++ ms := by
    simp only [testFootprintCourtyardDefinitions]
    rw [h0]
    simp [DRC_ENGINE.ReportStage, DRC_ENGINE.record]
  have hall := testOverlapping_markers E (testFootprintCourtyardDefinitions E p)
  simp only [newMarkers] at hm
  rw [hall, hd, List.append_assoc, List.drop_left] at hm
  rcases List.mem_append.mp hm with h | h
  · obtain ⟨_, _, _, _, hc⟩ := hms m h
    rw [hcode] at hc
    simp at hc
  · exact hmarkers m h

/-- C10 (amended) on `mixedBoard`, whose first footprint has an open front outline and is
left without outlines: the overlap check makes no call about it and `Run` reports no
overlapping-footprints violation that references it. -/
theorem C10_witness_mixed_board :
    (∀ e ∈ newCalls
        (testFootprintCourtyardDefinitions sampleCollaborators
          ⟨mixedBoard, freshEngine 10⟩).m_drcEngine
        (Run sampleCollaborators ⟨mixedBoard, freshEngine 10⟩).2.m_drcEngine,
      ∀ other side, e ≠ .BooleanIntersection 0 other side
        ∧ e ≠ .BooleanIntersection other 0 side ∧ e ≠ .BBoxFromCaches 0 side)
    ∧ (∀ m ∈ newMarkers (freshEngine 10)
        (Run sampleCollaborators ⟨mixedBoard, freshEngine 10⟩).2.m_drcEngine,
      m.item.m_errorCode = .DRCE_OVERLAPPING_FOOTPRINTS → 0 ∉ m.item.m_items) :=
  C10_no_overlap_check_against_empty_failed_build sampleCollaborators
    ⟨mixedBoard, freshEngine 10⟩ 0 (footprintAt ⟨3, 4⟩ (openOutlineOn F_CrtYd 0 0 10 10))
    (by decide) (by decide) (by decide) (by decide)

/-! ### The bounding-box reject -/

/-- A boolean intersection the scan computes is that of a pair of board positions on a side
where both footprints have outlines and the cached bounding boxes intersect. -/
theorem mem_scan_calls_booleanIntersection (E : COLLABORATORS) (p : PROVIDER)
    (i j : Nat) (side : SIDE) (A B : MODULE)
    (hA : p.m_board[i]? = some A) (hB : p.m_board[j]? = some B)
    (he : EVENT.BooleanIntersection i j side
      ∈ newCalls p.m_drcEngine (testOverlappingComponentCourtyards E p).m_drcEngine) :
    (0 < (A.courtyard side).OutlineCount ∧ 0 < (B.courtyard side).OutlineCount)
      ∧ E.Intersects (A.courtyard side).BBoxFromCaches (B.courtyard side).BBoxFromCaches
          = true := by
  obtain ⟨_, _, m2, _, _⟩ := testOverlapping_closed E p
  rw [m2] at he
  rcases List.mem_cons.mp he with h | h
  · cases h
  obtain ⟨q, hq, he⟩ := List.mem_flatMap.mp h
  have hq' : q ∈ allPairs 0 p.m_board := (takeHits_initial _ _ _).subset hq
  rw [mem_allPairs] at hq'
  obtain ⟨_, _, h3, h4⟩ := hq'
  simp only [Nat.sub_zero] at h3 h4
  obtain ⟨s, hcount, h | h | ⟨h, hint⟩⟩ := mem_testPair_calls E q.i q.j q.footprint q.test _ he
  · cases h
  · cases h
  · simp only [EVENT.BooleanIntersection.injEq] at h
    obtain ⟨hi, hj, hs⟩ := h
    rw [← hi, hA] at h3
    rw [← hj, hB] at h4
    cases h3
    cases h4
    subst hs
    exact ⟨hcount, hint⟩

/-- A violation of the scan for the positions `[i, j]` is that of a pair for which one of the
two side blocks has set `overlap`. -/
theorem mem_scan_markers_items (E : COLLABORATORS) (p : PROVIDER) (i j : Nat) (A B : MODULE)
    (hA : p.m_board[i]? = some A) (hB : p.m_board[j]? = some B) (m : MARKER)
    (hm : m ∈ newMarkers p.m_drcEngine (testOverlappingComponentCourtyards E p).m_drcEngine)
    (hitems : m.item.m_items = [i, j]) :
    m = SCAN_PAIR.marker E ⟨i, j, A, B⟩
      ∧ (sideHit E A.GetPolyCourtyardFront B.GetPolyCourtyardFront = true
          ∨ sideHit E A.GetPolyCourtyardBack B.GetPolyCourtyardBack = true) := by
  obtain ⟨_, m1, _⟩ := testOverlapping_closed E p
  rw [m1] at hm
  obtain ⟨q, hq, rfl⟩ := List.mem_map.mp hm
  obtain ⟨hq', hov⟩ := List.mem_filter.mp (List.mem_of_mem_take hq)
  rw [mem_allPairs] at hq'
  obtain ⟨_, _, h3, h4⟩ := hq'
  simp only [Nat.sub_zero] at h3 h4
  obtain ⟨qi, qj, qf, qt⟩ := q
  simp only [SCAN_PAIR.marker, DRC_ITEM.SetItems, List.cons.injEq, and_true] at hitems
  obtain ⟨rfl, rfl⟩ := hitems
  simp only at h3 h4
  rw [hA] at h3
  rw [hB] at h4
  cases h3
  cases h4
  refine ⟨rfl, ?_⟩
  simpa [SCAN_PAIR.overlaps, SCAN_PAIR.locals, testPair_overlap] using hov

/-- C11: for footprints `A`, `B` at board positions `i`, `j` and a side on which the cached
bounding boxes of their courtyards do not intersect, `testOverlappingComponentCourtyards`
computes no boolean intersection for that side of the pair; when the boxes intersect on
neither side, the number of boolean intersections computed for the pair is zero and no
violation is reported for it. -/
theorem C11_no_intersection_without_bbox_overlap (E : COLLABORATORS) (p : PROVIDER)
    (i j : Nat) (A B : MODULE)
    (hA : p.m_board[i]? = some A) (hB : p.m_board[j]? = some B) :
    (∀ side, E.Intersects (A.courtyard side).BBoxFromCaches
          (B.courtyard side).BBoxFromCaches = false →
        EVENT.BooleanIntersection i j side
          ∉ newCalls p.m_drcEngine (testOverlappingComponentCourtyards E p).m_drcEngine)
    ∧ ((∀ side, E.Intersects (A.courtyard side).BBoxFromCaches
          (B.courtyard side).BBoxFromCaches = false) →
        (newCalls p.m_drcEngine (testOverlappingComponentCourtyards E p).m_drcEngine).countP
            (fun e => decide (e = EVENT.BooleanIntersection i j .front
              ∨ e = EVENT.BooleanIntersection i j .back)) = 0
        ∧ ∀ m ∈ newMarkers p.m_drcEngine
            (testOverlappingComponentCourtyards E p).m_drcEngine, m.item.m_items ≠ [i, j]) := by
  have hside : ∀ side, E.Intersects (A.courtyard side).BBoxFromCaches
      (B.courtyard side).BBoxFromCaches = false →
      EVENT.BooleanIntersection i j side
        ∉ newCalls p.m_drcEngine (testOverlappingComponentCourtyards E p).m_drcEngine := by
    intro side hno he
    have := (mem_scan_calls_booleanIntersection E p i j side A B hA hB he).2
    rw [hno] at this
    cases this
  refine ⟨hside, ?_⟩
  intro hall
  constructor
  · rw [List.countP_eq_zero]
    intro e he
    simp only [decide_eq_true_eq, not_or]
    exact ⟨fun hs => hside .front (hall .front) (hs ▸ he),
      fun hs => hside .back (hall .back) (hs ▸ he)⟩
  · intro m hm hitems
    obtain ⟨_, h | h⟩ := mem_scan_markers_items E p i j A B hA hB m hm hitems
    · have := hall .front
      simp [sideHit, MODULE.courtyard] at h this
      rw [this] at h
      simp at h
    · have := hall .back
      simp [sideHit, MODULE.courtyard] at h this
      rw [this] at h
      simp at h

/-- C11 on two rectangles far apart: no boolean intersection is computed and nothing is
reported. -/
theorem C11_witness_far_apart :
    (newCalls farApartChecked.m_drcEngine
        (testOverlappingComponentCourtyards sampleCollaborators
          farApartChecked).m_drcEngine).countP
        (fun e => decide (e = EVENT.BooleanIntersection 0 1 .front
          ∨ e = EVENT.BooleanIntersection 0 1 .back)) = 0
    ∧ newMarkers farApartChecked.m_drcEngine
        (testOverlappingComponentCourtyards sampleCollaborators
          farApartChecked).m_drcEngine = [] := by
  refine ⟨((C11_no_intersection_without_bbox_overlap sampleCollaborators farApartChecked 0 1
    (expectedVisit sampleCollaborators 0 (twoSidedRectangle 0 0 10 10)).2
    (expectedVisit sampleCollaborators 1 (twoSidedRectangle 50 50 60 60)).2 (by decide)
    (by decide)).2 (by intro side; cases side <;> decide)).1, by decide⟩

/-! ### The reported position -/

theorem CVertex_eq_firstVertex (s : SHAPE_POLY_SET) :
    s.CVertex 0 0 (-1) = firstVertex s.m_polys := by
  obtain ⟨polys, bbox⟩ := s
  match polys with
  | [] => simp [SHAPE_POLY_SET.CVertex, firstVertex]
  | [] :: _ => simp [SHAPE_POLY_SET.CVertex, firstVertex]
  | ([] :: _) :: _ => simp [SHAPE_POLY_SET.CVertex, firstVertex]
  | ((v :: _) :: _) :: _ => simp [SHAPE_POLY_SET.CVertex, firstVertex]

theorem checkSide_pos (E : COLLABORATORS) (side : SIDE) (i j : Nat)
    (a b : SHAPE_POLY_SET) (loc : PAIR_LOCALS) :
    (checkSide E side i j a b loc).pos =
      if sideHit E a b = true then firstVertex (E.BooleanIntersection a.m_polys b.m_polys)
      else loc.pos := by
  unfold checkSide sideHit
  by_cases h1 : 0 < a.OutlineCount ∧ 0 < b.OutlineCount
  · have h1' : 0 < a.m_polys.length ∧ 0 < b.m_polys.length := h1
    by_cases h2 : E.Intersects a.BBoxFromCaches b.BBoxFromCaches = true
    · by_cases h3 : 0 < (E.BooleanIntersection a.m_polys b.m_polys).length
      · simp [h1', h2, h3, CVertex_eq_firstVertex, SHAPE_POLY_SET.BooleanIntersection,
          SHAPE_POLY_SET.Append, SHAPE_POLY_SET.RemoveAllContours,
          SHAPE_POLY_SET.OutlineCount]
      · simp [h1', h2, h3, SHAPE_POLY_SET.BooleanIntersection, SHAPE_POLY_SET.Append,
          SHAPE_POLY_SET.RemoveAllContours, SHAPE_POLY_SET.OutlineCount]
    · simp [h1, h2]
  · simp [h1]

theorem testPair_pos (E : COLLABORATORS) (i j : Nat) (A B : MODULE) :
    (testPair E i j A B).pos =
      if sideHit E A.GetPolyCourtyardBack B.GetPolyCourtyardBack = true then
        firstVertex (E.BooleanIntersection A.GetPolyCourtyardBack.m_polys
          B.GetPolyCourtyardBack.m_polys)
      else if sideHit E A.GetPolyCourtyardFront B.GetPolyCourtyardFront = true then
        firstVertex (E.BooleanIntersection A.GetPolyCourtyardFront.m_polys
          B.GetPolyCourtyardFront.m_polys)
      else ⟨0, 0⟩ := by
  simp only [testPair, checkSide_pos]

/-- C12, counterexample: on `bothSidesBoard` the front courtyards overlap and the first
vertex of the first outline of their intersection is `(5, 5)`, yet the violation of the pair
is reported at `(105, 105)`, the first vertex of the back intersection: the back block
(line 187) assigns `pos` after the front block (line 172). -/
theorem C12_counterexample_both_sides :
    bothSidesChecked.m_board
      = [(expectedVisit sampleCollaborators 0 bothSidesFirst).2,
         (expectedVisit sampleCollaborators 1 bothSidesSecond).2]
    ∧ sideHit sampleCollaborators
        (expectedVisit sampleCollaborators 0 bothSidesFirst).2.GetPolyCourtyardFront
        (expectedVisit sampleCollaborators 1 bothSidesSecond).2.GetPolyCourtyardFront = true
    ∧ firstVertex (sampleCollaborators.BooleanIntersection
        (expectedVisit sampleCollaborators 0 bothSidesFirst).2.GetPolyCourtyardFront.m_polys
        (expectedVisit sampleCollaborators 1 bothSidesSecond).2.GetPolyCourtyardFront.m_polys)
      = ⟨5, 5⟩
    ∧ newMarkers bothSidesChecked.m_drcEngine
        (testOverlappingComponentCourtyards sampleCollaborators
          bothSidesChecked).m_drcEngine
      = [⟨⟨.DRCE_OVERLAPPING_FOOTPRINTS, "Courtyards overlap", [0, 1]⟩, ⟨105, 105⟩⟩] := by
  decide

/-- C12, amended: the reported position is back-preferred.  For the violation of the pair of
footprints `A`, `B` at positions `i`, `j`: when the back block finds an overlap, the
position is the first vertex of the first outline of the back intersection polygon, also
when the front courtyards overlap too; only when the back block finds none is it the first
vertex of the first outline of the front intersection polygon (and then the front block has
found an overlap). -/
theorem C12_position_is_back_preferred (E : COLLABORATORS) (p : PROVIDER)
    (i j : Nat) (A B : MODULE)
    (hA : p.m_board[i]? = some A) (hB : p.m_board[j]? = some B) (m : MARKER)
    (hm : m ∈ newMarkers p.m_drcEngine (testOverlappingComponentCourtyards E p).m_drcEngine)
    (hitems : m.item.m_items = [i, j]) :
    (sideHit E A.GetPolyCourtyardBack B.GetPolyCourtyardBack = true →
      m.pos = firstVertex (E.BooleanIntersection A.GetPolyCourtyardBack.m_polys
        B.GetPolyCourtyardBack.m_polys))
    ∧ (sideHit E A.GetPolyCourtyardBack B.GetPolyCourtyardBack = false →
      sideHit E A.GetPolyCourtyardFront B.GetPolyCourtyardFront = true
      ∧ m.pos = firstVertex (E.BooleanIntersection A.GetPolyCourtyardFront.m_polys
        B.GetPolyCourtyardFront.m_polys)) := by
  obtain ⟨hmq, hhit⟩ := mem_scan_markers_items E p i j A B hA hB m hm hitems
  have hpos : m.pos = (testPair E i j A B).pos := by rw [hmq]; rfl
  rw [hpos, testPair_pos]
  constructor
  · intro hb
    simp [hb]
  · intro hb
    have hf : sideHit E A.GetPolyCourtyardFront B.GetPolyCourtyardFront = true := by
      rcases hhit with h | h
      · exact h
      · rw [hb] at h
        cases h
    exact ⟨hf, by simp [hb, hf]⟩

/-- C12 (amended) on `bothSidesBoard`: one violation is reported, and the violation of the
pair is at the first vertex of the back intersection, `(105, 105)`. -/
theorem C12_witness_both_sides :
    (newMarkers bothSidesChecked.m_drcEngine
        (testOverlappingComponentCourtyards sampleCollaborators
          bothSidesChecked).m_drcEngine).length = 1
    ∧ ∀ m ∈ newMarkers bothSidesChecked.m_drcEngine
        (testOverlappingComponentCourtyards sampleCollaborators
          bothSidesChecked).m_drcEngine,
      m.item.m_items = [0, 1] → m.pos = ⟨105, 105⟩ := by
  refine ⟨by decide, ?_⟩
  intro m hm hitems
  have h := (C12_position_is_back_preferred sampleCollaborators bothSidesChecked 0 1
    (expectedVisit sampleCollaborators 0 bothSidesFirst).2
    (expectedVisit sampleCollaborators 1 bothSidesSecond).2
    (by decide) (by decide) m hm hitems).1 (by decide)
  rw [h]
  decide

/-! ### What `Run` leaves of the board -/

theorem expectedVisit_inputs (E : COLLABORATORS) (k : Nat) (C : MODULE) :
    (expectedVisit E k C).2.inputs = C.inputs := by
  unfold expectedVisit
  simp only
  split
  · split <;> rfl
  · rfl

theorem definitionsLoop_inputs (E : COLLABORATORS) :
    ∀ (l : List MODULE) (k : Nat) (eng : DRC_ENGINE),
      (definitionsLoop E k l eng).1.map MODULE.inputs = l.map MODULE.inputs := by
  intro l
  induction l with
  | nil => intro k eng; rfl
  | cons fp rest ih =>
    intro k eng
    simp only [definitionsLoop, List.map_cons, ih, visitFootprint_fst, expectedVisit_inputs]

/-- C15: `Run` leaves the board as it was except for the derived courtyard polygons and
their caches: the footprints are as many as before, in the same order, and each has the
position and the graphic primitives it had; the footprint at position `k` differs from the
footprint `C` it was only by the courtyard polygons of `expectedVisit`. -/
theorem C15_Run_changes_only_the_courtyard_polygons (E : COLLABORATORS) (p : PROVIDER) :
    (Run E p).2.m_board.length = p.m_board.length
    ∧ (Run E p).2.m_board.map MODULE.inputs = p.m_board.map MODULE.inputs
    ∧ ∀ (k : Nat) (C : MODULE), p.m_board[k]? = some C →
        ∃ C' : MODULE, (Run E p).2.m_board[k]? = some C'
          ∧ C'.m_Pos = C.m_Pos ∧ C'.m_drawings = C.m_drawings := by
  have hb : (Run E p).2.m_board = (definitionsLoop E 0 p.m_board
      (p.m_drcEngine.ReportStage "Testing component courtyard definitions" 0 2)).1 := rfl
  refine ⟨?_, ?_, ?_⟩
  · rw [hb, definitionsLoop_length]
  · rw [hb, definitionsLoop_inputs]
  · intro k C hC
    have h : (Run E p).2.m_board[k]? = some (expectedVisit E k C).2 :=
      definitions_board_at E p k C hC
    have hi := expectedVisit_inputs E k C
    simp only [Prod.mk.injEq, MODULE.inputs] at hi
    exact ⟨_, h, hi.1, hi.2⟩

/-! ### Runs that agree on the limits of some codes -/

theorem filter_optional_marker (S : PCB_DRC_CODE → Bool) (x x' : Bool) (mk : MARKER)
    (h : S mk.item.m_errorCode = true → x = x') :
    (if x = true then [] else [mk]).filter (fun m => S m.item.m_errorCode)
      = (if x' = true then [] else [mk]).filter (fun m => S m.item.m_errorCode) := by
  by_cases hS : S mk.item.m_errorCode = true
  · rw [h hS]
  · cases x <;> cases x' <;> simp [hS]

theorem isErrorLimitExceeded_of_agreeOn (S : PCB_DRC_CODE → Bool) (eng eng' : DRC_ENGINE)
    (hag : agreeOn S eng eng') (k : PCB_DRC_CODE) (hk : S k = true) :
    eng.isErrorLimitExceeded k = eng'.isErrorLimitExceeded k := by
  simp only [DRC_ENGINE.isErrorLimitExceeded, (hag k hk).1, (hag k hk).2]

/-- The limits after a visit are those before it, and each counter has grown by the number
of violations of its code that the visit reported. -/
theorem visitFootprint_counts (E : COLLABORATORS) (k : Nat) (C : MODULE) (eng : DRC_ENGINE) :
    (visitFootprint E k C eng).2.m_errorLimits = eng.m_errorLimits
    ∧ ∀ c, (visitFootprint E k C eng).2.m_errorCount c = eng.m_errorCount c
        + ((newMarkers eng (visitFootprint E k C eng).2).filter
            (fun m => decide (m.item.m_errorCode = c))).length := by
  unfold visitFootprint newMarkers
  simp only
  split
  · split
    · split
      · refine ⟨rfl, fun c => ?_⟩
        simp [DRC_ENGINE.record]
      · refine ⟨rfl, fun c => ?_⟩
        by_cases hc : c = .DRCE_MISSING_COURTYARD
        · simp [DRC_ENGINE.record, DRC_ENGINE.ReportWithMarker, DRC_ITEM.SetItems,
            DRC_ITEM.Create, hc]
        · have hc' : ¬ PCB_DRC_CODE.DRCE_MISSING_COURTYARD = c := fun h => hc h.symm
          simp [DRC_ENGINE.record, DRC_ENGINE.ReportWithMarker, DRC_ITEM.SetItems,
            DRC_ITEM.Create, hc, hc']
    · refine ⟨rfl, fun c => ?_⟩
      simp [DRC_ENGINE.record]
  · split
    · refine ⟨rfl, fun c => ?_⟩
      by_cases hc : c = .DRCE_MALFORMED_COURTYARD
      · simp [DRC_ENGINE.record, DRC_ENGINE.ReportWithMarker, DRC_ITEM.SetItems,
          DRC_ITEM.Create, DRC_ITEM.SetErrorMessage, hc]
      · have hc' : ¬ PCB_DRC_CODE.DRCE_MALFORMED_COURTYARD = c := fun h => hc h.symm
        simp [DRC_ENGINE.record, DRC_ENGINE.ReportWithMarker, DRC_ITEM.SetItems,
          DRC_ITEM.Create, DRC_ITEM.SetErrorMessage, hc, hc']
    · refine ⟨rfl, fun c => ?_⟩
      simp [DRC_ENGINE.record]

theorem length_filter_code_of_filter_eq (S : PCB_DRC_CODE → Bool) (ms ms' : List MARKER)
    (h : ms.filter (fun m => S m.item.m_errorCode) = ms'.filter (fun m => S m.item.m_errorCode))
    (c : PCB_DRC_CODE) (hc : S c = true) :
    (ms.filter (fun m => decide (m.item.m_errorCode = c))).length
      = (ms'.filter (fun m => decide (m.item.m_errorCode = c))).length := by
  have key : ∀ l : List MARKER, l.filter (fun m => decide (m.item.m_errorCode = c))
      = (l.filter (fun m => S m.item.m_errorCode)).filter
          (fun m => decide (m.item.m_errorCode = c)) := by
    intro l
    rw [List.filter_filter]
    apply List.filter_congr
    intro m _
    by_cases hm : m.item.m_errorCode = c
    · simp [hm, hc]
    · simp [hm]
  rw [key ms, key ms', h]

theorem visitFootprint_congr (E : COLLABORATORS) (S : PCB_DRC_CODE → Bool) (k : Nat)
    (X Y : MODULE) (eng eng' : DRC_ENGINE) (hXY : sameBuild E X Y)
    (hag : agreeOn S eng eng') :
    (visitFootprint E k X eng).1 = (visitFootprint E k Y eng').1
    ∧ agreeOn S (visitFootprint E k X eng).2 (visitFootprint E k Y eng').2
    ∧ (newMarkers eng (visitFootprint E k X eng).2).filter (fun m => S m.item.m_errorCode)
      = (newMarkers eng' (visitFootprint E k Y eng').2).filter
          (fun m => S m.item.m_errorCode) := by
  obtain ⟨hpos, hdraw, hbuild⟩ := hXY
  have hmiss : missingMarker E k Y = missingMarker E k X := by
    simp only [missingMarker, hpos]
  have hmal : malformedMarker E k Y = malformedMarker E k X := by
    simp only [malformedMarker, hpos]
  have h3 : (newMarkers eng (visitFootprint E k X eng).2).filter
      (fun m => S m.item.m_errorCode)
      = (newMarkers eng' (visitFootprint E k Y eng').2).filter
          (fun m => S m.item.m_errorCode) := by
    rw [visitFootprint_newMarkers, visitFootprint_newMarkers, ← hbuild, hmiss, hmal]
    split
    · split
      · exact filter_optional_marker S _ _ _
          (fun h => isErrorLimitExceeded_of_agreeOn S eng eng' hag _ h)
      · rfl
    · exact filter_optional_marker S _ _ _
        (fun h => isErrorLimitExceeded_of_agreeOn S eng eng' hag _ h)
  refine ⟨?_, ?_, h3⟩
  · rw [visitFootprint_fst, visitFootprint_fst]
    obtain ⟨px, dx, fx, bx⟩ := X
    obtain ⟨py, dy, fy, _⟩ := Y
    simp only at hpos hdraw
    subst hpos
    subst hdraw
    simp only [expectedVisit, MODULE.BuildPolyCourtyard, ← hbuild]
    split
    · split <;> rfl
    · rfl
  · intro c hc
    obtain ⟨l1, c1⟩ := visitFootprint_counts E k X eng
    obtain ⟨l2, c2⟩ := visitFootprint_counts E k Y eng'
    rw [l1, l2, c1 c, c2 c, (hag c hc).1, (hag c hc).2,
      length_filter_code_of_filter_eq S _ _ h3 c hc]
    exact ⟨rfl, rfl⟩

theorem newMarkers_append (a b c : DRC_ENGINE) (x y : List MARKER)
    (hab : b.m_markers = a.m_markers ++ x) (hbc : c.m_markers = b.m_markers ++ y) :
    newMarkers a c = newMarkers a b ++ newMarkers b c := by
  simp only [newMarkers]
  rw [hbc, List.drop_left, hab, List.append_assoc, List.drop_left, List.drop_left]

theorem definitionsLoop_congr (E : COLLABORATORS) (S : PCB_DRC_CODE → Bool) :
    ∀ (l l' : List MODULE), List.Forall₂ (sameBuild E) l l' →
      ∀ (k : Nat) (eng eng' : DRC_ENGINE), agreeOn S eng eng' →
        (definitionsLoop E k l eng).1 = (definitionsLoop E k l' eng').1
        ∧ agreeOn S (definitionsLoop E k l eng).2 (definitionsLoop E k l' eng').2
        ∧ (newMarkers eng (definitionsLoop E k l eng).2).filter
            (fun m => S m.item.m_errorCode)
          = (newMarkers eng' (definitionsLoop E k l' eng').2).filter
              (fun m => S m.item.m_errorCode) := by
  intro l l' hl
  induction hl with
  | nil =>
    intro k eng eng' hag
    exact ⟨rfl, hag, by simp [definitionsLoop, newMarkers]⟩
  | @cons X Y rest rest' hXY _ ih =>
    intro k eng eng' hag
    obtain ⟨v1, v2, v3⟩ := visitFootprint_congr E S k X Y eng eng' hXY hag
    obtain ⟨r1, r2, r3⟩ := ih (k + 1) _ _ v2
    obtain ⟨x, hx, _, _⟩ := visitFootprint_markers E k X eng
    obtain ⟨y, hy, _, _⟩ := definitionsLoop_markers E rest (k + 1) (visitFootprint E k X eng).2
    obtain ⟨x', hx', _, _⟩ := visitFootprint_markers E k Y eng'
    obtain ⟨y', hy', _, _⟩ := definitionsLoop_markers E rest' (k + 1)
      (visitFootprint E k Y eng').2
    refine ⟨?_, r2, ?_⟩
    · simp only [definitionsLoop, v1, r1]
    · simp only [definitionsLoop]
      rw [newMarkers_append eng _ _ x y hx hy, newMarkers_append eng' _ _ x' y' hx' hy',
        List.filter_append, List.filter_append, v3, r3]

theorem scan_congr (E : COLLABORATORS) (S : PCB_DRC_CODE → Bool) (board : List MODULE)
    (eng eng' : DRC_ENGINE) (hag : agreeOn S eng eng') :
    (newMarkers eng (testOverlappingComponentCourtyards E ⟨board, eng⟩).m_drcEngine).filter
        (fun m => S m.item.m_errorCode)
      = (newMarkers eng' (testOverlappingComponentCourtyards E ⟨board, eng'⟩).m_drcEngine).filter
          (fun m => S m.item.m_errorCode) := by
  obtain ⟨_, m1, _⟩ := testOverlapping_closed E ⟨board, eng⟩
  obtain ⟨_, m1', _⟩ := testOverlapping_closed E ⟨board, eng'⟩
  simp only at m1 m1'
  rw [m1, m1']
  by_cases hS : S .DRCE_OVERLAPPING_FOOTPRINTS = true
  · have hb : scanBudget eng = scanBudget eng' := by
      simp only [scanBudget, (hag _ hS).1, (hag _ hS).2]
    rw [hb]
  · have hnil : ∀ l : List SCAN_PAIR,
        (l.map (SCAN_PAIR.marker E)).filter (fun m => S m.item.m_errorCode) = [] := by
      intro l
      rw [List.filter_eq_nil_iff]
      intro m hm
      obtain ⟨q, _, rfl⟩ := List.mem_map.mp hm
      simpa [SCAN_PAIR.marker, DRC_ITEM.SetItems, DRC_ITEM.Create] using hS
    rw [hnil, hnil]

/-- The violations of `Run` are those of the definition check followed by those of the
scan. -/
theorem Run_markers (E : COLLABORATORS) (p : PROVIDER) :
    newMarkers p.m_drcEngine (Run E p).2.m_drcEngine
      = newMarkers p.m_drcEngine (testFootprintCourtyardDefinitions E p).m_drcEngine
        ++ newMarkers (testFootprintCourtyardDefinitions E p).m_drcEngine
            (Run E p).2.m_drcEngine := by
  obtain ⟨ms, h0, _, _⟩ := definitionsLoop_markers E p.m_board 0
    (p.m_drcEngine.ReportStage "Testing component courtyard definitions" 0 2)
  have hd : (testFootprintCourtyardDefinitions E p).m_drcEngine.m_markers
      = p.m_drcEngine.m_markers ++ ms := by
    simp only [testFootprintCourtyardDefinitions]
    rw [h0]
    simp [DRC_ENGINE.ReportStage, DRC_ENGINE.record]
  exact newMarkers_append _ _ _ _ _ hd
    (testOverlapping_markers E (testFootprintCourtyardDefinitions E p))

theorem Run_congr (E : COLLABORATORS) (S : PCB_DRC_CODE → Bool) (l l' : List MODULE)
    (eng eng' : DRC_ENGINE) (hl : List.Forall₂ (sameBuild E) l l')
    (hag : agreeOn S eng eng') :
    (newMarkers eng (Run E ⟨l, eng⟩).2.m_drcEngine).filter (fun m => S m.item.m_errorCode)
      = (newMarkers eng' (Run E ⟨l', eng'⟩).2.m_drcEngine).filter
          (fun m => S m.item.m_errorCode) := by
  have hstage : agreeOn S
      (eng.ReportStage "Testing component courtyard definitions" 0 2)
      (eng'.ReportStage "Testing component courtyard definitions" 0 2) := hag
  obtain ⟨d1, d2, d3⟩ := definitionsLoop_congr E S l l' hl 0 _ _ hstage
  have h1 := Run_markers E ⟨l, eng⟩
  have h2 := Run_markers E ⟨l', eng'⟩
  simp only at h1 h2
  rw [h1, h2, List.filter_append, List.filter_append]
  congr 1
  have hr : ∀ (b : List MODULE) (e : DRC_ENGINE), (Run E ⟨b, e⟩).2
      = testOverlappingComponentCourtyards E
          ⟨(testFootprintCourtyardDefinitions E ⟨b, e⟩).m_board,
            (testFootprintCourtyardDefinitions E ⟨b, e⟩).m_drcEngine⟩ := fun _ _ => rfl
  rw [hr l eng, hr l' eng']
  have hboard : (testFootprintCourtyardDefinitions E ⟨l, eng⟩).m_board
      = (testFootprintCourtyardDefinitions E ⟨l', eng'⟩).m_board := d1
  rw [hboard]
  exact scan_congr E S _ _ _ d2

theorem forall₂_sameBuild_of_inputs (E : COLLABORATORS)
    (hdet : ∀ X Y : MODULE, X.m_Pos = Y.m_Pos → X.m_drawings = Y.m_drawings →
      E.BuildPolyCourtyard X = E.BuildPolyCourtyard Y) :
    ∀ (l l' : List MODULE), l.map MODULE.inputs = l'.map MODULE.inputs →
      List.Forall₂ (sameBuild E) l l' := by
  intro l
  induction l with
  | nil =>
    intro l' h
    cases l' with
    | nil => exact List.Forall₂.nil
    | cons _ _ => simp at h
  | cons X rest ih =>
    intro l' h
    cases l' with
    | nil => simp at h
    | cons Y rest' =>
      simp only [List.map_cons, List.cons.injEq, Prod.mk.injEq, MODULE.inputs] at h
      exact List.Forall₂.cons ⟨h.1.1, h.1.2, hdet X Y h.1.1 h.1.2⟩ (ih rest' h.2)

theorem forall₂_sameBuild_refl (E : COLLABORATORS) :
    ∀ l : List MODULE, List.Forall₂ (sameBuild E) l l := by
  intro l
  induction l with
  | nil => exact List.Forall₂.nil
  | cons X rest ih => exact List.Forall₂.cons ⟨rfl, rfl, rfl⟩ ih

/-! ### Repeated passes and independent limits -/

/-- C13: `Run` is idempotent across passes.  When `BuildPolyCourtyard` yields the same
result for footprints with the same position and the same graphic primitives, a second
`Run` on the board as the first `Run` left it, started from an engine state with the limits
and counters the first pass started from (the state reset between the passes), reports the
same sequence of violations as the first: the same codes, referenced footprints, positions
and messages. -/
theorem C13_Run_is_idempotent_across_passes (E : COLLABORATORS) (p : PROVIDER)
    (reset : DRC_ENGINE)
    (hlimits : reset.m_errorLimits = p.m_drcEngine.m_errorLimits)
    (hcounts : reset.m_errorCount = p.m_drcEngine.m_errorCount)
    (hdet : ∀ X Y : MODULE, X.m_Pos = Y.m_Pos → X.m_drawings = Y.m_drawings →
      E.BuildPolyCourtyard X = E.BuildPolyCourtyard Y) :
    newMarkers reset (Run E ⟨(Run E p).2.m_board, reset⟩).2.m_drcEngine
      = newMarkers p.m_drcEngine (Run E p).2.m_drcEngine := by
  have hag : agreeOn (fun _ => true) reset p.m_drcEngine := by
    intro k _
    rw [hlimits, hcounts]
    exact ⟨rfl, rfl⟩
  have hb : (Run E p).2.m_board = (definitionsLoop E 0 p.m_board
      (p.m_drcEngine.ReportStage "Testing component courtyard definitions" 0 2)).1 := rfl
  have hl : List.Forall₂ (sameBuild E) (Run E p).2.m_board p.m_board :=
    forall₂_sameBuild_of_inputs E hdet _ _ (by rw [hb, definitionsLoop_inputs])
  have h := Run_congr E (fun _ => true) _ _ reset p.m_drcEngine hl hag
  simpa using h

/-- C13 on `everyKindBoard` with limit 10: the second pass reports the same four violations
as the first. -/
theorem C13_witness_every_kind :
    newMarkers (freshEngine 10)
        (Run sampleCollaborators
          ⟨(Run sampleCollaborators ⟨everyKindBoard, freshEngine 10⟩).2.m_board,
            freshEngine 10⟩).2.m_drcEngine
      = newMarkers (freshEngine 10)
          (Run sampleCollaborators ⟨everyKindBoard, freshEngine 10⟩).2.m_drcEngine
    ∧ (newMarkers (freshEngine 10)
        (Run sampleCollaborators ⟨everyKindBoard, freshEngine 10⟩).2.m_drcEngine).map
          (fun m => m.item.m_items) = [[0], [1], [2, 3]] := by
  refine ⟨C13_Run_is_idempotent_across_passes sampleCollaborators
    ⟨everyKindBoard, freshEngine 10⟩ (freshEngine 10) rfl rfl ?_, by decide⟩
  intro X Y _ h
  simp only [sampleCollaborators, sampleBuildPolyCourtyard, h]

/-- C14: the codes have independent exceeded-states in `Run`.  For two initial engine states
that agree on the limit and on the counter of a code `K`, the violations of code `K` that
`Run` reports on a board are the same, whatever the limits and counters of the other
codes. -/
theorem C14_limits_of_the_codes_are_independent (E : COLLABORATORS) (board : List MODULE)
    (eng eng' : DRC_ENGINE) (K : PCB_DRC_CODE)
    (hlimit : eng.m_errorLimits K = eng'.m_errorLimits K)
    (hcount : eng.m_errorCount K = eng'.m_errorCount K) :
    (newMarkers eng (Run E ⟨board, eng⟩).2.m_drcEngine).filter
        (fun m => decide (m.item.m_errorCode = K))
      = (newMarkers eng' (Run E ⟨board, eng'⟩).2.m_drcEngine).filter
          (fun m => decide (m.item.m_errorCode = K)) := by
  have hag : agreeOn (fun c => decide (c = K)) eng eng' := by
    intro k hk
    have : k = K := by simpa using hk
    rw [this]
    exact ⟨hlimit, hcount⟩
  exact Run_congr E (fun c => decide (c = K)) board board eng eng'
    (forall₂_sameBuild_refl E board) hag

/-- C14 on `everyKindBoard`: with the limit of `DRCE_MALFORMED_COURTYARD` exceeded from the
start, the missing-courtyard violation and the overlapping-footprints violation are reported
as with limit 10, and only the malformed-courtyard violation is suppressed. -/
theorem C14_witness_malformed_exceeded :
    ((newMarkers malformedExceededEngine
        (Run sampleCollaborators ⟨everyKindBoard, malformedExceededEngine⟩).2.m_drcEngine).filter
        (fun m => decide (m.item.m_errorCode = .DRCE_MISSING_COURTYARD))
      = (newMarkers (freshEngine 10)
          (Run sampleCollaborators ⟨everyKindBoard, freshEngine 10⟩).2.m_drcEngine).filter
          (fun m => decide (m.item.m_errorCode = .DRCE_MISSING_COURTYARD))
      ∧ (newMarkers malformedExceededEngine
          (Run sampleCollaborators ⟨everyKindBoard, malformedExceededEngine⟩).2.m_drcEngine).filter
          (fun m => decide (m.item.m_errorCode = .DRCE_OVERLAPPING_FOOTPRINTS))
        = (newMarkers (freshEngine 10)
            (Run sampleCollaborators ⟨everyKindBoard, freshEngine 10⟩).2.m_drcEngine).filter
            (fun m => decide (m.item.m_errorCode = .DRCE_OVERLAPPING_FOOTPRINTS)))
    ∧ (newMarkers malformedExceededEngine
        (Run sampleCollaborators ⟨everyKindBoard, malformedExceededEngine⟩).2.m_drcEngine).map
        (fun m => m.item.m_items) = [[1], [2, 3]] :=
  ⟨⟨C14_limits_of_the_codes_are_independent sampleCollaborators everyKindBoard
      malformedExceededEngine (freshEngine 10) .DRCE_MISSING_COURTYARD rfl rfl,
    C14_limits_of_the_codes_are_independent sampleCollaborators everyKindBoard
      malformedExceededEngine (freshEngine 10) .DRCE_OVERLAPPING_FOOTPRINTS rfl rfl⟩,
   by decide⟩

/-! ### The constraint of the provider -/

/-- C16: `GetMatchingConstraintIds` returns the set whose only element is
`DRC_CONSTRAINT_TYPE_COURTYARD_CLEARANCE`, for every state of the provider, before `Run` as
after it. -/
theorem C16_matching_constraint_is_courtyard_clearance (E : COLLABORATORS) (p : PROVIDER) :
    GetMatchingConstraintIds p
        = {DRC_CONSTRAINT_TYPE_T.DRC_CONSTRAINT_TYPE_COURTYARD_CLEARANCE}
    ∧ GetMatchingConstraintIds (Run E p).2
        = {DRC_CONSTRAINT_TYPE_T.DRC_CONSTRAINT_TYPE_COURTYARD_CLEARANCE}
    ∧ (GetMatchingConstraintIds p).card = 1
    ∧ ∀ c, c ∈ GetMatchingConstraintIds p ↔
        c = DRC_CONSTRAINT_TYPE_T.DRC_CONSTRAINT_TYPE_COURTYARD_CLEARANCE := by
  refine ⟨rfl, rfl, rfl, ?_⟩
  intro c
  simp [GetMatchingConstraintIds]

/-! ### Violations that differ in the footprint only -/

/-- C20: violations of one code need not be unique in position or message.  On `twinBoard`
(two footprints at the same position, neither with courtyard graphics) `Run` reports two
distinct violations with the same code, the same position and the same message, which
differ in the referenced footprint. -/
theorem C20_same_position_and_message_twice :
    ∃ v w : MARKER,
      newMarkers (freshEngine 10)
          (Run sampleCollaborators ⟨twinBoard, freshEngine 10⟩).2.m_drcEngine = [v, w]
      ∧ v ≠ w
      ∧ v.item.m_errorCode = w.item.m_errorCode
      ∧ v.pos = w.pos
      ∧ v.item.m_errorMessage = w.item.m_errorMessage
      ∧ v.item.m_items = [0] ∧ w.item.m_items = [1] :=
  ⟨⟨⟨.DRCE_MISSING_COURTYARD, "Footprint has no courtyard defined", [0]⟩, ⟨7, 8⟩⟩,
   ⟨⟨.DRCE_MISSING_COURTYARD, "Footprint has no courtyard defined", [1]⟩, ⟨7, 8⟩⟩,
   by decide, by decide, rfl, rfl, rfl, rfl, rfl⟩

/-! ### The calls of the two checks -/

/-- The calls of one visit. -/
theorem visitFootprint_calls (E : COLLABORATORS) (k : Nat) (C : MODULE) (eng : DRC_ENGINE) :
    (visitFootprint E k C eng).2.m_log = eng.m_log
      ++ EVENT.BuildPolyCourtyard k ::
        (if (E.BuildPolyCourtyard C).1 = true
            ∧ ¬ ((E.BuildPolyCourtyard C).2.1.OutlineCount = 0
              ∧ (E.BuildPolyCourtyard C).2.2.OutlineCount = 0) then
          [EVENT.BuildBBoxCaches k .front, EVENT.BuildBBoxCaches k .back]
        else []) := by
  unfold visitFootprint
  simp only [id, MODULE.BuildPolyCourtyard, MODULE.GetPolyCourtyardFront,
    MODULE.GetPolyCourtyardBack]
  by_cases h1 : (E.BuildPolyCourtyard C).1 = true
  · by_cases h2 : (E.BuildPolyCourtyard C).2.1.OutlineCount = 0
        ∧ (E.BuildPolyCourtyard C).2.2.OutlineCount = 0
    · have hr : ¬ ((E.BuildPolyCourtyard C).1 = true
          ∧ ¬ ((E.BuildPolyCourtyard C).2.1.OutlineCount = 0
            ∧ (E.BuildPolyCourtyard C).2.2.OutlineCount = 0)) := fun h => h.2 h2
      rw [if_pos h1, if_pos h2, if_neg hr]
      split <;> simp [DRC_ENGINE.record, DRC_ENGINE.ReportWithMarker]
    · rw [if_pos h1, if_neg h2, if_pos ⟨h1, h2⟩]
      simp [DRC_ENGINE.record]
  · have hr : ¬ ((E.BuildPolyCourtyard C).1 = true
        ∧ ¬ ((E.BuildPolyCourtyard C).2.1.OutlineCount = 0
          ∧ (E.BuildPolyCourtyard C).2.2.OutlineCount = 0)) := fun h => h1 h.1
    rw [if_neg h1, if_neg hr]
    split <;> simp [DRC_ENGINE.record, DRC_ENGINE.ReportWithMarker]

/-- The calls of the loop of the definition check are no comparisons. -/
theorem definitionsLoop_log_kinds (E : COLLABORATORS) :
    ∀ (l : List MODULE) (k : Nat) (eng : DRC_ENGINE),
      ∃ evs, (definitionsLoop E k l eng).2.m_log = eng.m_log ++ evs
        ∧ ∀ e ∈ evs, e.isComparison = false := by
  intro l
  induction l with
  | nil => intro k eng; exact ⟨[], by simp [definitionsLoop], by simp⟩
  | cons fp rest ih =>
    intro k eng
    obtain ⟨e2, h2, hk2⟩ := ih (k + 1) (visitFootprint E k fp eng).2
    refine ⟨(EVENT.BuildPolyCourtyard k ::
        (if (E.BuildPolyCourtyard fp).1 = true
            ∧ ¬ ((E.BuildPolyCourtyard fp).2.1.OutlineCount = 0
              ∧ (E.BuildPolyCourtyard fp).2.2.OutlineCount = 0) then
          [EVENT.BuildBBoxCaches k .front, EVENT.BuildBBoxCaches k .back]
        else [])) ++ e2, ?_, ?_⟩
    · simp only [definitionsLoop]
      rw [h2, visitFootprint_calls, List.append_assoc]
    · intro e he
      rcases List.mem_append.mp he with h | h
      · rcases List.mem_cons.mp h with h | h
        · subst h
          rfl
        · split at h
          · simp only [List.mem_cons, List.mem_singleton, List.not_mem_nil, or_false] at h
            rcases h with h | h <;> subst h <;> rfl
          · simp at h
      · exact hk2 e h

theorem definitions_calls_kinds (E : COLLABORATORS) (p : PROVIDER) :
    ∀ e ∈ newCalls p.m_drcEngine (testFootprintCourtyardDefinitions E p).m_drcEngine,
      e.isComparison = false := by
  obtain ⟨evs, h, hk⟩ := definitionsLoop_log_kinds E p.m_board 0
    (p.m_drcEngine.ReportStage "Testing component courtyard definitions" 0 2)
  have hd : (testFootprintCourtyardDefinitions E p).m_drcEngine.m_log
      = p.m_drcEngine.m_log
        ++ (EVENT.ReportStage "Testing component courtyard definitions" 0 2 :: evs) := by
    simp only [testFootprintCourtyardDefinitions]
    rw [h]
    simp [DRC_ENGINE.ReportStage, DRC_ENGINE.record]
  intro e he
  simp only [newCalls] at he
  rw [hd, List.drop_left] at he
  rcases List.mem_cons.mp he with h | h
  · subst h
    rfl
  · exact hk e h

theorem scan_calls_kinds (E : COLLABORATORS) (p : PROVIDER) :
    ∀ e ∈ newCalls p.m_drcEngine (testOverlappingComponentCourtyards E p).m_drcEngine,
      e.isBuild = false := by
  obtain ⟨_, _, m2, _, _⟩ := testOverlapping_closed E p
  intro e he
  rw [m2] at he
  rcases List.mem_cons.mp he with h | h
  · subst h
    rfl
  obtain ⟨q, _, he⟩ := List.mem_flatMap.mp h
  obtain ⟨s, _, h | h | ⟨h, _⟩⟩ := mem_testPair_calls E q.i q.j q.footprint q.test _ he
  · subst h
    rfl
  · subst h
    rfl
  · subst h
    rfl

/-- The calls of a pass of the definition check, split around the visit of position `k`. -/
theorem definitions_calls_split (E : COLLABORATORS) (p : PROVIDER) (k : Nat) (C : MODULE)
    (hC : p.m_board[k]? = some C) :
    ∃ pre post,
      newCalls p.m_drcEngine (testFootprintCourtyardDefinitions E p).m_drcEngine
        = pre ++ (EVENT.BuildPolyCourtyard k ::
            (if (E.BuildPolyCourtyard C).1 = true
                ∧ ¬ ((E.BuildPolyCourtyard C).2.1.OutlineCount = 0
                  ∧ (E.BuildPolyCourtyard C).2.2.OutlineCount = 0) then
              [EVENT.BuildBBoxCaches k .front, EVENT.BuildBBoxCaches k .back]
            else [])) ++ post := by
  obtain ⟨hsplit, hlen⟩ := board_split p.m_board k C hC
  obtain ⟨e0, h0⟩ := definitionsLoop_log E (p.m_board.take k) 0
    (p.m_drcEngine.ReportStage "Testing component courtyard definitions" 0 2)
  obtain ⟨e2, h2⟩ := definitionsLoop_log E (p.m_board.drop (k + 1)) (k + 1)
    (visitFootprint E k C (engineAtVisit E p k)).2
  refine ⟨EVENT.ReportStage "Testing component courtyard definitions" 0 2 :: e0, e2, ?_⟩
  have hfinal : (testFootprintCourtyardDefinitions E p).m_drcEngine.m_log
      = p.m_drcEngine.m_log ++ ((EVENT.ReportStage "Testing component courtyard definitions"
          0 2 :: e0) ++ (EVENT.BuildPolyCourtyard k ::
            (if (E.BuildPolyCourtyard C).1 = true
                ∧ ¬ ((E.BuildPolyCourtyard C).2.1.OutlineCount = 0
                  ∧ (E.BuildPolyCourtyard C).2.2.OutlineCount = 0) then
              [EVENT.BuildBBoxCaches k .front, EVENT.BuildBBoxCaches k .back]
            else [])) ++ e2) := by
    simp only [testFootprintCourtyardDefinitions]
    conv_lhs => rw [hsplit]
    rw [definitionsLoop_append]
    simp only [definitionsLoop, hlen, Nat.zero_add]
    change (definitionsLoop E (k + 1) (List.drop (k + 1) p.m_board)
      (visitFootprint E k C (engineAtVisit E p k)).2).2.m_log = _
    rw [h2, visitFootprint_calls]
    simp only [engineAtVisit]
    rw [h0]
    simp [DRC_ENGINE.ReportStage, DRC_ENGINE.record, List.append_assoc]
  simp only [newCalls]
  rw [hfinal, List.drop_left]

theorem scan_markers_code (E : COLLABORATORS) (p : PROVIDER) :
    ∀ m ∈ newMarkers p.m_drcEngine (testOverlappingComponentCourtyards E p).m_drcEngine,
      m.item.m_errorCode = .DRCE_OVERLAPPING_FOOTPRINTS := by
  obtain ⟨_, m1, _⟩ := testOverlapping_closed E p
  rw [m1]
  intro m hm
  obtain ⟨q, _, rfl⟩ := List.mem_map.mp hm
  rfl

theorem Run_calls_split (E : COLLABORATORS) (p : PROVIDER) :
    newCalls p.m_drcEngine (Run E p).2.m_drcEngine
      = newCalls p.m_drcEngine (testFootprintCourtyardDefinitions E p).m_drcEngine
        ++ newCalls (testFootprintCourtyardDefinitions E p).m_drcEngine
            (Run E p).2.m_drcEngine := by
  obtain ⟨e0, h0⟩ := definitionsLoop_log E p.m_board 0
    (p.m_drcEngine.ReportStage "Testing component courtyard definitions" 0 2)
  have hd : (testFootprintCourtyardDefinitions E p).m_drcEngine.m_log
      = p.m_drcEngine.m_log
        ++ (EVENT.ReportStage "Testing component courtyard definitions" 0 2 :: e0) := by
    simp only [testFootprintCourtyardDefinitions]
    rw [h0]
    simp [DRC_ENGINE.ReportStage, DRC_ENGINE.record]
  have hlog := testOverlapping_log E (testFootprintCourtyardDefinitions E p)
  have hr : (Run E p).2 = testOverlappingComponentCourtyards E
      (testFootprintCourtyardDefinitions E p) := rfl
  rw [hr]
  generalize newCalls (testFootprintCourtyardDefinitions E p).m_drcEngine
    (testOverlappingComponentCourtyards E
      (testFootprintCourtyardDefinitions E p)).m_drcEngine = scanCalls at hlog ⊢
  simp only [newCalls]
  rw [hlog, hd, List.append_assoc, List.drop_left, List.drop_left]

/-! ### The definition check comes first -/

/-- C17: `Run` completes the definition check before the overlap check starts.  The
violations of one `Run` are missing-courtyard and malformed-courtyard violations followed by
overlapping-footprints violations, so none of the former comes after one of the latter; and
the calls of one `Run` are a first part in which every footprint of the board has its
courtyard built and no cached bounding box is read or boolean intersection computed,
followed by a part in which nothing is built. -/
theorem C17_definition_check_before_overlap_check (E : COLLABORATORS) (p : PROVIDER) :
    (∃ ds os, newMarkers p.m_drcEngine (Run E p).2.m_drcEngine = ds ++ os
      ∧ (∀ m ∈ ds, m.item.m_errorCode = .DRCE_MISSING_COURTYARD
          ∨ m.item.m_errorCode = .DRCE_MALFORMED_COURTYARD)
      ∧ (∀ m ∈ os, m.item.m_errorCode = .DRCE_OVERLAPPING_FOOTPRINTS))
    ∧ (∃ cs rest, newCalls p.m_drcEngine (Run E p).2.m_drcEngine = cs ++ rest
      ∧ (∀ k, k < p.m_board.length → EVENT.BuildPolyCourtyard k ∈ cs)
      ∧ (∀ e ∈ cs, e.isComparison = false)
      ∧ (∀ e ∈ rest, e.isBuild = false)) := by
  constructor
  · refine ⟨_, _, Run_markers E p, ?_, ?_⟩
    · obtain ⟨ms, h0, _, hms⟩ := definitionsLoop_markers E p.m_board 0
        (p.m_drcEngine.ReportStage "Testing component courtyard definitions" 0 2)
      have hd : (testFootprintCourtyardDefinitions E p).m_drcEngine.m_markers
          = p.m_drcEngine.m_markers ++ ms := by
        simp only [testFootprintCourtyardDefinitions]
        rw [h0]
        simp [DRC_ENGINE.ReportStage, DRC_ENGINE.record]
      intro m hm
      simp only [newMarkers] at hm
      rw [hd, List.drop_left] at hm
      obtain ⟨_, _, _, _, hc⟩ := hms m hm
      exact hc
    · intro m hm
      have hr : (Run E p).2 = testOverlappingComponentCourtyards E
          (testFootprintCourtyardDefinitions E p) := rfl
      rw [hr] at hm
      exact ((scan_markers_code E
        (testFootprintCourtyardDefinitions E p)) m hm)
  · refine ⟨_, _, Run_calls_split E p, ?_, definitions_calls_kinds E p, ?_⟩
    · intro k hk
      exact definitions_visits E p k p.m_board[k] (List.getElem?_eq_getElem hk)
    · have hr : (Run E p).2 = testOverlappingComponentCourtyards E
          (testFootprintCourtyardDefinitions E p) := rfl
      rw [hr]
      exact scan_calls_kinds E (testFootprintCourtyardDefinitions E p)

/-! ### A side without outlines is skipped -/

theorem sideHit_of_empty (E : COLLABORATORS) (a b : SHAPE_POLY_SET)
    (h : a.OutlineCount = 0 ∨ b.OutlineCount = 0) : sideHit E a b = false := by
  rcases h with h | h <;> simp [sideHit, h]

/-- The scan reads the cached bounding box of a courtyard polygon only if it has outlines. -/
theorem mem_scan_calls_bboxFromCaches (E : COLLABORATORS) (p : PROVIDER) (k : Nat)
    (side : SIDE) (C : MODULE) (hC : p.m_board[k]? = some C)
    (he : EVENT.BBoxFromCaches k side
      ∈ newCalls p.m_drcEngine (testOverlappingComponentCourtyards E p).m_drcEngine) :
    0 < (C.courtyard side).OutlineCount := by
  obtain ⟨_, _, m2, _, _⟩ := testOverlapping_closed E p
  rw [m2] at he
  rcases List.mem_cons.mp he with h | h
  · cases h
  obtain ⟨q, hq, he⟩ := List.mem_flatMap.mp h
  have hq' : q ∈ allPairs 0 p.m_board := (takeHits_initial _ _ _).subset hq
  rw [mem_allPairs] at hq'
  obtain ⟨_, _, h3, h4⟩ := hq'
  simp only [Nat.sub_zero] at h3 h4
  obtain ⟨s, hcount, h | h | ⟨h, _⟩⟩ := mem_testPair_calls E q.i q.j q.footprint q.test _ he
  · simp only [EVENT.BBoxFromCaches.injEq] at h
    obtain ⟨hk, hs⟩ := h
    rw [← hk, hC] at h3
    cases h3
    subst hs
    exact hcount.1
  · simp only [EVENT.BBoxFromCaches.injEq] at h
    obtain ⟨hk, hs⟩ := h
    rw [← hk, hC] at h4
    cases h4
    subst hs
    exact hcount.2
  · cases h

/-- C18: each side is taken independently.  For footprints `A`, `B` at board positions `i`,
`j` and a side on which one of the two courtyard polygons has zero outlines: the loop body
of the pair makes no call for that side (it reads neither cached bounding box and computes
no boolean intersection), the scan computes no boolean intersection for that side of the
pair and never reads the cached bounding box of a polygon without outlines, and `overlap`
is decided by the other side alone; when the other side has a polygon without outlines too
(front courtyard on one footprint only, back courtyard on the other only), the pair is
never reported. -/
theorem C18_side_without_outlines_is_skipped (E : COLLABORATORS) (p : PROVIDER)
    (i j : Nat) (A B : MODULE) (side : SIDE)
    (hA : p.m_board[i]? = some A) (hB : p.m_board[j]? = some B)
    (hempty : (A.courtyard side).OutlineCount = 0 ∨ (B.courtyard side).OutlineCount = 0) :
    (∀ e ∈ (testPair E i j A B).calls,
      e ≠ .BBoxFromCaches i side ∧ e ≠ .BBoxFromCaches j side
        ∧ e ≠ .BooleanIntersection i j side)
    ∧ EVENT.BooleanIntersection i j side
        ∉ newCalls p.m_drcEngine (testOverlappingComponentCourtyards E p).m_drcEngine
    ∧ ((A.courtyard side).OutlineCount = 0 → EVENT.BBoxFromCaches i side
        ∉ newCalls p.m_drcEngine (testOverlappingComponentCourtyards E p).m_drcEngine)
    ∧ ((B.courtyard side).OutlineCount = 0 → EVENT.BBoxFromCaches j side
        ∉ newCalls p.m_drcEngine (testOverlappingComponentCourtyards E p).m_drcEngine)
    ∧ (testPair E i j A B).overlap
        = sideHit E (A.courtyard side.other) (B.courtyard side.other)
    ∧ (((A.courtyard side.other).OutlineCount = 0
          ∨ (B.courtyard side.other).OutlineCount = 0) →
        ∀ m ∈ newMarkers p.m_drcEngine
          (testOverlappingComponentCourtyards E p).m_drcEngine, m.item.m_items ≠ [i, j]) := by
  have hnot : ¬ (0 < (A.courtyard side).OutlineCount ∧ 0 < (B.courtyard side).OutlineCount) := by
    rcases hempty with h | h <;> omega
  refine ⟨?_, ?_, ?_, ?_, ?_, ?_⟩
  · intro e he
    obtain ⟨s, hcount, hcases⟩ := mem_testPair_calls E i j A B e he
    have hs : s ≠ side := fun h => hnot (h ▸ hcount)
    rcases hcases with h | h | ⟨h, _⟩ <;> subst h <;> simp [hs]
  · intro he
    exact hnot (mem_scan_calls_booleanIntersection E p i j side A B hA hB he).1
  · intro h he
    have := mem_scan_calls_bboxFromCaches E p i side A hA he
    omega
  · intro h he
    have := mem_scan_calls_bboxFromCaches E p j side B hB he
    omega
  · rw [testPair_overlap]
    cases side
    · have := sideHit_of_empty E A.GetPolyCourtyardFront B.GetPolyCourtyardFront hempty
      simp [this, SIDE.other, MODULE.courtyard]
    · have := sideHit_of_empty E A.GetPolyCourtyardBack B.GetPolyCourtyardBack hempty
      simp [this, SIDE.other, MODULE.courtyard]
  · intro hother m hm hitems
    obtain ⟨_, hhit⟩ := mem_scan_markers_items E p i j A B hA hB m hm hitems
    cases side
    · have h1 := sideHit_of_empty E A.GetPolyCourtyardFront B.GetPolyCourtyardFront hempty
      have h2 := sideHit_of_empty E A.GetPolyCourtyardBack B.GetPolyCourtyardBack hother
      rw [h1, h2] at hhit
      simp at hhit
    · have h1 := sideHit_of_empty E A.GetPolyCourtyardBack B.GetPolyCourtyardBack hempty
      have h2 := sideHit_of_empty E A.GetPolyCourtyardFront B.GetPolyCourtyardFront hother
      rw [h1, h2] at hhit
      simp at hhit

/-- C18 on `oppositeSidesBoard` (a front courtyard only above a back courtyard only): the
scan makes no call but the stage report and reports nothing. -/
theorem C18_witness_opposite_sides :
    newCalls oppositeSidesChecked.m_drcEngine
        (testOverlappingComponentCourtyards sampleCollaborators
          oppositeSidesChecked).m_drcEngine
      = [.ReportStage "Testing component courtyard overlap" 0 2]
    ∧ ∀ m ∈ newMarkers oppositeSidesChecked.m_drcEngine
        (testOverlappingComponentCourtyards sampleCollaborators
          oppositeSidesChecked).m_drcEngine, m.item.m_items ≠ [0, 1] :=
  ⟨by decide,
   (C18_side_without_outlines_is_skipped sampleCollaborators oppositeSidesChecked 0 1
    (expectedVisit sampleCollaborators 0 (footprintAt ⟨0, 0⟩ (rectangleOn F_CrtYd 0 0 10 10))).2
    (expectedVisit sampleCollaborators 1 (footprintAt ⟨5, 5⟩ (rectangleOn B_CrtYd 5 5 15 15))).2
    .front (by decide) (by decide) (by decide)).2.2.2.2.2 (by decide)⟩

/-! ### Footprints with a courtyard -/

/-- C19: for a footprint `C` at board position `k` whose `BuildPolyCourtyard` succeeds with
an outline on the front or on the back courtyard, `testFootprintCourtyardDefinitions`
reports no violation for `C` and builds the bounding-box caches of both its front and its
back courtyard polygon, right after building the courtyards, whatever the error-limit
state. -/
theorem C19_courtyard_present_builds_both_caches (E : COLLABORATORS) (p : PROVIDER)
    (k : Nat) (C : MODULE) (hC : p.m_board[k]? = some C)
    (hok : (E.BuildPolyCourtyard C).1 = true)
    (hsome : ¬ ((E.BuildPolyCourtyard C).2.1.OutlineCount = 0
      ∧ (E.BuildPolyCourtyard C).2.2.OutlineCount = 0)) :
    (newMarkers p.m_drcEngine (testFootprintCourtyardDefinitions E p).m_drcEngine).filter
        (fun m => decide (k ∈ m.item.m_items)) = []
    ∧ (testFootprintCourtyardDefinitions E p).m_board[k]?
        = some { C with
            m_poly_courtyard_front := (E.BuildPolyCourtyard C).2.1.BuildBBoxCaches E
            m_poly_courtyard_back := (E.BuildPolyCourtyard C).2.2.BuildBBoxCaches E }
    ∧ (∃ pre post,
        newCalls p.m_drcEngine (testFootprintCourtyardDefinitions E p).m_drcEngine
          = pre ++ [EVENT.BuildPolyCourtyard k, EVENT.BuildBBoxCaches k .front,
              EVENT.BuildBBoxCaches k .back] ++ post) := by
  refine ⟨?_, ?_, ?_⟩
  · rw [definitions_markers_of E p k C hC, visitFootprint_newMarkers]
    simp [hok, hsome]
  · rw [definitions_board_at E p k C hC]
    have hsome' : ¬ ((C.BuildPolyCourtyard E).2.GetPolyCourtyardFront.OutlineCount = 0
        ∧ (C.BuildPolyCourtyard E).2.GetPolyCourtyardBack.OutlineCount = 0) := hsome
    simp only [expectedVisit, hok, if_true, hsome', if_false]
    rfl
  · obtain ⟨pre, post, h⟩ := definitions_calls_split E p k C hC
    rw [if_pos ⟨hok, hsome⟩] at h
    exact ⟨pre, post, h⟩

/-- C19 on the first of `twoRectangles`, with limit 0 for every code: no violation, and the
cache of the front courtyard `(0,0)-(10,10)` holds the box at `(0, 0)` of size
`(10, 10)`. -/
theorem C19_witness_two_rectangles :
    (newMarkers (freshEngine 0)
        (testFootprintCourtyardDefinitions sampleCollaborators
          ⟨twoRectangles, freshEngine 0⟩).m_drcEngine).filter
        (fun m => decide (0 ∈ m.item.m_items)) = []
    ∧ ((testFootprintCourtyardDefinitions sampleCollaborators
          ⟨twoRectangles, freshEngine 0⟩).m_board[0]?).map
        (fun C => C.m_poly_courtyard_front.BBoxFromCaches) = some ⟨⟨0, 0⟩, ⟨10, 10⟩⟩ := by
  have h := C19_courtyard_present_builds_both_caches sampleCollaborators
    ⟨twoRectangles, freshEngine 0⟩ 0 (footprintAt ⟨0, 0⟩ (rectangleOn F_CrtYd 0 0 10 10))
    (by decide) (by decide) (by decide)
  refine ⟨h.1, ?_⟩
  rw [h.2.1]
  decide

/-! ### Cache before use -/

/-- For a footprint whose `BuildPolyCourtyard` succeeded, a cached bounding box that the
overlap check reads was built by the definition check of the same `Run`, for the contours
the polygon has. -/
theorem cache_built_when_build_succeeded (E : COLLABORATORS) (p : PROVIDER) (k : Nat)
    (C : MODULE) (side : SIDE) (hC : p.m_board[k]? = some C)
    (hok : (E.BuildPolyCourtyard C).1 = true)
    (he : EVENT.BBoxFromCaches k side
      ∈ newCalls (testFootprintCourtyardDefinitions E p).m_drcEngine
          (Run E p).2.m_drcEngine) :
    EVENT.BuildBBoxCaches k side
        ∈ newCalls p.m_drcEngine (testFootprintCourtyardDefinitions E p).m_drcEngine
    ∧ ((expectedVisit E k C).2.courtyard side).BBoxFromCaches
        = E.BBox ((expectedVisit E k C).2.courtyard side).m_polys := by
  have hboard := definitions_board_at E p k C hC
  have hr : (Run E p).2 = testOverlappingComponentCourtyards E
      (testFootprintCourtyardDefinitions E p) := rfl
  rw [hr] at he
  have hpos := mem_scan_calls_bboxFromCaches E (testFootprintCourtyardDefinitions E p) k side
    _ hboard he
  by_cases hzero : (E.BuildPolyCourtyard C).2.1.OutlineCount = 0
      ∧ (E.BuildPolyCourtyard C).2.2.OutlineCount = 0
  · exfalso
    have hzero' : (C.BuildPolyCourtyard E).2.GetPolyCourtyardFront.OutlineCount = 0
        ∧ (C.BuildPolyCourtyard E).2.GetPolyCourtyardBack.OutlineCount = 0 := hzero
    simp only [expectedVisit, hok, if_true, hzero', and_self] at hpos
    cases side
    · have h0 : ((C.BuildPolyCourtyard E).2.courtyard .front).OutlineCount = 0 := hzero.1
      omega
    · have h0 : ((C.BuildPolyCourtyard E).2.courtyard .back).OutlineCount = 0 := hzero.2
      omega
  · have hzero' : ¬ ((C.BuildPolyCourtyard E).2.GetPolyCourtyardFront.OutlineCount = 0
        ∧ (C.BuildPolyCourtyard E).2.GetPolyCourtyardBack.OutlineCount = 0) := hzero
    constructor
    · obtain ⟨pre, post, h⟩ := definitions_calls_split E p k C hC
      rw [if_pos ⟨hok, hzero⟩] at h
      rw [h]
      cases side <;> simp
    · simp only [expectedVisit, hok, if_true, hzero', if_false]
      cases side <;> rfl

/-- C21: on `partlyBuiltBoard` the first footprint fails to build and keeps its front
courtyard polygon (closed front outline, open back outline).  The definition check builds no
bounding-box cache for it (the `else` branch of line 119 has no `BuildBBoxCaches`), yet the
overlap check reads the cached bounding box of its front courtyard (line 160); the box it
gets, at `(0, 0)` with size `(0, 0)`, is not the bounding box of the contours, at `(0, 0)`
with size `(10, 10)`. -/
theorem C21_cache_read_without_being_built :
    (sampleCollaborators.BuildPolyCourtyard
        (footprintAt ⟨0, 0⟩
          (rectangleOn F_CrtYd 0 0 10 10 ++ openOutlineOn B_CrtYd 0 0 10 10))).1 = false
    ∧ EVENT.BuildBBoxCaches 0 .front
        ∉ newCalls (freshEngine 10)
            (testFootprintCourtyardDefinitions sampleCollaborators
              ⟨partlyBuiltBoard, freshEngine 10⟩).m_drcEngine
    ∧ EVENT.BBoxFromCaches 0 .front
        ∈ newCalls
            (testFootprintCourtyardDefinitions sampleCollaborators
              ⟨partlyBuiltBoard, freshEngine 10⟩).m_drcEngine
            (Run sampleCollaborators ⟨partlyBuiltBoard, freshEngine 10⟩).2.m_drcEngine
    ∧ ((testFootprintCourtyardDefinitions sampleCollaborators
          ⟨partlyBuiltBoard, freshEngine 10⟩).m_board.map
        (fun C => (C.m_poly_courtyard_front.BBoxFromCaches,
          sampleCollaborators.BBox C.m_poly_courtyard_front.m_polys))).take 1
      = [(⟨⟨0, 0⟩, ⟨0, 0⟩⟩, ⟨⟨0, 0⟩, ⟨10, 10⟩⟩)] := by
  decide

/-! ### The shortcut of the outer loop -/

theorem outerLoopPlain_eq_runPairs (E : COLLABORATORS) :
    ∀ (l : List MODULE) (i : Nat) (eng : DRC_ENGINE),
      outerLoopPlain E i l eng = (runPairs E (allPairs i l) eng).1 := by
  intro l
  induction l with
  | nil => intro i eng; rfl
  | cons fp rest ih =>
    intro i eng
    simp only [outerLoopPlain, allPairs, runPairs_append, innerLoop_eq_runPairs]
    split
    · rfl
    · exact ih _ _

/-- C22: the shortcut of the outer loop (skip a footprint whose front and back courtyards
both have zero outlines) is a pure optimisation.  For every board and every engine state
the scan with the shortcut leaves the same provider as the plain scan over all pairs
`i < j`: the same sequence of violations, the same calls (so the same boolean
intersections), the same counters. -/
theorem C22_outer_shortcut_is_a_pure_optimisation (E : COLLABORATORS) (p : PROVIDER) :
    testOverlappingComponentCourtyards E p = testOverlappingPlain E p
    ∧ (testOverlappingComponentCourtyards E p).m_drcEngine.m_markers
        = (testOverlappingPlain E p).m_drcEngine.m_markers
    ∧ (testOverlappingComponentCourtyards E p).m_drcEngine.m_log.filter
          EVENT.isBooleanIntersection
        = (testOverlappingPlain E p).m_drcEngine.m_log.filter
          EVENT.isBooleanIntersection := by
  have h : testOverlappingComponentCourtyards E p = testOverlappingPlain E p := by
    simp only [testOverlappingComponentCourtyards, testOverlappingPlain,
      outerLoop_eq_runPairs, outerLoopPlain_eq_runPairs]
  exact ⟨h, by rw [h], by rw [h]⟩

/-! ### Number and order of the violations -/

theorem definitionsLoop_positions (E : COLLABORATORS) :
    ∀ (l : List MODULE) (k : Nat) (eng : DRC_ENGINE),
      ∃ (ms : List MARKER) (xs : List Nat),
        (definitionsLoop E k l eng).2.m_markers = eng.m_markers ++ ms
        ∧ ms.map (fun m => m.item.m_items) = xs.map (fun x => [x])
        ∧ xs.Pairwise (· < ·)
        ∧ ∀ x ∈ xs, k ≤ x ∧ x < k + l.length := by
  intro l
  induction l with
  | nil => intro k eng; exact ⟨[], [], by simp [definitionsLoop], rfl, List.Pairwise.nil, by simp⟩
  | cons fp rest ih =>
    intro k eng
    obtain ⟨ms1, h1, hl1, hm1⟩ := visitFootprint_markers E k fp eng
    obtain ⟨ms2, xs2, h2, hmap2, hp2, hx2⟩ := ih (k + 1) (visitFootprint E k fp eng).2
    have hfinal : (definitionsLoop E k (fp :: rest) eng).2.m_markers
        = eng.m_markers ++ (ms1 ++ ms2) := by
      simp only [definitionsLoop]
      rw [h2, h1, List.append_assoc]
    match ms1, hl1, hm1 with
    | [], _, _ =>
      refine ⟨ms2, xs2, by simpa using hfinal, hmap2, hp2, ?_⟩
      intro x hx
      have := hx2 x hx
      simp only [List.length_cons]
      omega
    | [m], _, hm =>
      refine ⟨m :: ms2, k :: xs2, by simpa using hfinal, ?_, ?_, ?_⟩
      · simp only [List.map_cons, hmap2, (hm m (by simp)).1]
      · rw [List.pairwise_cons]
        exact ⟨fun x hx => by have := hx2 x hx; omega, hp2⟩
      · intro x hx
        simp only [List.length_cons]
        rcases List.mem_cons.mp hx with h | h
        · omega
        · have := hx2 x h
          omega
    | _ :: _ :: _, hl, _ => simp at hl

theorem length_le_one_of_nodup_of_all_eq {α : Type} (c : α) :
    ∀ l : List α, l.Nodup → (∀ a ∈ l, a = c) → l.length ≤ 1 := by
  intro l hn hall
  match l, hn, hall with
  | [], _, _ => simp
  | [_], _, _ => simp
  | a :: b :: _, hn, hall =>
    exfalso
    have ha := hall a (by simp)
    have hb := hall b (by simp)
    rw [List.nodup_cons] at hn
    exact hn.1 (by rw [ha, hb]; simp)

/-- C23: on a board with `n` footprints, `testFootprintCourtyardDefinitions` reports at most
`n` violations; each references one footprint and the referenced positions are strictly
increasing, so the violations come in the footprint order of the board; at most one
violation references a given footprint, and two reported violations about the same footprint
are one and the same, so no footprint gets both a missing-courtyard and a
malformed-courtyard violation. -/
theorem C23_at_most_one_violation_per_footprint (E : COLLABORATORS) (p : PROVIDER) :
    (newMarkers p.m_drcEngine (testFootprintCourtyardDefinitions E p).m_drcEngine).length
        ≤ p.m_board.length
    ∧ (∃ xs : List Nat,
        (newMarkers p.m_drcEngine (testFootprintCourtyardDefinitions E p).m_drcEngine).map
            (fun m => m.item.m_items) = xs.map (fun x => [x])
        ∧ xs.Pairwise (· < ·) ∧ ∀ x ∈ xs, x < p.m_board.length)
    ∧ (∀ k : Nat,
        ((newMarkers p.m_drcEngine (testFootprintCourtyardDefinitions E p).m_drcEngine).filter
          (fun m => decide (k ∈ m.item.m_items))).length ≤ 1)
    ∧ (∀ a ∈ newMarkers p.m_drcEngine (testFootprintCourtyardDefinitions E p).m_drcEngine,
        ∀ b ∈ newMarkers p.m_drcEngine (testFootprintCourtyardDefinitions E p).m_drcEngine,
          a.item.m_items = b.item.m_items → a = b) := by
  obtain ⟨ms, xs, h0, hmap, hp, hx⟩ := definitionsLoop_positions E p.m_board 0
    (p.m_drcEngine.ReportStage "Testing component courtyard definitions" 0 2)
  have hnew : newMarkers p.m_drcEngine (testFootprintCourtyardDefinitions E p).m_drcEngine
      = ms := by
    simp only [newMarkers, testFootprintCourtyardDefinitions]
    rw [h0]
    simp [DRC_ENGINE.ReportStage, DRC_ENGINE.record]
  rw [hnew]
  have hxs : xs.Nodup := hp.imp (fun h => Nat.ne_of_lt h)
  have hinj : Function.Injective (fun x : Nat => [x]) := fun a b h => by simpa using h
  have hnodup : (ms.map (fun m => m.item.m_items)).Nodup := by
    rw [hmap]
    exact hxs.map hinj
  have hlen : ms.length = xs.length := by
    have := congrArg List.length hmap
    simpa using this
  have hbound : ∀ x ∈ xs, x < p.m_board.length := fun x h => by
    have := hx x h
    omega
  refine ⟨?_, ⟨xs, hmap, hp, hbound⟩, ?_, ?_⟩
  · rw [hlen]
    have hsub : xs ⊆ List.range p.m_board.length := fun x h =>
      List.mem_range.mpr (hbound x h)
    have := (List.subperm_of_subset hxs hsub).length_le
    simpa using this
  · intro k
    have hsub : ((ms.filter (fun m => decide (k ∈ m.item.m_items))).map
        (fun m => m.item.m_items)).Nodup :=
      hnodup.sublist ((List.filter_sublist _).map _)
    have hall : ∀ a ∈ (ms.filter (fun m => decide (k ∈ m.item.m_items))).map
        (fun m => m.item.m_items), a = [k] := by
      intro a ha
      obtain ⟨m, hm, rfl⟩ := List.mem_map.mp ha
      obtain ⟨hm1, hm2⟩ := List.mem_filter.mp hm
      have hmem : m.item.m_items ∈ ms.map (fun m => m.item.m_items) :=
        List.mem_map.mpr ⟨m, hm1, rfl⟩
      rw [hmap] at hmem
      obtain ⟨x, _, hxe⟩ := List.mem_map.mp hmem
      have hxe2 : m.item.m_items = [x] := hxe.symm
      rw [hxe2] at hm2
      simp only [List.mem_singleton, decide_eq_true_eq] at hm2
      show m.item.m_items = [k]
      rw [hxe2, hm2]
    have := length_le_one_of_nodup_of_all_eq [k] _ hsub hall
    simpa using this
  · intro a ha b hb hab
    exact List.inj_on_of_nodup_map hnodup ha hb hab

theorem length_pairsWith (i : Nat) (footprint : MODULE) :
    ∀ (rest : List MODULE) (j : Nat), (pairsWith i footprint j rest).length = rest.length := by
  intro rest
  induction rest with
  | nil => intro j; rfl
  | cons t rest ih => intro j; simp [pairsWith, ih]

theorem two_mul_length_allPairs :
    ∀ (l : List MODULE) (k : Nat), 2 * (allPairs k l).length = l.length * (l.length - 1) := by
  intro l
  induction l with
  | nil => intro k; rfl
  | cons fp rest ih =>
    intro k
    simp only [allPairs, List.length_append, length_pairsWith, List.length_cons,
      Nat.add_sub_cancel, Nat.mul_add, ih]
    cases rest.length with
    | zero => rfl
    | succ m =>
      simp only [Nat.add_sub_cancel]
      ring

/-- C24: on a board with `n` footprints, the violations of one scan are reported in strictly
increasing lexicographic order of their position pairs `(i, j)`, there are at most
`n * (n - 1) / 2` of them, and a board with zero or one footprint yields none. -/
theorem C24_overlaps_in_scan_order_and_bounded (E : COLLABORATORS) (p : PROVIDER) :
    (∃ ks : List (Nat × Nat),
        (newMarkers p.m_drcEngine (testOverlappingComponentCourtyards E p).m_drcEngine).map
            (fun m => m.item.m_items) = ks.map (fun a => [a.1, a.2])
        ∧ ks.Pairwise scanBefore)
    ∧ (newMarkers p.m_drcEngine (testOverlappingComponentCourtyards E p).m_drcEngine).length
        ≤ p.m_board.length * (p.m_board.length - 1) / 2
    ∧ (p.m_board.length ≤ 1 →
        newMarkers p.m_drcEngine (testOverlappingComponentCourtyards E p).m_drcEngine = []) := by
  obtain ⟨_, m1, _⟩ := testOverlapping_closed E p
  have hsub : (((allPairs 0 p.m_board).filter (SCAN_PAIR.overlaps E)).take
      (scanBudget p.m_drcEngine)).Sublist (allPairs 0 p.m_board) :=
    (List.take_sublist _ _).trans (List.filter_sublist _)
  have hlen : (newMarkers p.m_drcEngine
      (testOverlappingComponentCourtyards E p).m_drcEngine).length
      ≤ p.m_board.length * (p.m_board.length - 1) / 2 := by
    rw [m1, List.length_map]
    have h1 := hsub.length_le
    have h2 := two_mul_length_allPairs p.m_board 0
    omega
  refine ⟨⟨(((allPairs 0 p.m_board).filter (SCAN_PAIR.overlaps E)).take
      (scanBudget p.m_drcEngine)).map SCAN_PAIR.key, ?_, ?_⟩, hlen, ?_⟩
  · rw [m1]
    simp [List.map_map, Function.comp_def, SCAN_PAIR.marker, SCAN_PAIR.key, DRC_ITEM.SetItems]
  · rw [List.pairwise_map]
    exact (pairwise_allPairs p.m_board 0).sublist hsub
  · intro hn
    have h0 : p.m_board.length * (p.m_board.length - 1) / 2 = 0 := by
      rcases Nat.le_one_iff_eq_zero_or_eq_one.mp hn with h | h <;> simp [h]
    rw [h0] at hlen
    exact List.length_eq_zero.mp (Nat.le_zero.mp hlen)

end test

namespace pcbnew

/-! ## Constraints panel -/

theorem Clamp_bounds (lower value upper : Int) (h : lower ≤ upper) :
    lower ≤ Clamp lower value upper ∧ Clamp lower value upper ≤ upper := by
  unfold Clamp
  split_ifs <;> omega

theorem Clamp_of_mem (lower value upper : Int) (h1 : lower ≤ value) (h2 : value ≤ upper) :
    Clamp lower value upper = value := by
  unfold Clamp
  split_ifs <;> omega

theorem toInt_of_range (v : Int) (h1 : INT_MIN ≤ v) (h2 : v ≤ INT_MAX) : toInt v = v := by
  unfold toInt
  unfold INT_MIN at h1
  unfold INT_MAX at h2
  omega

theorem TransferDataFromWindow_cases (E : PANEL_COLLABORATORS)
    (p : PANEL_SETUP_FEATURE_CONSTRAINTS) :
    ((E.Validate p.m_minClearance 0 10 .INCHES = false
        ∨ E.Validate p.m_trackMinWidth 0 10 .INCHES = false
        ∨ E.Validate p.m_viaMinAnnulus 0 10 .INCHES = false
        ∨ E.Validate p.m_viaMinSize 0 10 .INCHES = false
        ∨ E.Validate p.m_edgeClearance 0 10 .INCHES = false
        ∨ E.Validate p.m_throughHoleMin 2 1000 .MILS = false
        ∨ E.Validate p.m_holeToHoleMin 0 10 .INCHES = false)
      ∧ p.TransferDataFromWindow E = (false, p))
    ∨ ((E.Validate p.m_minClearance 0 10 .INCHES = true
        ∧ E.Validate p.m_trackMinWidth 0 10 .INCHES = true
        ∧ E.Validate p.m_viaMinAnnulus 0 10 .INCHES = true
        ∧ E.Validate p.m_viaMinSize 0 10 .INCHES = true
        ∧ E.Validate p.m_edgeClearance 0 10 .INCHES = true
        ∧ E.Validate p.m_throughHoleMin 2 1000 .MILS = true
        ∧ E.Validate p.m_holeToHoleMin 0 10 .INCHES = true)
      ∧ (p.TransferDataFromWindow E).1 = true
      ∧ (p.TransferDataFromWindow E).2.m_BrdSettings.m_MaxError
          = Clamp E.minErrorSize (toInt p.m_maxError.GetValue) E.maxErrorSize) := by
  unfold PANEL_SETUP_FEATURE_CONSTRAINTS.TransferDataFromWindow
  cases E.Validate p.m_minClearance 0 10 .INCHES
  · exact Or.inl ⟨Or.inl rfl, rfl⟩
  cases E.Validate p.m_trackMinWidth 0 10 .INCHES
  · exact Or.inl ⟨Or.inr (Or.inl rfl), rfl⟩
  cases E.Validate p.m_viaMinAnnulus 0 10 .INCHES
  · exact Or.inl ⟨Or.inr (Or.inr (Or.inl rfl)), rfl⟩
  cases E.Validate p.m_viaMinSize 0 10 .INCHES
  · exact Or.inl ⟨Or.inr (Or.inr (Or.inr (Or.inl rfl))), rfl⟩
  cases E.Validate p.m_edgeClearance 0 10 .INCHES
  · exact Or.inl ⟨Or.inr (Or.inr (Or.inr (Or.inr (Or.inl rfl)))), rfl⟩
  cases E.Validate p.m_throughHoleMin 2 1000 .MILS
  · exact Or.inl ⟨Or.inr (Or.inr (Or.inr (Or.inr (Or.inr (Or.inl rfl))))), rfl⟩
  cases E.Validate p.m_holeToHoleMin 0 10 .INCHES
  · exact Or.inl ⟨Or.inr (Or.inr (Or.inr (Or.inr (Or.inr (Or.inr rfl))))), rfl⟩
  exact Or.inr ⟨⟨rfl, rfl, rfl, rfl, rfl, rfl, rfl⟩, rfl, rfl⟩

theorem TransferDataFromWindow_of_valid (E : PANEL_COLLABORATORS)
    (p : PANEL_SETUP_FEATURE_CONSTRAINTS)
    (h : (p.TransferDataFromWindow E).1 = true) :
    (p.TransferDataFromWindow E).2.m_BrdSettings.m_MaxError
      = Clamp E.minErrorSize (toInt p.m_maxError.GetValue) E.maxErrorSize := by
  rcases TransferDataFromWindow_cases E p with ⟨_, h0⟩ | ⟨_, _, h1⟩
  · rw [h0] at h
    exact absurd h Bool.false_ne_true
  · exact h1

/-- C26: `TransferDataFromWindow` is atomic on a validation failure.  If one of the seven
range validations (minimum clearance, track width, via annulus, via size, edge clearance,
through-hole drill, hole-to-hole) fails, the function returns `false` and the panel, with the
board design settings it points to, is what it was; and it returns `true` only when all
seven validations passed. -/
theorem C26_validation_failure_changes_nothing (E : PANEL_COLLABORATORS)
    (p : PANEL_SETUP_FEATURE_CONSTRAINTS) :
    ((E.Validate p.m_minClearance 0 10 .INCHES = false
        ∨ E.Validate p.m_trackMinWidth 0 10 .INCHES = false
        ∨ E.Validate p.m_viaMinAnnulus 0 10 .INCHES = false
        ∨ E.Validate p.m_viaMinSize 0 10 .INCHES = false
        ∨ E.Validate p.m_edgeClearance 0 10 .INCHES = false
        ∨ E.Validate p.m_throughHoleMin 2 1000 .MILS = false
        ∨ E.Validate p.m_holeToHoleMin 0 10 .INCHES = false) →
      p.TransferDataFromWindow E = (false, p))
    ∧ ((p.TransferDataFromWindow E).1 = false →
        (p.TransferDataFromWindow E).2.m_BrdSettings = p.m_BrdSettings)
    ∧ ((p.TransferDataFromWindow E).1 = true →
        E.Validate p.m_minClearance 0 10 .INCHES = true
        ∧ E.Validate p.m_trackMinWidth 0 10 .INCHES = true
        ∧ E.Validate p.m_viaMinAnnulus 0 10 .INCHES = true
        ∧ E.Validate p.m_viaMinSize 0 10 .INCHES = true
        ∧ E.Validate p.m_edgeClearance 0 10 .INCHES = true
        ∧ E.Validate p.m_throughHoleMin 2 1000 .MILS = true
        ∧ E.Validate p.m_holeToHoleMin 0 10 .INCHES = true) := by
  rcases TransferDataFromWindow_cases E p with ⟨_, h0⟩ | ⟨hall, h1, _⟩
  · refine ⟨fun _ => h0, fun _ => by rw [h0], fun h => ?_⟩
    rw [h0] at h
    exact absurd h Bool.false_ne_true
  · refine ⟨fun hfail => ?_, fun h => ?_, fun _ => hall⟩
    · obtain ⟨a1, a2, a3, a4, a5, a6, a7⟩ := hall
      rw [a1, a2, a3, a4, a5, a6, a7] at hfail
      simp at hfail
    · rw [h1] at h
      exact absurd h (by decide)

/-- C26 with a through-hole minimum of 1 mil entered: the sixth validation fails and
the transfer returns `false` with the panel unchanged. -/
theorem C26_witness_through_hole_too_small :
    samplePanelCollaborators.Validate (samplePanel 5000 25400).m_throughHoleMin 2 1000 .MILS
        = false
    ∧ (samplePanel 5000 25400).TransferDataFromWindow samplePanelCollaborators
        = (false, samplePanel 5000 25400) :=
  ⟨by decide,
   (C26_validation_failure_changes_nothing samplePanelCollaborators (samplePanel 5000 25400)).1
     (Or.inr (Or.inr (Or.inr (Or.inr (Or.inr (Or.inl (by decide)))))))⟩

/-- C29: after a successful `TransferDataFromWindow`, the stored `m_MaxError` lies between the
two bounds `IU_PER_MM * MINIMUM_ERROR_SIZE_MM` and `IU_PER_MM * MAXIMUM_ERROR_SIZE_MM`
inclusive, whatever integer was entered, and it is the entered value when that value lies
between the bounds.  The bounds are `int` values, the lower one not above the upper one. -/
theorem C29_max_error_is_clamped (E : PANEL_COLLABORATORS)
    (p : PANEL_SETUP_FEATURE_CONSTRAINTS)
    (hmin : INT_MIN ≤ E.minErrorSize) (hord : E.minErrorSize ≤ E.maxErrorSize)
    (hmax : E.maxErrorSize ≤ INT_MAX)
    (hok : (p.TransferDataFromWindow E).1 = true) :
    E.minErrorSize ≤ (p.TransferDataFromWindow E).2.m_BrdSettings.m_MaxError
    ∧ (p.TransferDataFromWindow E).2.m_BrdSettings.m_MaxError ≤ E.maxErrorSize
    ∧ (E.minErrorSize ≤ p.m_maxError.GetValue → p.m_maxError.GetValue ≤ E.maxErrorSize →
        (p.TransferDataFromWindow E).2.m_BrdSettings.m_MaxError = p.m_maxError.GetValue) := by
  rw [TransferDataFromWindow_of_valid E p hok]
  refine ⟨(Clamp_bounds _ _ _ hord).1, (Clamp_bounds _ _ _ hord).2, ?_⟩
  intro h1 h2
  rw [toInt_of_range _ (le_trans hmin h1) (le_trans h2 hmax)]
  exact Clamp_of_mem _ _ _ h1 h2

/-- C29 with an entered error size of 5000000000 internal units, beyond the `int` range: it
is stored as a value between 1000 and 100000. -/
theorem C29_witness_huge_error_size :
    ((samplePanel 5000000000 300000).TransferDataFromWindow samplePanelCollaborators).1 = true
    ∧ (1000 : Int) ≤ ((samplePanel 5000000000 300000).TransferDataFromWindow
          samplePanelCollaborators).2.m_BrdSettings.m_MaxError
    ∧ ((samplePanel 5000000000 300000).TransferDataFromWindow
          samplePanelCollaborators).2.m_BrdSettings.m_MaxError ≤ (100000 : Int) :=
  ⟨by decide,
   (C29_max_error_is_clamped samplePanelCollaborators (samplePanel 5000000000 300000)
      (by decide) (by decide) (by decide) (by decide)).1,
   (C29_max_error_is_clamped samplePanelCollaborators (samplePanel 5000000000 300000)
      (by decide) (by decide) (by decide) (by decide)).2.1⟩

/-! ## Print dialog -/

theorem foldl_setLayerStep (d : DIALOG_PRINT_PCBNEW) :
    ∀ (l : List Nat) (s : PCBNEW_PRINTOUT_SETTINGS),
      (l.foldl d.setLayerStep s).m_pageCount
          = s.m_pageCount + ((l.filter d.isLayerEnabled).length : Int)
      ∧ (l.foldl d.setLayerStep s).m_noEdgeLayer = s.m_noEdgeLayer
      ∧ ∀ layer, (l.foldl d.setLayerStep s).m_layerSet.test layer
          = (s.m_layerSet.test layer || (decide (layer ∈ l) && d.isLayerEnabled layer)) := by
  intro l
  induction l with
  | nil => intro s; simp
  | cons a rest ih =>
    intro s
    obtain ⟨h1, h2, h3⟩ := ih (d.setLayerStep s a)
    simp only [List.foldl_cons]
    rw [h1, h2]
    refine ⟨?_, ?_, ?_⟩
    · cases ha : d.isLayerEnabled a
      · simp [DIALOG_PRINT_PCBNEW.setLayerStep, ha]
      · simp [DIALOG_PRINT_PCBNEW.setLayerStep, ha]
        omega
    · cases ha : d.isLayerEnabled a <;> simp [DIALOG_PRINT_PCBNEW.setLayerStep, ha]
    · intro layer
      rw [h3]
      cases ha : d.isLayerEnabled a
      · by_cases hl : layer = a
        · subst hl
          simp [DIALOG_PRINT_PCBNEW.setLayerStep, ha]
        · simp [DIALOG_PRINT_PCBNEW.setLayerStep, ha, hl]
      · by_cases hl : layer = a
        · subst hl
          simp [DIALOG_PRINT_PCBNEW.setLayerStep, ha, LSET.test, LSET.set]
        · simp [DIALOG_PRINT_PCBNEW.setLayerStep, ha, hl, LSET.test, LSET.set]

theorem isLayerEnabled_lt (d : DIALOG_PRINT_PCBNEW) (layer : Nat)
    (h : d.isLayerEnabled layer = true) : layer < d.arrayDim := by
  unfold DIALOG_PRINT_PCBNEW.isLayerEnabled at h
  by_contra hn
  rw [if_neg hn] at h
  exact Bool.false_ne_true h

/-- C27: for every state of the layer check lists, `setLayerSetFromList` sets the layer set
of the settings to exactly the layers that are checked (`isLayerEnabled`), returns the page
count it stores in `m_pageCount`, and that count is the number of checked layers when the
pagination selection is 0, is 1 when the selection is not 0 and at least one layer is
checked, and is 0 when no layer is checked. -/
theorem C27_layer_set_and_page_count (d : DIALOG_PRINT_PCBNEW) :
    (∀ layer, d.setLayerSetFromList.2.m_settings.m_layerSet.test layer
        = d.isLayerEnabled layer)
    ∧ d.setLayerSetFromList.1 = d.setLayerSetFromList.2.m_settings.m_pageCount
    ∧ (d.m_boxPagination = 0 → d.setLayerSetFromList.1
        = (((List.range d.arrayDim).filter d.isLayerEnabled).length : Int))
    ∧ (d.m_boxPagination ≠ 0 → (∃ layer, d.isLayerEnabled layer = true) →
        d.setLayerSetFromList.1 = 1)
    ∧ ((∀ layer, d.isLayerEnabled layer = false) → d.setLayerSetFromList.1 = 0) := by
  obtain ⟨h1, _, h3⟩ := foldl_setLayerStep d (List.range d.arrayDim)
    { ({ d.m_settings with m_layerSet := LSET.new } : PCBNEW_PRINTOUT_SETTINGS) with
      m_pageCount := 0 }
  simp only [Int.zero_add] at h1
  have htest : ∀ layer, (decide (layer ∈ List.range d.arrayDim) && d.isLayerEnabled layer)
      = d.isLayerEnabled layer := by
    intro layer
    cases ha : d.isLayerEnabled layer
    · simp
    · simp [isLayerEnabled_lt d layer ha]
  have hfst : d.setLayerSetFromList.1
      = if d.m_boxPagination ≠ 0
          ∧ (0 : Int) < (((List.range d.arrayDim).filter d.isLayerEnabled).length : Int)
        then 1 else (((List.range d.arrayDim).filter d.isLayerEnabled).length : Int) := by
    simp only [DIALOG_PRINT_PCBNEW.setLayerSetFromList, gt_iff_lt, h1]
    split_ifs <;> simp [h1]
  refine ⟨?_, ?_, ?_, ?_, ?_⟩
  · intro layer
    have := h3 layer
    rw [htest] at this
    simp only [DIALOG_PRINT_PCBNEW.setLayerSetFromList]
    split_ifs
    · simpa [LSET.test, LSET.new] using this
    · simpa [LSET.test, LSET.new] using this
  · simp only [DIALOG_PRINT_PCBNEW.setLayerSetFromList]
  · intro h0
    rw [hfst, if_neg (fun hc => hc.1 h0)]
  · intro hn ⟨layer, hl⟩
    have hpos : 0 < ((List.range d.arrayDim).filter d.isLayerEnabled).length :=
      List.length_pos_of_mem (List.mem_filter.mpr
        ⟨List.mem_range.mpr (isLayerEnabled_lt d layer hl), hl⟩)
    rw [hfst, if_pos ⟨hn, by exact_mod_cast hpos⟩]
  · intro hnone
    have hzero : ((List.range d.arrayDim).filter d.isLayerEnabled).length = 0 := by
      rw [List.length_eq_zero, List.filter_eq_nil_iff]
      intro a _
      simp [hnone a]
    rw [hfst, hzero]
    simp

/-- The print dialog on the sample: three checked layers give three pages when each layer
has its page, and one page when all layers share a page. -/
theorem sampleDialog_pages :
    (sampleDialog 0).setLayerSetFromList.1 = 3
    ∧ (sampleDialog 1).setLayerSetFromList.1 = 1
    ∧ (sampleDialog 0).setLayerSetFromList.2.m_settings.m_layerSet.m_bits = [4, 3, 0] := by
  decide

/-! ## Net inspection tool -/

theorem selectionLoop_mismatch :
    ∀ (l : List EDA_ITEM) (net : Int) (Y : BOARD_CONNECTED_ITEM),
      0 ≤ net → EDA_ITEM.connected Y ∈ l → net ≠ Y.GetNetCode → selectionLoop l net = none := by
  intro l
  induction l with
  | nil => intro net Y _ hY; simp at hY
  | cons item rest ih =>
    intro net Y hnet hY hne
    cases item with
    | other type =>
      have hY' : EDA_ITEM.connected Y ∈ rest := by simpa using hY
      simp only [selectionLoop, dyn_cast]
      exact ih net Y hnet hY' hne
    | connected ci =>
      simp only [selectionLoop, dyn_cast]
      rw [if_neg (not_lt.mpr hnet)]
      by_cases hci : net = ci.GetNetCode
      · rw [if_neg (not_not.mpr hci)]
        rcases List.mem_cons.mp hY with h | h
        · have hYci : Y = ci := by simpa using h
          rw [hYci] at hne
          exact absurd hci hne
        · exact ih net Y hnet h hne
      · rw [if_pos hci]

theorem selectionLoop_append :
    ∀ (pre l : List EDA_ITEM) (net : Int),
      selectionLoop (pre ++ l) net = (selectionLoop pre net).bind (selectionLoop l) := by
  intro pre
  induction pre with
  | nil => intro l net; rfl
  | cons item rest ih =>
    intro l net
    cases item with
    | other type =>
      simp only [List.cons_append, selectionLoop, dyn_cast]
      exact ih l net
    | connected ci =>
      simp only [List.cons_append, selectionLoop, dyn_cast]
      split_ifs
      · exact ih l _
      · rfl
      · exact ih l _

theorem selectionLoop_two_nets (pre mid post : List EDA_ITEM) (X Y : BOARD_CONNECTED_ITEM)
    (net : Int) (hX : 0 ≤ X.GetNetCode) (hXY : X.GetNetCode ≠ Y.GetNetCode) :
    selectionLoop (pre ++ EDA_ITEM.connected X :: (mid ++ EDA_ITEM.connected Y :: post)) net
      = none := by
  rw [selectionLoop_append]
  cases hpre : selectionLoop pre net with
  | none => rfl
  | some n =>
    have hrest : selectionLoop (mid ++ EDA_ITEM.connected Y :: post) X.GetNetCode = none :=
      selectionLoop_mismatch _ _ Y hX (by simp) hXY
    simp only [Option.bind, selectionLoop, dyn_cast]
    split_ifs with h1 h2
    · exact hrest
    · rfl
    · have hn : n = X.GetNetCode := not_not.mp h2
      rw [hn]
      exact hrest

/-- C28: `highlightNet` called with `aUseSelection` true, on a selection that holds a
connected item `X` with a non-negative net code and, after it, a connected item `Y` with
another net code, returns `false` and does nothing else: the tool afterwards is the tool
before, with the same highlight state of the render settings, the same `m_lastNetcode`, the
same board and not one more call on the frame. -/
theorem C28_two_nets_selected_does_nothing (E : INSPECTION_COLLABORATORS)
    (t : PCB_INSPECTION_TOOL) (aPosition : VECTOR2D) (pre mid post : List EDA_ITEM)
    (X Y : BOARD_CONNECTED_ITEM)
    (hsel : t.m_selection
      = pre ++ EDA_ITEM.connected X :: (mid ++ EDA_ITEM.connected Y :: post))
    (hX : 0 ≤ X.GetNetCode) (hXY : X.GetNetCode ≠ Y.GetNetCode) :
    t.highlightNet E aPosition true = .ok (false, t) := by
  unfold PCB_INSPECTION_TOOL.highlightNet
  simp only [if_true]
  rw [hsel, selectionLoop_two_nets pre mid post X Y (-1) hX hXY]

/-- C28 with a track of net 3, a text and a track of net 5 selected while net 5 is
highlighted; `highlightNet` returns `false` and leaves the tool as it was. -/
theorem C28_witness_tracks_of_two_nets :
    (sampleTool [] [.connected copperTrack, .other .PCB_TEXT_T, .connected otherTrack]).highlightNet
        sampleInspection ⟨0, 0⟩ true
      = .ok (false,
          sampleTool [] [.connected copperTrack, .other .PCB_TEXT_T, .connected otherTrack]) :=
  C28_two_nets_selected_does_nothing sampleInspection
    (sampleTool [] [.connected copperTrack, .other .PCB_TEXT_T, .connected otherTrack]) ⟨0, 0⟩
    [] [.other .PCB_TEXT_T] [] copperTrack otherTrack rfl (by decide) (by decide)

theorem collectorLoop_fuel (E : INSPECTION_COLLABORATORS) :
    ∀ (fuel i : Nat) (collector : List BOARD_CONNECTED_ITEM) (frame : List MESSAGE),
      collector.length - i ≤ fuel →
        collectorLoop E fuel i collector frame ≠ .error .outOfFuel := by
  intro fuel
  induction fuel with
  | zero =>
    intro i collector frame h
    have hi : ¬ i < collector.length := by omega
    simp [collectorLoop, hi]
  | succ fuel ih =>
    intro i collector frame h
    unfold collectorLoop
    split_ifs with hi
    · split
      · simp
      · rename_i item _
        dsimp only
        by_cases hc : (item.GetLayerSet.and E.AllCuMask).none = true
        · simp only [if_pos hc]
          split
          · simp
          · split_ifs
            · simp
            · apply ih
              rw [List.length_eraseIdx, if_pos hi]
              omega
        · simp only [if_neg hc]
          split
          · simp
          · split_ifs
            · simp
            · apply ih
              omega
    · simp

theorem collectorLoop_of_copper (E : INSPECTION_COLLABORATORS) :
    ∀ (fuel i : Nat) (collector : List BOARD_CONNECTED_ITEM) (frame : List MESSAGE),
      (∀ item ∈ collector, (item.GetLayerSet.and E.AllCuMask).none = false) →
      collector.length - i ≤ fuel →
        ∃ frame2, collectorLoop E fuel i collector frame = .ok (collector, frame2) := by
  intro fuel
  induction fuel with
  | zero =>
    intro i collector frame _ h
    have hi : ¬ i < collector.length := by omega
    exact ⟨frame, by simp [collectorLoop, hi]⟩
  | succ fuel ih =>
    intro i collector frame hcu h
    unfold collectorLoop
    split_ifs with hi
    · have hget : collector[i]? = some collector[i] := List.getElem?_eq_getElem hi
      have hc : ¬ ((collector[i]).GetLayerSet.and E.AllCuMask).none = true := by
        rw [hcu _ (List.getElem_mem hi)]
        exact Bool.false_ne_true
      simp only [hget, if_neg hc]
      split_ifs with hpad
      · exact ⟨_, rfl⟩
      · exact ih (i + 1) collector frame hcu (by omega)
    · exact ⟨frame, rfl⟩

/-- C25: on the cursor path the loop that drops non-copper items does index the collector
out of range.  With a single collected item that has no copper layer (an aperture pad),
`collector.Remove( 0 )` empties the collector and the `collector[0]` that follows it in the
same iteration is evaluated with `GetCount() == 0`; with a copper track followed by an
aperture pad it is `collector[1]` with `GetCount() == 1`; and `highlightNet` itself, called
without the selection at the position of a lone aperture pad, runs into the first of these
accesses. -/
theorem C25_access_after_remove_is_out_of_range :
    collectorLoop sampleInspection 1 0 [aperturePad] [] = .error (.outOfRange 0 0)
    ∧ collectorLoop sampleInspection 2 0 [copperTrack, aperturePad] []
        = .error (.outOfRange 1 1)
    ∧ sampleInspection.Collect (sampleBoard [(⟨0, 0⟩, aperturePad)]) .PadsOrTracks ⟨0, 0⟩
        = [aperturePad]
    ∧ (sampleTool [(⟨0, 0⟩, aperturePad)] []).highlightNet sampleInspection ⟨0, 0⟩ false
        = .error (.outOfRange 0 0) :=
  ⟨rfl, rfl, rfl, rfl⟩

end pcbnew
